import Mathlib

/-!
# Admin-channel bridge of the call control library (`src/src/clunix.c`)

A shallow embedding of the `_REENTRANT` build of `clunix.c`: the channel
table `pipes`, `read_safely` and `srvioctl`.

* Machine integers are `Int`/`Nat`; `int` arithmetic wraps at 32 bits
  (`to_int`), `size_t` arithmetic at 64 bits (`to_size_t`).
* The operating system is an explicit environment: the answers of `pipe`,
  `pthread_mutex_lock`, `writev`, `malloc` and of the blocking `read` on the
  completion pipe are inputs, what arrives on the channel's stream is a list
  of `Chunk`s, and every call made is appended to a trace of `Event`s.
* `mvcldrvr.h`, `ras_info.h` and `pipe_interface.h` are not part of the
  sources at hand, so the constants, sizes and the record layout they
  declare are the parameter `Consts`.
-/

namespace Clunix

/-! ## Constants and types of the missing headers -/

/-- The number of entries of the channel table, `#define MAXNUMPIPES 2`. -/
def MAXNUMPIPES : Int := 2

/-- Index of the H.323 channel, `#define H323_PIPE_INDEX 0`. -/
def H323_PIPE_INDEX : Int := 0

/-- Index of the SIP channel, `#define SIP_PIPE_INDEX 1`. -/
def SIP_PIPE_INDEX : Int := 1

/-- The fields of `ACU_SERVICE_MSG` that `clunix.c` uses. -/
structure ACU_SERVICE_MSG where
  voip_card : Int
  function : Int
  message_type : Int
  pendingMsgEvent : Int
  valid : Int
  command_error : Int
  deriving DecidableEq, Repr

/-- The header after `memset(&msg, 0, sizeof(msg))`. -/
def ACU_SERVICE_MSG.zero : ACU_SERVICE_MSG :=
  { voip_card := 0, function := 0, message_type := 0, pendingMsgEvent := 0,
    valid := 0, command_error := 0 }

/-- The fields of `voip_admin_msg` that `clunix.c` uses; pointers are
addresses, `0` being the null pointer, and `other` stands for the rest of
the record. -/
structure voip_admin_msg where
  endpoint_alias_count : Int
  endpoint_alias : Nat
  prefix_count : Int
  prefixes : Nat
  other : List Nat
  deriving DecidableEq, Repr

/-- What the headers that are not at hand declare: error codes, operation
codes, message-kind tags, the sizes of the three wire records, the effect of
`init_api_reg` on the caller's block, and the layout of `voip_admin_msg`
(`store r bs` is the record `r` after `bs` was copied over its first
`bs.length` bytes). -/
structure Consts where
  ERR_NET : Int
  ERR_CFAIL : Int
  CALL_GET_RAS_MSG : Int
  CALL_SEND_RAS_MSG : Int
  ADMIN_CHAN_RAS_MSG : Int
  TLS_MSG_GENERIC_TLS : Int
  sizeof_msg : Nat
  sizeof_admin_msg : Nat
  sizeof_alias_address : Nat
  init_api_reg : List Nat → Int → List Nat
  store : voip_admin_msg → List Nat → voip_admin_msg

/-- What a C compiler and the use of the codes force on the constants: the
labels of one `switch` are distinct, the two error codes are distinct
negative codes, no wire record is empty, and the sizes fit their types. -/
structure Consts.wf (K : Consts) : Prop where
  opcodes : K.CALL_GET_RAS_MSG ≠ K.CALL_SEND_RAS_MSG
  tags : K.TLS_MSG_GENERIC_TLS ≠ K.ADMIN_CHAN_RAS_MSG
  errors : K.ERR_NET ≠ K.ERR_CFAIL
  net_neg : K.ERR_NET < 0
  cfail_neg : K.ERR_CFAIL < 0
  msg_pos : 0 < K.sizeof_msg
  admin_pos : 0 < K.sizeof_admin_msg
  alias_pos : 0 < K.sizeof_alias_address
  alias_small : K.sizeof_alias_address < 2 ^ 32
  msg_small : K.sizeof_msg < 2 ^ 31
  admin_small : K.sizeof_admin_msg < 2 ^ 31

/-! ## Machine arithmetic -/

/-- Conversion to `int` (32 bits, two's complement). -/
def to_int (x : Int) : Int := (x + 2 ^ 31) % 2 ^ 32 - 2 ^ 31

/-- Conversion to `size_t` (64 bits). -/
def to_size_t (x : Int) : Nat := (x % 2 ^ 64).toNat

/-! ## The channel table -/

/-- One entry of `pipes`: the stream handle and the holding area for the
header the listener received last.  The lock and the semaphore of the entry
appear in the trace only. -/
structure pipe_data where
  fd : Int
  svc_msg : ACU_SERVICE_MSG
  deriving DecidableEq, Repr

/-- The table `static struct pipe_data pipes[]`, which has exactly the two
entries of its initialiser. -/
structure Pipes where
  h323 : pipe_data
  sip : pipe_data
  deriving DecidableEq, Repr

/-- Load of `pipes[i]`: `none` when `i` is not an index of the table. -/
def Pipes.get? (ps : Pipes) (i : Int) : Option pipe_data :=
  if i = H323_PIPE_INDEX then some ps.h323
  else if i = SIP_PIPE_INDEX then some ps.sip
  else none

/-! ## The environment -/

/-- One thing that happens on the channel's stream when it is read: the
read is interrupted (`errno == EINTR`), fails with another error, reports
end of stream, or finds the bytes `bs` that have arrived. -/
inductive Chunk where
  | eintr
  | error
  | eof
  | data (bs : List Nat)
  deriving DecidableEq, Repr

/-- The memory object an `iovec` points to. -/
inductive Base where
  | msg
  | pioctlu
  | admin_msg
  | endpoint_alias (p : Nat)
  | prefixes (p : Nat)
  deriving DecidableEq, Repr

/-- One entry of the I/O vector. -/
structure iovec where
  iov_base : Base
  iov_len : Nat
  deriving DecidableEq, Repr

/-- The calls `srvioctl` and `read_safely` make, as the trace records them. -/
inductive Event where
  | pipe (ret : Int) (fds : Int × Int)
  | mutex_lock (i : Int) (ret : Int)
  | mutex_unlock (i : Int)
  | writev (fd : Int) (msg : ACU_SERVICE_MSG) (iov : List iovec) (ret : Int)
  | close (fd : Int)
  | read (fd : Int) (size : Nat)
  | malloc (size : Nat) (ptr : Nat)
  | free (ptr : Nat)
  | sem_post (i : Int)
  deriving DecidableEq, Repr

/-- The answers of the operating system to the calls of one `srvioctl` that
are made at most once, and the indeterminate initial contents of the local
`block_pipe`. -/
structure Env where
  block_pipe : Int × Int
  pipe_ret : Int
  pipe_fds : Int × Int
  lock_ret : Int
  writev_ret : Int
  wait_ret : Int
  deriving DecidableEq, Repr

/-- The state `srvioctl` runs in: the channel table, what is still to
arrive on the stream, the pointers the next calls of `malloc` return (`0`,
or nothing left, is a failed allocation), the contents of allocated arrays,
and the trace. -/
structure World where
  pipes : Pipes
  chan : List Chunk
  mallocs : List Nat
  heap : List (Nat × List Nat)
  trace : List Event
  deriving DecidableEq, Repr

/-- The caller's `IOCTLU` and what it points to: the union as a block of
bytes, the record `voip_admin_out_xparms.admin_msg` points to, the record
`voip_admin_in_xparms.admin_msg` points to, and
`voip_admin_in_xparms.valid`. -/
structure IOCTLU where
  block : List Nat
  out_admin : voip_admin_msg
  in_admin : voip_admin_msg
  in_valid : Int
  deriving DecidableEq, Repr

/-- Whether an event is a call of `writev`. -/
def Event.is_writev : Event → Bool
  | Event.writev _ _ _ _ => true
  | _ => false

/-- Append an event to the trace. -/
def World.log (w : World) (e : Event) : World := { w with trace := w.trace ++ [e] }

/-! ## read_safely -/

/-- The answer of one `read(fd, loc, size)`. -/
structure ReadRet where
  ret : Int
  eintr : Bool
  bytes : List Nat
  left : List Chunk
  deriving DecidableEq, Repr

/-- One `read(fd, loc, size)` that meets the chunk `c`: at most `size`
bytes are delivered, and what does not fit stays on the stream. -/
def sys_read (c : Chunk) (size : Nat) : ReadRet :=
  match c with
  | Chunk.eintr => { ret := -1, eintr := true, bytes := [], left := [] }
  | Chunk.error => { ret := -1, eintr := false, bytes := [], left := [] }
  | Chunk.eof => { ret := 0, eintr := false, bytes := [], left := [] }
  | Chunk.data bs =>
    if bs.length ≤ size then
      { ret := bs.length, eintr := false, bytes := bs, left := [] }
    else
      { ret := size, eintr := false, bytes := bs.take size,
        left := [Chunk.data (bs.drop size)] }

/-- The result of `read_safely`: its return value, the bytes it stored at
`buf`, in order, and the world afterwards. -/
structure ReadSafely where
  ret : Int
  stored : List Nat
  chan : List Chunk
  trace : List Event
  deriving DecidableEq, Repr

/-- The loop of `read_safely`.  `got` is what was stored between `buf` and
`loc` so far.  `bytes_read` is never assigned after its initialisation, so
the loop condition is `0 < size`.  A read that finds nothing left on the
stream reports end of stream.  After a partial read the chunk is used up. -/
def read_safely_loop (K : Consts) (fd : Int) :
    List Chunk → Nat → List Nat → List Event → ReadSafely
  | [], size, got, tr =>
    let bytes_read : Nat := 0
    if bytes_read < size then
      { ret := K.ERR_CFAIL, stored := got, chan := [], trace := tr ++ [Event.read fd size] }
    else
      { ret := K.ERR_CFAIL, stored := got, chan := [], trace := tr }
  | c :: rest, size, got, tr =>
    let bytes_read : Nat := 0
    if bytes_read < size then
      let r := sys_read c size
      let tr1 := tr ++ [Event.read fd size]
      if r.ret < 0 then
        if r.eintr then read_safely_loop K fd rest size got tr1
        else { ret := K.ERR_CFAIL, stored := got, chan := rest, trace := tr1 }
      else if r.ret = 0 then
        { ret := K.ERR_CFAIL, stored := got, chan := rest, trace := tr1 }
      else if r.ret = size then
        { ret := 0, stored := got ++ r.bytes, chan := r.left ++ rest, trace := tr1 }
      else
        read_safely_loop K fd rest (size - r.ret.toNat) (got ++ r.bytes) tr1
    else
      { ret := K.ERR_CFAIL, stored := got, chan := c :: rest, trace := tr }

/-- The function `read_safely(fd, buf, size)` run in the world `w`. -/
def read_safely (K : Consts) (w : World) (fd : Int) (size : Nat) : ReadSafely :=
  read_safely_loop K fd w.chan size [] w.trace

/-- The world after a `read_safely`. -/
def World.after (w : World) (r : ReadSafely) : World :=
  { w with chan := r.chan, trace := r.trace }

/-- A call of `malloc(size)`: the next scripted pointer, `0` (null) when the
script is used up. -/
def malloc (w : World) (size : Nat) : Nat × World :=
  (w.mallocs.headD 0,
    { w with mallocs := w.mallocs.tail,
             trace := w.trace ++ [Event.malloc size (w.mallocs.headD 0)] })

/-- The bytes `bs` are now what the array at `p` holds. -/
def World.poke (w : World) (p : Nat) (bs : List Nat) : World :=
  { w with heap := (p, bs) :: w.heap }

/-- The bytes the array at `p` holds, if any were stored there. -/
def World.peek (w : World) (p : Nat) : Option (List Nat) := w.heap.lookup p

/-- The buffer `old` after `bs` was copied over its first bytes. -/
def overlay (old bs : List Nat) : List Nat := bs ++ old.drop bs.length

/-! ## srvioctl -/

/-- How a call of `srvioctl` ends: it returns `v`, or it has loaded an entry
of `pipes` that does not exist (undefined behaviour in C). -/
inductive Outcome where
  | ret (v : Int)
  | fault
  deriving DecidableEq, Repr

/-- What a call of `srvioctl` leaves behind. -/
structure Result where
  outcome : Outcome
  pioctlu : IOCTLU
  world : World
  deriving DecidableEq, Repr

/-- The first `switch (function)` (lines 522-530): the kind tag of the
outgoing header. -/
def message_type_of (K : Consts) (function : Int) : Int :=
  if function = K.CALL_GET_RAS_MSG ∨ function = K.CALL_SEND_RAS_MSG then
    K.ADMIN_CHAN_RAS_MSG
  else
    K.TLS_MSG_GENERIC_TLS

/-- The header `srvioctl` composes (lines 517-530), before the completion
reference is filled in. -/
def header_of (K : Consts) (function : Int) (board_card_number : Int) : ACU_SERVICE_MSG :=
  { ACU_SERVICE_MSG.zero with
    voip_card := board_card_number, function := function,
    message_type := message_type_of K function }

/-- The I/O vector and the expected total length; `iov_count` is the length
of `iov`. -/
structure Composed where
  iov : List iovec
  iov_size : Int
  deriving DecidableEq, Repr

/-- Assembling the I/O vector (lines 532-585). -/
def compose (K : Consts) (function : Int) (message_type : Int) (pioctlu : IOCTLU)
    (len : Int) : Composed :=
  let iov : List iovec := [{ iov_base := Base.msg, iov_len := K.sizeof_msg }]
  let iov_size : Int := to_int (0 + K.sizeof_msg)
  if message_type = K.TLS_MSG_GENERIC_TLS then
    { iov := iov ++ [{ iov_base := Base.pioctlu, iov_len := to_size_t len }],
      iov_size := to_int (iov_size + len) }
  else if message_type = K.ADMIN_CHAN_RAS_MSG then
    let admin_msg := pioctlu.out_admin
    if function = K.CALL_GET_RAS_MSG then
      { iov := iov, iov_size := iov_size }
    else
      let iov := iov ++ [{ iov_base := Base.admin_msg, iov_len := K.sizeof_admin_msg }]
      let iov_size := to_int (iov_size + K.sizeof_admin_msg)
      let a : Composed :=
        if admin_msg.endpoint_alias_count > 0 then
          let n := to_size_t (K.sizeof_alias_address * admin_msg.endpoint_alias_count)
          { iov := iov ++ [{ iov_base := Base.endpoint_alias admin_msg.endpoint_alias,
                             iov_len := n }],
            iov_size := to_int (iov_size + n) }
        else
          { iov := iov, iov_size := iov_size }
      if admin_msg.prefix_count > 0 then
        let n := to_size_t (K.sizeof_alias_address * admin_msg.prefix_count)
        { iov := a.iov ++ [{ iov_base := Base.prefixes admin_msg.prefixes, iov_len := n }],
          iov_size := to_int (a.iov_size + n) }
      else
        a
  else
    { iov := iov, iov_size := iov_size }

/-- The label `fail:` (lines 737-741). -/
def srvioctl_fail (K : Consts) (w : World) (pioctlu : IOCTLU) (voip_protocol : Int) :
    Result :=
  { outcome := Outcome.ret K.ERR_CFAIL, pioctlu := pioctlu,
    world := w.log (Event.sem_post voip_protocol) }

/-- The regular end of the reply stage (lines 732-735). -/
def srvioctl_done (w : World) (pioctlu : IOCTLU) (voip_protocol : Int)
    (msg : ACU_SERVICE_MSG) : Result :=
  { outcome := Outcome.ret msg.command_error, pioctlu := pioctlu,
    world := w.log (Event.sem_post voip_protocol) }

/-- The part `Prefixes?` of the administrative reply (lines 704-725). -/
def srvioctl_prefixes (K : Consts) (w : World) (pioctlu : IOCTLU) (voip_protocol : Int)
    (fd : Int) (msg : ACU_SERVICE_MSG) : Result :=
  if pioctlu.in_admin.prefix_count > 0 then
    let size := to_size_t (pioctlu.in_admin.prefix_count * K.sizeof_alias_address)
    let m := malloc w size
    let pioctlu := { pioctlu with in_admin := { pioctlu.in_admin with prefixes := m.1 } }
    if pioctlu.in_admin.prefixes = 0 then
      srvioctl_fail K (m.2.log (Event.free pioctlu.in_admin.endpoint_alias)) pioctlu
        voip_protocol
    else
      let r := read_safely K m.2 fd size
      let w := (m.2.after r).poke pioctlu.in_admin.prefixes r.stored
      if r.ret ≠ 0 then
        srvioctl_fail K
          ((w.log (Event.free pioctlu.in_admin.endpoint_alias)).log
            (Event.free pioctlu.in_admin.prefixes))
          pioctlu voip_protocol
      else
        srvioctl_done w pioctlu voip_protocol msg
  else
    srvioctl_done w pioctlu voip_protocol msg

/-- The part `Any aliases to read?` of the administrative reply (lines
685-702), followed by the prefixes. -/
def srvioctl_aliases (K : Consts) (w : World) (pioctlu : IOCTLU) (voip_protocol : Int)
    (fd : Int) (msg : ACU_SERVICE_MSG) : Result :=
  if pioctlu.in_admin.endpoint_alias_count > 0 then
    let size := to_size_t (pioctlu.in_admin.endpoint_alias_count * K.sizeof_alias_address)
    let m := malloc w size
    let pioctlu := { pioctlu with in_admin := { pioctlu.in_admin with endpoint_alias := m.1 } }
    if pioctlu.in_admin.endpoint_alias = 0 then
      srvioctl_fail K m.2 pioctlu voip_protocol
    else
      let r := read_safely K m.2 fd size
      let w := (m.2.after r).poke pioctlu.in_admin.endpoint_alias r.stored
      if r.ret ≠ 0 then
        srvioctl_fail K (w.log (Event.free pioctlu.in_admin.endpoint_alias)) pioctlu
          voip_protocol
      else
        srvioctl_prefixes K w pioctlu voip_protocol fd msg
  else
    srvioctl_prefixes K w pioctlu voip_protocol fd msg

/-- The second `switch (msg.message_type)` (lines 651-735): reading the
reply payload that follows the header `msg`. -/
def srvioctl_reply (K : Consts) (w : World) (pioctlu : IOCTLU) (len : Int)
    (voip_protocol : Int) (fd : Int) (msg : ACU_SERVICE_MSG) : Result :=
  if msg.message_type = K.TLS_MSG_GENERIC_TLS then
    let r := read_safely K w fd (to_size_t len)
    let pioctlu := { pioctlu with block := overlay pioctlu.block r.stored }
    if r.ret ≠ 0 then srvioctl_fail K (w.after r) pioctlu voip_protocol
    else srvioctl_done (w.after r) pioctlu voip_protocol msg
  else if msg.message_type = K.ADMIN_CHAN_RAS_MSG then
    let pioctlu :=
      { pioctlu with in_admin := { pioctlu.in_admin with prefixes := 0, endpoint_alias := 0 } }
    if msg.valid = 0 then
      srvioctl_done w pioctlu voip_protocol msg
    else
      let r := read_safely K w fd K.sizeof_admin_msg
      let pioctlu := { pioctlu with in_admin := K.store pioctlu.in_admin r.stored }
      if r.ret ≠ 0 then srvioctl_fail K (w.after r) pioctlu voip_protocol
      else
        srvioctl_aliases K (w.after r) { pioctlu with in_valid := 1 } voip_protocol fd msg
  else
    srvioctl_done w pioctlu voip_protocol msg

/-- From taking the write lock to the end (lines 602-742).  `block_pipe` is
what the local array holds at this point and `msg` the header to send. -/
def srvioctl_write (K : Consts) (env : Env) (w : World) (function : Int)
    (pioctlu : IOCTLU) (len : Int) (voip_protocol : Int) (p : pipe_data)
    (block_pipe : Int × Int) (msg : ACU_SERVICE_MSG) (c : Composed) : Result :=
  let w := w.log (Event.mutex_lock voip_protocol env.lock_ret)
  if env.lock_ret ≠ 0 then
    { outcome := Outcome.ret K.ERR_CFAIL, pioctlu := pioctlu,
      world := (w.log (Event.close block_pipe.1)).log (Event.close block_pipe.2) }
  else
    let w := w.log (Event.writev p.fd msg c.iov env.writev_ret)
    if env.writev_ret ≠ c.iov_size then
      let w := w.log (Event.mutex_unlock voip_protocol)
      let w :=
        if function ≠ K.CALL_SEND_RAS_MSG then
          (w.log (Event.close block_pipe.1)).log (Event.close block_pipe.2)
        else w
      { outcome := Outcome.ret K.ERR_CFAIL, pioctlu := pioctlu, world := w }
    else
      let w := w.log (Event.mutex_unlock voip_protocol)
      if function = K.CALL_SEND_RAS_MSG then
        { outcome := Outcome.ret 0, pioctlu := pioctlu, world := w }
      else
        let w := w.log (Event.read block_pipe.1 4)
        let w := w.log (Event.close block_pipe.1)
        if env.wait_ret ≠ 0 then
          { outcome := Outcome.ret K.ERR_CFAIL, pioctlu := pioctlu,
            world := w.log (Event.close block_pipe.2) }
        else
          srvioctl_reply K w pioctlu len voip_protocol p.fd p.svc_msg

/-- The function `srvioctl(function, pioctlu, len, board_card_number,
voip_protocol)`, run in the world `w` with the answers `env`. -/
def srvioctl (K : Consts) (env : Env) (w : World) (function : Int) (pioctlu : IOCTLU)
    (len : Int) (board_card_number : Int) (voip_protocol : Int) : Result :=
  if voip_protocol < 0 ∨ voip_protocol > MAXNUMPIPES then
    { outcome := Outcome.ret K.ERR_NET, pioctlu := pioctlu, world := w }
  else
    match w.pipes.get? voip_protocol with
    | none => { outcome := Outcome.fault, pioctlu := pioctlu, world := w }
    | some p =>
      if p.fd < 0 then
        { outcome := Outcome.ret K.ERR_CFAIL, pioctlu := pioctlu, world := w }
      else
        let pioctlu := { pioctlu with block := K.init_api_reg pioctlu.block len }
        let msg : ACU_SERVICE_MSG := header_of K function board_card_number
        let c := compose K function msg.message_type pioctlu len
        if function ≠ K.CALL_SEND_RAS_MSG then
          let w := w.log (Event.pipe env.pipe_ret env.pipe_fds)
          if env.pipe_ret ≠ 0 then
            { outcome := Outcome.ret K.ERR_CFAIL, pioctlu := pioctlu, world := w }
          else
            srvioctl_write K env w function pioctlu len voip_protocol p env.pipe_fds
              { msg with pendingMsgEvent := env.pipe_fds.2 } c
        else
          srvioctl_write K env w function pioctlu len voip_protocol p env.block_pipe msg c

/-! ## What a stream hands over -/

/-- The stream hands over `n` more bytes before any end of stream or error;
interruptions may come in between, and a chunk without bytes is an end of
stream. -/
def supplies : List Chunk → Nat → Bool
  | _, 0 => true
  | [], _ + 1 => false
  | Chunk.eintr :: rest, n + 1 => supplies rest (n + 1)
  | Chunk.data bs :: rest, n + 1 =>
    bs ≠ [] && (n + 1 ≤ bs.length || supplies rest (n + 1 - bs.length))
  | Chunk.error :: _, _ + 1 => false
  | Chunk.eof :: _, _ + 1 => false

/-- The next `n` bytes of the stream, in order. -/
def stream_take : List Chunk → Nat → List Nat
  | _, 0 => []
  | [], _ + 1 => []
  | Chunk.eintr :: rest, n + 1 => stream_take rest (n + 1)
  | Chunk.data bs :: rest, n + 1 =>
    if n + 1 ≤ bs.length then bs.take (n + 1) else bs ++ stream_take rest (n + 1 - bs.length)
  | Chunk.error :: _, _ + 1 => []
  | Chunk.eof :: _, _ + 1 => []

/-- The stream right after its next `n` bytes were taken. -/
def stream_drop : List Chunk → Nat → List Chunk
  | chan, 0 => chan
  | [], _ + 1 => []
  | Chunk.eintr :: rest, n + 1 => stream_drop rest (n + 1)
  | Chunk.data bs :: rest, n + 1 =>
    if n + 1 < bs.length then Chunk.data (bs.drop (n + 1)) :: rest
    else if n + 1 = bs.length then rest
    else stream_drop rest (n + 1 - bs.length)
  | Chunk.error :: rest, _ + 1 => rest
  | Chunk.eof :: rest, _ + 1 => rest

/-- The calls of `read` on `fd` that fetch the next `n` bytes, each asking
for what is still missing. -/
def stream_reads (fd : Int) : List Chunk → Nat → List Event
  | _, 0 => []
  | [], n + 1 => [Event.read fd (n + 1)]
  | Chunk.eintr :: rest, n + 1 => Event.read fd (n + 1) :: stream_reads fd rest (n + 1)
  | Chunk.data bs :: rest, n + 1 =>
    Event.read fd (n + 1) ::
      (if n + 1 ≤ bs.length then [] else stream_reads fd rest (n + 1 - bs.length))
  | Chunk.error :: _, n + 1 => [Event.read fd (n + 1)]
  | Chunk.eof :: _, n + 1 => [Event.read fd (n + 1)]

/-! ## A concrete set of constants -/

/-- A small layout of `voip_admin_msg`: four one-byte fields, in the order
alias count, alias pointer, prefix count, prefix pointer. -/
def Consts.sample_store (r : voip_admin_msg) (bs : List Nat) : voip_admin_msg :=
  { endpoint_alias_count := (bs.get? 0).elim r.endpoint_alias_count Int.ofNat,
    endpoint_alias := (bs.get? 1).getD r.endpoint_alias,
    prefix_count := (bs.get? 2).elim r.prefix_count Int.ofNat,
    prefixes := (bs.get? 3).getD r.prefixes,
    other := r.other }

/-- One admissible choice of what the missing headers declare, used to run
the code on concrete inputs. -/
def Consts.sample : Consts :=
  { ERR_NET := -4, ERR_CFAIL := -10,
    CALL_GET_RAS_MSG := 100, CALL_SEND_RAS_MSG := 101,
    ADMIN_CHAN_RAS_MSG := 2, TLS_MSG_GENERIC_TLS := 1,
    sizeof_msg := 24, sizeof_admin_msg := 4, sizeof_alias_address := 2,
    init_api_reg := fun block _ => block,
    store := Consts.sample_store }

/-- A reply header with the given kind tag, validity flag and status. -/
def ACU_SERVICE_MSG.reply (message_type valid command_error : Int) : ACU_SERVICE_MSG :=
  { ACU_SERVICE_MSG.zero with
    message_type := message_type, valid := valid, command_error := command_error }

/-- A stream that delivers the record `[1, 99, 2, 98]` (one alias, two
prefixes, stale pointer fields 99 and 98), the alias `[11, 12]`, the
prefixes `[21, 22, 23, 24]` and one more byte, in pieces and with an
interruption. -/
def Chunk.sample_stream : List Chunk :=
  [Chunk.data [1, 99], Chunk.eintr, Chunk.data [2, 98, 11, 12, 21],
   Chunk.data [22, 23, 24, 55]]

/-- A record with no arrays. -/
def voip_admin_msg.empty : voip_admin_msg :=
  { endpoint_alias_count := 0, endpoint_alias := 0, prefix_count := 0, prefixes := 0,
    other := [] }

/-- A caller's block of four bytes with empty records. -/
def IOCTLU.sample : IOCTLU :=
  { block := [1, 2, 3, 4], out_admin := voip_admin_msg.empty,
    in_admin := voip_admin_msg.empty, in_valid := 0 }

/-- A world in which the H.323 channel is connected on descriptor 5, the SIP
channel is not, the header `svc_msg` is deposited on the H.323 channel and
`chan` is to arrive on it. -/
def World.sample (svc_msg : ACU_SERVICE_MSG) (chan : List Chunk) (mallocs : List Nat) :
    World :=
  { pipes := { h323 := { fd := 5, svc_msg := svc_msg },
               sip := { fd := -1, svc_msg := ACU_SERVICE_MSG.zero } },
    chan := chan, mallocs := mallocs, heap := [], trace := [] }

/-- Answers with which no call fails: the completion pipe is `(8, 9)`, the
lock is taken, `writev` accepts `n` bytes and the wait ends with end of
file. -/
def Env.sample (n : Int) : Env :=
  { block_pipe := (77, 78), pipe_ret := 0, pipe_fds := (8, 9), lock_ret := 0,
    writev_ret := n, wait_ret := 0 }

/-! ## The registry of usable channels -/

/-- The data behind `get_voip_protocol_index_array`: `running_pipe_count`,
the array `usable_voip_indexes` of `MAXNUMPIPES` entries, and whether the
once-only initialisation (`init_array`) has run. -/
structure Registry where
  running_pipe_count : Int
  usable_voip_indexes : List Int
  init_array : Bool
  deriving DecidableEq, Repr

/-- The static initialisers: no pipe counted, both entries `-1`, the
initialisation not run. -/
def Registry.initial : Registry :=
  { running_pipe_count := 0, usable_voip_indexes := [-1, -1], init_array := false }

/-- The values `i` takes in `for (i = 0; i < MAXNUMPIPES; i++)`. -/
def pipe_indexes : List Int := (List.range MAXNUMPIPES.toNat).map Int.ofNat

/-- The body of the loop of `init_voip_index_array` for one `i`.  A store
past the end of the array, which cannot happen on the first run, is
dropped. -/
def init_voip_index_array_step (pipes : Pipes) (r : Registry) (i : Int) : Registry :=
  match pipes.get? i with
  | some p =>
    if p.fd ≠ -1 then
      { r with
        usable_voip_indexes := r.usable_voip_indexes.set r.running_pipe_count.toNat i,
        running_pipe_count := to_int (r.running_pipe_count + 1) }
    else r
  | none => r

/-- The function `init_voip_index_array`. -/
def init_voip_index_array (pipes : Pipes) (r : Registry) : Registry :=
  pipe_indexes.foldl (init_voip_index_array_step pipes) r

/-- What `get_voip_protocol_index_array` leaves behind: the array the
returned pointer points to (`none` for a null pointer), the cell
`num_of_protocols` points to (`none` when the argument is null), and the
registry. -/
structure IndexArray where
  ret : Option (List Int)
  num_of_protocols : Option Int
  registry : Registry
  deriving DecidableEq, Repr

/-- The function `get_voip_protocol_index_array(num_of_protocols)`; the
argument is `none` for a null pointer and `some v` for a pointer to a cell
that holds `v`.  The first lines stand for `pthread_once`. -/
def get_voip_protocol_index_array (pipes : Pipes) (r : Registry)
    (num_of_protocols : Option Int) : IndexArray :=
  let r :=
    if r.init_array then r else { init_voip_index_array pipes r with init_array := true }
  match num_of_protocols with
  | none => { ret := none, num_of_protocols := none, registry := r }
  | some _ =>
    { ret := some r.usable_voip_indexes, num_of_protocols := some r.running_pipe_count,
      registry := r }

/-! ## Channel bootstrap -/

/-- The semaphores of start-up: `pipes[i].read_complete` and the local
`startup.started`. -/
inductive Sem where
  | read_complete (i : Int)
  | started
  deriving DecidableEq, Repr

/-- The calls made during start-up, as the trace records them. -/
inductive Call where
  | sem_init (s : Sem) (ret : Int)
  | sem_destroy (s : Sem)
  | sem_wait (s : Sem) (ret : Int)
  | socketpair (ret : Int) (fds : Int × Int)
  | socket (ret : Int)
  | connect (fd : Int) (channel : Int) (ret : Int)
  | sendmsg (fd : Int) (passed : Int) (ret : Int)
  | close (fd : Int)
  | pthread_create (channel : Int) (ret : Int)
  deriving DecidableEq, Repr

/-- The process during start-up: the channel table, the descriptors that
are open, the channels whose listener thread runs, and the trace. -/
structure Proc where
  pipes : Pipes
  open_fds : List Int
  listeners : List Int
  calls : List Call
  deriving DecidableEq, Repr

/-- The answers of the operating system to the calls of one
`init_pipe_admin_thread`.  `pipesockets` is what `socketpair` stores when it
succeeds; `connect_ret` is the answer of `connect` on a valid descriptor;
`cmsg_null` tells whether `CMSG_FIRSTHDR` yields a null pointer. -/
structure BootEnv where
  sem_init_ret : Int
  socketpair_ret : Int
  pipesockets : Int × Int
  socket_ret : Int
  connect_ret : Int
  cmsg_null : Bool
  sendmsg_ret : Int
  deriving DecidableEq, Repr

/-- Append a call to the trace. -/
def Proc.log (s : Proc) (c : Call) : Proc := { s with calls := s.calls ++ [c] }

/-- A call of `close(fd)`: an open descriptor is closed; on a negative
number the call fails and changes nothing. -/
def Proc.close (s : Proc) (fd : Int) : Proc :=
  { s with
    open_fds := if fd < 0 then s.open_fds else s.open_fds.erase fd,
    calls := s.calls ++ [Call.close fd] }

/-- The answer of `connect` on `fd`: a negative number is no descriptor and
the call fails with `-1`. -/
def sys_connect (fd : Int) (ret : Int) : Int := if fd < 0 then -1 else ret

/-- The answers with which `init_pipe_admin_thread` reaches its `return 0`:
no call is taken to have failed. -/
def BootEnv.succeeds (e : BootEnv) : Bool :=
  decide (e.sem_init_ret = 0 ∧ e.socketpair_ret = 0 ∧ e.socket_ret ≠ 0 ∧
    sys_connect e.socket_ret e.connect_ret = 0 ∧ e.cmsg_null = false ∧ e.sendmsg_ret ≠ -1)

/-- Store of `pipes[i].fd = fd`. -/
def Pipes.set_fd (ps : Pipes) (i : Int) (fd : Int) : Pipes :=
  if i = H323_PIPE_INDEX then { ps with h323 := { ps.h323 with fd := fd } }
  else if i = SIP_PIPE_INDEX then { ps with sip := { ps.sip with fd := fd } }
  else ps

/-- The labels `fail_sem:` and `fail:` of `init_pipe_admin_thread`. -/
def init_fail_sem (K : Consts) (s : Proc) (pipe_number : Int) : Int × Proc :=
  (K.ERR_CFAIL, s.log (Call.sem_destroy (Sem.read_complete pipe_number)))

/-- The label `fail_pipe:` of `init_pipe_admin_thread`. -/
def init_fail_pipe (K : Consts) (e : BootEnv) (s : Proc) (pipe_number : Int) : Int × Proc :=
  init_fail_sem K ((s.close e.pipesockets.1).close e.pipesockets.2) pipe_number

/-- The label `fail_bootsock:` of `init_pipe_admin_thread`. -/
def init_fail_bootsock (K : Consts) (e : BootEnv) (s : Proc) (pipe_number : Int)
    (bootsocket : Int) : Int × Proc :=
  init_fail_pipe K e (s.close bootsocket) pipe_number

/-- The function `init_pipe_admin_thread(pipe_number)` (`_REENTRANT`
build), run in the process state `s` with the answers `e`. -/
def init_pipe_admin_thread (K : Consts) (e : BootEnv) (s : Proc) (pipe_number : Int) :
    Int × Proc :=
  let s := s.log (Call.sem_init (Sem.read_complete pipe_number) e.sem_init_ret)
  if e.sem_init_ret ≠ 0 then (K.ERR_CFAIL, s)
  else
    let s := { s with pipes := s.pipes.set_fd pipe_number (-1) }
    let s := s.log (Call.socketpair e.socketpair_ret e.pipesockets)
    if e.socketpair_ret ≠ 0 then init_fail_sem K s pipe_number
    else
      let s := { s with open_fds := e.pipesockets.1 :: e.pipesockets.2 :: s.open_fds }
      let s := s.log (Call.socket e.socket_ret)
      let s := if 0 ≤ e.socket_ret then { s with open_fds := e.socket_ret :: s.open_fds } else s
      if e.socket_ret = 0 then init_fail_pipe K e s pipe_number
      else
        let bootsocket := e.socket_ret
        let ret := sys_connect bootsocket e.connect_ret
        let s := s.log (Call.connect bootsocket pipe_number ret)
        if ret ≠ 0 then init_fail_bootsock K e s pipe_number bootsocket
        else if e.cmsg_null then init_fail_bootsock K e s pipe_number bootsocket
        else
          let s := s.log (Call.sendmsg bootsocket e.pipesockets.2 e.sendmsg_ret)
          if e.sendmsg_ret = -1 then init_fail_bootsock K e s pipe_number bootsocket
          else
            let s := (s.close e.pipesockets.2).close bootsocket
            (0, { s with pipes := s.pipes.set_fd pipe_number e.pipesockets.1 })

/-- The answers of the operating system for one channel during
`create_pipe_admin_thread`: those of its bootstrap, of `pthread_create` and
of the `sem_wait` for the start of the thread. -/
structure ChanEnv where
  boot : BootEnv
  pthread_create_ret : Int
  sem_wait_ret : Int
  deriving DecidableEq, Repr

/-- The answers of the operating system during `create_pipe_admin_thread`. -/
structure StartEnv where
  sem_init_ret : Int
  h323 : ChanEnv
  sip : ChanEnv
  deriving DecidableEq, Repr

/-- The answers for channel `i`. -/
def StartEnv.chan (e : StartEnv) (i : Int) : ChanEnv :=
  if i = H323_PIPE_INDEX then e.h323 else e.sip

/-- The loop of `create_pipe_admin_thread` over the indexes still to do, and
what follows the loop. -/
def create_pipe_admin_thread_loop (K : Consts) (e : StartEnv) : List Int → Proc → Int × Proc
  | [], s => (0, s.log (Call.sem_destroy Sem.started))
  | i :: rest, s =>
    let r := init_pipe_admin_thread K (e.chan i).boot s i
    if r.1 ≠ 0 then create_pipe_admin_thread_loop K e rest r.2
    else
      let s := r.2.log (Call.pthread_create i (e.chan i).pthread_create_ret)
      if (e.chan i).pthread_create_ret ≠ 0 then
        (K.ERR_CFAIL, s.log (Call.sem_destroy Sem.started))
      else
        let s := { s with listeners := i :: s.listeners }
        let s := s.log (Call.sem_wait Sem.started (e.chan i).sem_wait_ret)
        if (e.chan i).sem_wait_ret ≠ 0 then
          (K.ERR_CFAIL, s.log (Call.sem_destroy Sem.started))
        else create_pipe_admin_thread_loop K e rest s

/-- The function `create_pipe_admin_thread()` (`_REENTRANT` build). -/
def create_pipe_admin_thread (K : Consts) (e : StartEnv) (s : Proc) : Int × Proc :=
  let s := s.log (Call.sem_init Sem.started e.sem_init_ret)
  if e.sem_init_ret ≠ 0 then (K.ERR_CFAIL, s)
  else create_pipe_admin_thread_loop K e pipe_indexes s

/-- The table as its initialiser leaves it: both channels unconnected. -/
def Pipes.initial : Pipes :=
  { h323 := { fd := -1, svc_msg := ACU_SERVICE_MSG.zero },
    sip := { fd := -1, svc_msg := ACU_SERVICE_MSG.zero } }

/-- A process at start-up: no channel connected, the standard descriptors
open, no listener. -/
def Proc.initial : Proc :=
  { pipes := Pipes.initial, open_fds := [0, 1, 2], listeners := [], calls := [] }

/-- Answers with which a bootstrap succeeds: the socket pair is `(a, b)`
and the rendezvous socket is `c`. -/
def BootEnv.ok (a b c : Int) : BootEnv :=
  { sem_init_ret := 0, socketpair_ret := 0, pipesockets := (a, b), socket_ret := c,
    connect_ret := 0, cmsg_null := false, sendmsg_ret := 1 }

/-- Answers with which a bootstrap fails at `connect` (no daemon listens):
the socket pair is `(a, b)` and the rendezvous socket is `c`. -/
def BootEnv.refused (a b c : Int) : BootEnv :=
  { sem_init_ret := 0, socketpair_ret := 0, pipesockets := (a, b), socket_ret := c,
    connect_ret := -1, cmsg_null := false, sendmsg_ret := 1 }

/-- Answers of a start-up in which the start-up semaphore is initialised,
the channels get the bootstrap answers `b0` and `b1`, `pthread_create`
returns `c` for the H.323 channel, and every other call succeeds. -/
def StartEnv.sample (b0 b1 : BootEnv) (c : Int) : StartEnv :=
  { sem_init_ret := 0,
    h323 := { boot := b0, pthread_create_ret := c, sem_wait_ret := 0 },
    sip := { boot := b1, pthread_create_ret := 0, sem_wait_ret := 0 } }

/-! ## The inbound listener -/

/-- Where the listener thread of a channel stands: about to read a header,
in `sem_wait` for the caller it woke, or gone after `pthread_exit`. -/
inductive Phase where
  | listening
  | waiting
  | terminated
  deriving DecidableEq, Repr

/-- A channel as its listener sees it: the table entry, what is still to
arrive on the stream, the descriptors open in the process (among them the
write ends of the completion pipes of blocked callers), the count of the
semaphore `read_complete`, the phase, and the trace. -/
structure Listener where
  pipe : pipe_data
  chan : List Chunk
  open_fds : List Int
  read_complete : Nat
  phase : Phase
  trace : List Event
  deriving DecidableEq, Repr

/-- One pass of the loop of `pipe_admin_thread` (lines 452-479), from where
the thread stands to where it next stops.  `store_msg r bs` is the header
`r` after `bs` was copied over its first bytes; `sem_wait_ret` is the answer
of `sem_wait` when it does not block.  From `listening`: the header is read;
when that fails the handle is closed and set to `-1` and the thread exits;
otherwise the descriptor named in the header is closed, which succeeds
exactly when it is open, and the thread goes on to `sem_wait`.  From
`waiting`: `sem_wait` fails, or takes a count, or stays blocked. -/
def pipe_admin_thread_step (K : Consts)
    (store_msg : ACU_SERVICE_MSG → List Nat → ACU_SERVICE_MSG) (sem_wait_ret : Int)
    (s : Listener) : Listener :=
  match s.phase with
  | Phase.terminated => s
  | Phase.listening =>
    let r := read_safely_loop K s.pipe.fd s.chan K.sizeof_msg [] s.trace
    let svc_msg := store_msg s.pipe.svc_msg r.stored
    if r.ret ≠ 0 then
      { s with
        pipe := { fd := -1, svc_msg := svc_msg },
        chan := r.chan,
        open_fds := s.open_fds.erase s.pipe.fd,
        trace := r.trace ++ [Event.close s.pipe.fd],
        phase := Phase.terminated }
    else if svc_msg.pendingMsgEvent ∈ s.open_fds then
      { s with
        pipe := { fd := s.pipe.fd, svc_msg := svc_msg },
        chan := r.chan,
        open_fds := s.open_fds.erase svc_msg.pendingMsgEvent,
        trace := r.trace ++ [Event.close svc_msg.pendingMsgEvent],
        phase := Phase.waiting }
    else
      { s with
        pipe := { fd := s.pipe.fd, svc_msg := svc_msg },
        chan := r.chan,
        trace := r.trace ++ [Event.close svc_msg.pendingMsgEvent],
        phase := Phase.listening }
  | Phase.waiting =>
    if sem_wait_ret ≠ 0 then { s with phase := Phase.listening }
    else if s.read_complete = 0 then s
    else { s with read_complete := s.read_complete - 1, phase := Phase.listening }

/-- What happens around one pass of the listener: `posts` calls of
`sem_post` on `read_complete` by callers, then the pass with the answer
`sem_wait_ret`. -/
structure Tick where
  posts : Nat
  sem_wait_ret : Int
  deriving DecidableEq, Repr

/-- The listener run through the passes `ticks`. -/
def pipe_admin_thread_run (K : Consts)
    (store_msg : ACU_SERVICE_MSG → List Nat → ACU_SERVICE_MSG) :
    List Tick → Listener → Listener
  | [], s => s
  | t :: ticks, s =>
    pipe_admin_thread_run K store_msg ticks
      (pipe_admin_thread_step K store_msg t.sem_wait_ret
        { s with read_complete := s.read_complete + t.posts })

/-- A caller blocked in `read(block_pipe[0], ...)` whose completion pipe has
the write end `wr` is released when that read ends with end of file, that
is, when `wr` is no longer open. -/
def Listener.released (s : Listener) (wr : Int) : Bool := decide (wr ∉ s.open_fds)

/-- A header layout for running the listener: the first byte of the wire
header is the completion reference, the second the status. -/
def ACU_SERVICE_MSG.sample_store (r : ACU_SERVICE_MSG) (bs : List Nat) : ACU_SERVICE_MSG :=
  { r with
    pendingMsgEvent := (bs.get? 0).elim r.pendingMsgEvent Int.ofNat,
    command_error := (bs.get? 1).elim r.command_error Int.ofNat }

/-- A listener on descriptor 5 about to read a header, with the descriptors
5, 8 and 9 open and `chan` to arrive. -/
def Listener.sample (chan : List Chunk) : Listener :=
  { pipe := { fd := 5, svc_msg := ACU_SERVICE_MSG.zero }, chan := chan,
    open_fds := [5, 8, 9], read_complete := 0, phase := Phase.listening, trace := [] }

/-! ## smd_ev_abort (`src/src/smunix.c`) -/

/-- The constants of the speech driver headers that `smd_ev_abort` uses. -/
structure SmConsts where
  kSMNullDevHandle : Int
  kSMUNIXControlDev : Int
  ERR_SM_DEVERR : Int
  kSMChannelSpecificEvent : Int
  kSMDrvrCtlCmdAbortEventWait : Int
  kSMDVersionMaj : Int
  kSMDVersionMin : Int

/-- The globals `smopened` and `smdControlDevHandle`. -/
structure SmState where
  smopened : Int
  smdControlDevHandle : Int
  deriving DecidableEq, Repr

/-- The fields of `SMMSGBLK` that `smd_ev_abort` fills in. -/
structure SMMSGBLK where
  ctlcmd : Int
  length : Int
  command : Int
  module : Int
  apiLibVersion : Int
  fwLibVersion : Int
  error : Int
  ioctlup : Int
  channel : Int
  deriving DecidableEq, Repr

/-- The answers of the operating system and the driver to one
`smd_ev_abort`: what `open` returns, what `ioctl` returns, and what the
driver leaves in `smmsgblk.error`, which by the comment above the function
is negative for an error, 0 when nothing was aborted, and else the count of
aborted event waits. -/
structure SmEnv where
  open_ret : Int
  ioctl_rc : Int
  ioctl_error : Int
  deriving DecidableEq, Repr

/-- The function `smd_open_ctl_dev()`. -/
def smd_open_ctl_dev (C : SmConsts) (e : SmEnv) (s : SmState) : Int × SmState :=
  let s :=
    if s.smopened = 0 then
      let s := { s with smdControlDevHandle := e.open_ret }
      if s.smdControlDevHandle < 0 then s else { s with smopened := 1 }
    else s
  (if s.smopened ≠ 0 then C.kSMUNIXControlDev else C.kSMNullDevHandle, s)

/-- What `smd_ev_abort` leaves behind: its return value, the globals, and
the device and message block handed to `ioctl`, if it was called. -/
structure SmAbort where
  result : Int
  state : SmState
  ioctl : Option (Int × SMMSGBLK)
  deriving DecidableEq, Repr

/-- The function `smd_ev_abort(evKind, evScope, channelIx)`. -/
def smd_ev_abort (C : SmConsts) (e : SmEnv) (s : SmState) (evKind evScope channelIx : Int) :
    SmAbort :=
  let result : Int := 0
  let o := smd_open_ctl_dev C e s
  let smControlDevice := o.1
  if smControlDevice ≠ C.kSMNullDevHandle then
    let smmsgblk : SMMSGBLK :=
      { ctlcmd := C.kSMDrvrCtlCmdAbortEventWait, length := 0, command := evKind,
        module := -1, apiLibVersion := C.kSMDVersionMaj * 2 ^ 8 + C.kSMDVersionMin,
        fwLibVersion := -1, error := 0, ioctlup := 0,
        channel := if evScope = C.kSMChannelSpecificEvent then channelIx else -1 }
    let rc := e.ioctl_rc
    let error := e.ioctl_error
    { result :=
        if rc < 0 then C.ERR_SM_DEVERR else if error ≠ 0 then error else result,
      state := o.2, ioctl := some (o.2.smdControlDevHandle, smmsgblk) }
  else
    { result := C.ERR_SM_DEVERR, state := o.2, ioctl := none }

/-- One admissible choice of the speech driver constants. -/
def SmConsts.sample : SmConsts :=
  { kSMNullDevHandle := -1, kSMUNIXControlDev := 0, ERR_SM_DEVERR := -1,
    kSMChannelSpecificEvent := 1, kSMDrvrCtlCmdAbortEventWait := 40,
    kSMDVersionMaj := 1, kSMDVersionMin := 2 }

/-- A wire header of 24 bytes for `ACU_SERVICE_MSG.sample_store`, arriving in
one piece: the completion reference `ref`, the status `status`, and
zeros. -/
def Chunk.sample_header (ref status : Nat) : Chunk :=
  Chunk.data (ref :: status :: List.replicate 22 0)

/-- A world in which the H.323 channel was given up by its listener (handle
`-1`) and the SIP channel is not connected either. -/
def World.sample_closed : World :=
  { pipes := { h323 := { fd := -1, svc_msg := ACU_SERVICE_MSG.zero },
               sip := { fd := -1, svc_msg := ACU_SERVICE_MSG.zero } },
    chan := [], mallocs := [], heap := [], trace := [] }

/-- A listener on descriptor 5 about to read a header, with the descriptors
5, 7, 8 and 9 open, the semaphore count 0, and three headers to arrive that
name the descriptors 9, 8 and 7. -/
def Listener.sample_three : Listener :=
  { pipe := { fd := 5, svc_msg := ACU_SERVICE_MSG.zero },
    chan := [Chunk.sample_header 9 0, Chunk.sample_header 8 0, Chunk.sample_header 7 0],
    open_fds := [5, 7, 8, 9], read_complete := 0, phase := Phase.listening, trace := [] }

/-! ## Reading the trace -/

/-- Whether an event is a `sem_post`. -/
def Event.is_sem_post : Event → Bool
  | Event.sem_post _ => true
  | _ => false

/-- Whether an event is a `pthread_mutex_lock`. -/
def Event.is_lock : Event → Bool
  | Event.mutex_lock _ _ => true
  | _ => false

/-- Whether an event is a `pthread_mutex_unlock`. -/
def Event.is_unlock : Event → Bool
  | Event.mutex_unlock _ => true
  | _ => false

/-- The world `w` with an empty trace. -/
def World.fresh (w : World) : World := { w with trace := [] }

/-- The result `r` with the events `t` in front of its trace. -/
def Result.after_trace (t : List Event) (r : Result) : Result :=
  { r with world := { r.world with trace := t ++ r.world.trace } }

/-- The answers of `Env.sample 28`, except that `pthread_mutex_lock` fails
with the error 22. -/
def Env.lock_fails : Env := { Env.sample 28 with lock_ret := 22 }

/-! ## Lemmas on read_safely -/

/-- On a stream that hands over `size > 0` more bytes, `read_safely` returns
0, has stored exactly these bytes in order, and has taken exactly them off
the stream. -/
theorem read_safely_loop_supplied (K : Consts) (fd : Int) :
    ∀ (chan : List Chunk) (size : Nat) (got : List Nat) (tr : List Event),
      0 < size → supplies chan size = true →
      read_safely_loop K fd chan size got tr =
        { ret := 0, stored := got ++ stream_take chan size,
          chan := stream_drop chan size, trace := tr ++ stream_reads fd chan size } := by
  intro chan
  induction chan with
  | nil =>
    intro size got tr hs hsup
    obtain ⟨n, rfl⟩ := Nat.exists_eq_succ_of_ne_zero (Nat.pos_iff_ne_zero.mp hs)
    simp [supplies] at hsup
  | cons c rest ih =>
    intro size got tr hs hsup
    obtain ⟨n, rfl⟩ := Nat.exists_eq_succ_of_ne_zero (Nat.pos_iff_ne_zero.mp hs)
    cases c with
    | eintr =>
      simp only [supplies] at hsup
      rw [read_safely_loop]
      simp [sys_read, stream_take, stream_drop, stream_reads, ih (n + 1) got _ hs hsup]
    | error => simp [supplies] at hsup
    | eof => simp [supplies] at hsup
    | data bs =>
      simp only [supplies, Bool.and_eq_true, Bool.or_eq_true, decide_eq_true_eq] at hsup
      obtain ⟨hne, hrest⟩ := hsup
      have hlen : 0 < bs.length := List.length_pos.mpr (by simpa using hne)
      rw [read_safely_loop]
      have e0 : ¬ ((bs.length : Int) < 0) := by omega
      have e1 : ¬ ((n : Int) + 1 < 0) := by omega
      have e2 : ¬ ((n : Int) + 1 = 0) := by omega
      by_cases h1 : n + 1 ≤ bs.length
      · by_cases h2 : bs.length ≤ n + 1
        · have h3 : bs.length = n + 1 := le_antisymm h2 h1
          have h6 : List.take (n + 1) bs = bs := List.take_of_length_le h2
          simp [sys_read, stream_take, stream_drop, stream_reads, h3, hs, e1, e2, h6]
        · have h7 : n + 1 < bs.length := by omega
          simp [sys_read, stream_take, stream_drop, stream_reads, h1, h2, hs, e1, e2, h7]
      · have h2 : bs.length ≤ n + 1 := by omega
        have h4 : supplies rest (n + 1 - bs.length) = true := by
          rcases hrest with h | h
          · exact absurd h h1
          · exact h
        have h5 : 0 < n + 1 - bs.length := by omega
        have h8 : ¬ ((bs.length : Int) = (n : Int) + 1) := by omega
        have h9 : ¬ (n + 1 < bs.length) := by omega
        have h10 : ¬ (n + 1 = bs.length) := by omega
        have := ih (n + 1 - bs.length) (got ++ bs) (tr ++ [Event.read fd (n + 1)]) h5 h4
        simp [sys_read, stream_take, stream_drop, stream_reads, h1, h2, hs, this, e0, hne, h8,
          h9, h10]

/-! ## Lemmas on streams -/

theorem stream_take_data_le (bs : List Nat) (rest : List Chunk) (n : Nat)
    (h : n ≤ bs.length) : stream_take (Chunk.data bs :: rest) n = bs.take n := by
  cases n with
  | zero => simp [stream_take]
  | succ n => simp [stream_take, h]

theorem stream_take_data_gt (bs : List Nat) (rest : List Chunk) (n : Nat)
    (h : bs.length < n) :
    stream_take (Chunk.data bs :: rest) n = bs ++ stream_take rest (n - bs.length) := by
  cases n with
  | zero => simp at h
  | succ n =>
    have : ¬ (n + 1 ≤ bs.length) := by omega
    simp [stream_take, this]

theorem stream_drop_data_lt (bs : List Nat) (rest : List Chunk) (n : Nat)
    (h : n < bs.length) :
    stream_drop (Chunk.data bs :: rest) n = Chunk.data (bs.drop n) :: rest := by
  cases n with
  | zero => simp [stream_drop]
  | succ n => simp [stream_drop, h]

theorem stream_drop_data_eq (bs : List Nat) (rest : List Chunk) (n : Nat)
    (h0 : 0 < n) (h : n = bs.length) : stream_drop (Chunk.data bs :: rest) n = rest := by
  cases n with
  | zero => simp at h0
  | succ n => simp [stream_drop, h]

theorem stream_drop_data_gt (bs : List Nat) (rest : List Chunk) (n : Nat)
    (h : bs.length < n) :
    stream_drop (Chunk.data bs :: rest) n = stream_drop rest (n - bs.length) := by
  cases n with
  | zero => simp at h
  | succ n =>
    have h1 : ¬ (n + 1 < bs.length) := by omega
    have h2 : ¬ (n + 1 = bs.length) := by omega
    simp [stream_drop, h1, h2]

theorem supplies_data_le (bs : List Nat) (rest : List Chunk) (n : Nat)
    (hne : bs ≠ []) (h : n ≤ bs.length) : supplies (Chunk.data bs :: rest) n = true := by
  cases n with
  | zero => simp [supplies]
  | succ n => simp [supplies, hne, h]

theorem supplies_data_gt (bs : List Nat) (rest : List Chunk) (n : Nat)
    (hne : bs ≠ []) (h : bs.length < n) :
    supplies (Chunk.data bs :: rest) n = supplies rest (n - bs.length) := by
  cases n with
  | zero => simp at h
  | succ n =>
    have h1 : ¬ (n + 1 ≤ bs.length) := by omega
    simp [supplies, hne, h1]

theorem supplies_data_ne (bs : List Nat) (rest : List Chunk) (n : Nat) (h0 : 0 < n)
    (h : supplies (Chunk.data bs :: rest) n = true) : bs ≠ [] := by
  cases n with
  | zero => simp at h0
  | succ n =>
    simp only [supplies, Bool.and_eq_true, decide_eq_true_eq] at h
    simpa using h.1

/-- Taking `m + n` bytes off a stream is taking `m` and then `n`. -/
theorem stream_split (chan : List Chunk) :
    ∀ (m n : Nat), supplies chan (m + n) = true →
      supplies chan m = true ∧ supplies (stream_drop chan m) n = true ∧
      stream_take chan (m + n) = stream_take chan m ++ stream_take (stream_drop chan m) n ∧
      stream_drop chan (m + n) = stream_drop (stream_drop chan m) n := by
  induction chan with
  | nil =>
    intro m n h
    cases m with
    | zero => simpa [supplies, stream_take, stream_drop] using h
    | succ m =>
      rw [Nat.succ_add] at h
      simp [supplies] at h
  | cons c rest ih =>
    intro m n h
    cases m with
    | zero => simpa [supplies, stream_take, stream_drop] using h
    | succ m =>
      have hmn : m + 1 + n = (m + n) + 1 := by omega
      cases c with
      | eintr =>
        rw [hmn] at h ⊢
        simp only [supplies] at h
        rw [← hmn] at h ⊢
        have := ih (m + 1) n h
        rw [hmn]
        simp only [supplies, stream_take, stream_drop]
        rw [← hmn]
        exact this
      | error => rw [hmn] at h; simp [supplies] at h
      | eof => rw [hmn] at h; simp [supplies] at h
      | data bs =>
        have hne : bs ≠ [] := supplies_data_ne bs rest (m + 1 + n) (by omega) h
        have hlen : 0 < bs.length := List.length_pos.mpr hne
        generalize hM : m + 1 = M at h ⊢
        have hM0 : 0 < M := by omega
        rcases Nat.lt_trichotomy M bs.length with hlt | heq | hgt
        · -- the first `M` bytes end inside the chunk
          have hd : (bs.drop M).length = bs.length - M := List.length_drop M bs
          have hdne : bs.drop M ≠ [] := by
            intro hnil; rw [hnil] at hd; simp at hd; omega
          rw [stream_drop_data_lt bs rest M hlt, stream_take_data_le bs rest M (le_of_lt hlt),
            supplies_data_le bs rest M hne (le_of_lt hlt)]
          by_cases h1 : M + n ≤ bs.length
          · have h2 : n ≤ (bs.drop M).length := by omega
            refine ⟨rfl, supplies_data_le _ rest n hdne h2, ?_, ?_⟩
            · rw [stream_take_data_le bs rest (M + n) h1, stream_take_data_le _ rest n h2,
                List.take_add]
            · rcases Nat.eq_zero_or_pos n with hn | hn
              · subst hn
                simp [stream_drop, stream_drop_data_lt bs rest M hlt]
              · rcases Nat.lt_or_ge (M + n) bs.length with h3 | h3
                · rw [stream_drop_data_lt bs rest (M + n) h3,
                    stream_drop_data_lt _ rest n (by omega), List.drop_drop]
                · rw [stream_drop_data_eq bs rest (M + n) (by omega) (by omega),
                    stream_drop_data_eq _ rest n hn (by omega)]
          · have h2 : (bs.drop M).length < n := by omega
            have h3 : bs.length < M + n := by omega
            have h4 : n - (bs.drop M).length = M + n - bs.length := by omega
            rw [supplies_data_gt bs rest (M + n) hne h3] at h
            refine ⟨rfl, ?_, ?_, ?_⟩
            · rw [supplies_data_gt _ rest n hdne h2, h4]; exact h
            · rw [stream_take_data_gt bs rest (M + n) h3, stream_take_data_gt _ rest n h2, h4,
                ← List.append_assoc, List.take_append_drop]
            · rw [stream_drop_data_gt bs rest (M + n) h3, stream_drop_data_gt _ rest n h2, h4]
        · -- the first `M` bytes are exactly the chunk
          rw [stream_drop_data_eq bs rest M hM0 heq, stream_take_data_le bs rest M (le_of_eq heq),
            supplies_data_le bs rest M hne (le_of_eq heq)]
          rcases Nat.eq_zero_or_pos n with hn | hn
          · subst hn
            simp [supplies, stream_take, stream_drop, stream_drop_data_eq bs rest M hM0 heq,
              stream_take_data_le bs rest M (le_of_eq heq)]
          · have h3 : bs.length < M + n := by omega
            have h4 : M + n - bs.length = n := by omega
            rw [supplies_data_gt bs rest (M + n) hne h3, h4] at h
            refine ⟨rfl, h, ?_, ?_⟩
            · rw [stream_take_data_gt bs rest (M + n) h3, h4, List.take_of_length_le (by omega)]
            · rw [stream_drop_data_gt bs rest (M + n) h3, h4]
        · -- the first `M` bytes go beyond the chunk
          have h3 : bs.length < M + n := by omega
          have h4 : M + n - bs.length = (M - bs.length) + n := by omega
          rw [supplies_data_gt bs rest (M + n) hne h3, h4] at h
          obtain ⟨i1, i2, i3, i4⟩ := ih (M - bs.length) n h
          rw [supplies_data_gt bs rest M hne hgt, stream_drop_data_gt bs rest M hgt,
            stream_take_data_gt bs rest M hgt, stream_take_data_gt bs rest (M + n) h3,
            stream_drop_data_gt bs rest (M + n) h3, h4, i3, i4, List.append_assoc]
          exact ⟨i1, i2, rfl, rfl⟩

/-- A stream that hands over `n` bytes hands over exactly `n`. -/
theorem stream_take_length (chan : List Chunk) :
    ∀ (n : Nat), supplies chan n = true → (stream_take chan n).length = n := by
  induction chan with
  | nil =>
    intro n h
    cases n with
    | zero => simp [stream_take]
    | succ n => simp [supplies] at h
  | cons c rest ih =>
    intro n h
    cases n with
    | zero => simp [stream_take]
    | succ n =>
      cases c with
      | eintr =>
        simp only [supplies] at h
        simpa [stream_take] using ih (n + 1) h
      | error => simp [supplies] at h
      | eof => simp [supplies] at h
      | data bs =>
        have hne : bs ≠ [] := supplies_data_ne bs rest (n + 1) (by omega) h
        by_cases h1 : n + 1 ≤ bs.length
        · rw [stream_take_data_le bs rest (n + 1) h1, List.length_take]
          omega
        · have h2 : bs.length < n + 1 := by omega
          rw [supplies_data_gt bs rest (n + 1) hne h2] at h
          rw [stream_take_data_gt bs rest (n + 1) h2, List.length_append, ih _ h]
          omega

/-- The function `read_safely` on a stream that hands over `size > 0` more
bytes. -/
theorem read_safely_supplied (K : Consts) (w : World) (fd : Int) (size : Nat)
    (hs : 0 < size) (hsup : supplies w.chan size = true) :
    read_safely K w fd size =
      { ret := 0, stored := stream_take w.chan size, chan := stream_drop w.chan size,
        trace := w.trace ++ stream_reads fd w.chan size } := by
  unfold read_safely
  rw [read_safely_loop_supplied K fd w.chan size [] w.trace hs hsup]
  simp

/-- The function `read_safely` asked for no bytes takes the exit after the
loop: it fails and touches nothing. -/
theorem read_safely_zero (K : Consts) (w : World) (fd : Int) :
    read_safely K w fd 0 =
      { ret := K.ERR_CFAIL, stored := [], chan := w.chan, trace := w.trace } := by
  unfold read_safely
  cases h : w.chan <;> simp [read_safely_loop]

/-! ## The claims -/

/-- The sample constants are admissible. -/
theorem Consts.sample_wf : Consts.sample.wf := by
  constructor <;> decide

/-- An index below 0 or above `MAXNUMPIPES` is answered with `ERR_NET`, and
nothing at all is touched. -/
theorem srvioctl_index_outside (K : Consts) (env : Env) (w : World) (function : Int)
    (pioctlu : IOCTLU) (len board_card_number voip_protocol : Int)
    (h : voip_protocol < 0 ∨ MAXNUMPIPES < voip_protocol) :
    srvioctl K env w function pioctlu len board_card_number voip_protocol =
      { outcome := Outcome.ret K.ERR_NET, pioctlu := pioctlu, world := w } := by
  have h2 : voip_protocol < 0 ∨ voip_protocol > MAXNUMPIPES := h
  simp [srvioctl, h2]

/-- C1 (the code departs from the claim): for `voip_protocol = MAXNUMPIPES`
the sanity check `voip_protocol > MAXNUMPIPES` lets the call through, and
`srvioctl` loads `pipes[MAXNUMPIPES]`, an entry the table does not have,
instead of returning `ERR_NET`. -/
theorem srvioctl_index_MAXNUMPIPES (K : Consts) (env : Env) (w : World) (function : Int)
    (pioctlu : IOCTLU) (len board_card_number : Int) :
    (srvioctl K env w function pioctlu len board_card_number MAXNUMPIPES).outcome =
      Outcome.fault := by
  simp [srvioctl, Pipes.get?, MAXNUMPIPES, H323_PIPE_INDEX, SIP_PIPE_INDEX]

/-- An index with an entry in the table passes the sanity check. -/
theorem Pipes.get?_some_range (ps : Pipes) (i : Int) (p : pipe_data)
    (h : ps.get? i = some p) : ¬ (i < 0 ∨ i > MAXNUMPIPES) := by
  unfold Pipes.get? at h
  unfold H323_PIPE_INDEX SIP_PIPE_INDEX at h
  unfold MAXNUMPIPES
  split_ifs at h with h0 h1
  · omega
  · omega

/-- C2 (as amended): on an in-range index whose channel is unconnected
(`fd < 0`) `srvioctl` returns the communication failure `ERR_CFAIL`, and it
leaves the caller's block and the world as they were: no write, no
completion pipe, no signal to the flow-control semaphore. -/
theorem srvioctl_unconnected (K : Consts) (env : Env) (w : World) (function : Int)
    (pioctlu : IOCTLU) (len board_card_number voip_protocol : Int) (p : pipe_data)
    (hp : w.pipes.get? voip_protocol = some p) (hfd : p.fd < 0) :
    srvioctl K env w function pioctlu len board_card_number voip_protocol =
      { outcome := Outcome.ret K.ERR_CFAIL, pioctlu := pioctlu, world := w } := by
  have hr := Pipes.get?_some_range w.pipes voip_protocol p hp
  simp [srvioctl, hp, hfd, hr]

/-- C2, witness: the unconnected SIP channel of the sample world. -/
theorem srvioctl_unconnected_witness :
    srvioctl Consts.sample (Env.sample 28) (World.sample ACU_SERVICE_MSG.zero [] []) 7
        IOCTLU.sample 4 3 SIP_PIPE_INDEX =
      { outcome := Outcome.ret Consts.sample.ERR_CFAIL, pioctlu := IOCTLU.sample,
        world := World.sample ACU_SERVICE_MSG.zero [] [] } :=
  srvioctl_unconnected Consts.sample (Env.sample 28) (World.sample ACU_SERVICE_MSG.zero [] [])
    7 IOCTLU.sample 4 3 SIP_PIPE_INDEX { fd := -1, svc_msg := ACU_SERVICE_MSG.zero }
    (by decide) (by decide)

/-- C2, counterexample: on the unconnected SIP channel `srvioctl` returns
`ERR_CFAIL`, which is not the invalid-target error `ERR_NET` that it returns
for the out-of-range index 3. -/
theorem srvioctl_unconnected_not_ERR_NET :
    (srvioctl Consts.sample (Env.sample 28) (World.sample ACU_SERVICE_MSG.zero [] []) 7
        IOCTLU.sample 4 3 SIP_PIPE_INDEX).outcome = Outcome.ret Consts.sample.ERR_CFAIL ∧
    (srvioctl Consts.sample (Env.sample 28) (World.sample ACU_SERVICE_MSG.zero [] []) 7
        IOCTLU.sample 4 3 3).outcome = Outcome.ret Consts.sample.ERR_NET ∧
    (srvioctl Consts.sample (Env.sample 28) (World.sample ACU_SERVICE_MSG.zero [] []) 7
        IOCTLU.sample 4 3 SIP_PIPE_INDEX).outcome ≠ Outcome.ret Consts.sample.ERR_NET := by
  decide

/-- C3: a call with `CALL_SEND_RAS_MSG` on a connected channel whose write
is accepted in full returns 0 right after the write.  The trace is the lock,
the one `writev` and the unlock: no `pipe`, no `read`, no `sem_post`; the
header written has `pendingMsgEvent = 0` as `memset` left it; nothing is
taken off the stream. -/
theorem srvioctl_send_ras (K : Consts) (env : Env) (w : World) (pioctlu : IOCTLU)
    (len board_card_number voip_protocol : Int) (p : pipe_data)
    (hp : w.pipes.get? voip_protocol = some p) (hfd : 0 ≤ p.fd)
    (hlock : env.lock_ret = 0)
    (hw : env.writev_ret =
      (compose K K.CALL_SEND_RAS_MSG (message_type_of K K.CALL_SEND_RAS_MSG)
        { pioctlu with block := K.init_api_reg pioctlu.block len } len).iov_size) :
    srvioctl K env w K.CALL_SEND_RAS_MSG pioctlu len board_card_number voip_protocol =
      { outcome := Outcome.ret 0,
        pioctlu := { pioctlu with block := K.init_api_reg pioctlu.block len },
        world :=
          { w with
            trace := w.trace ++
              [Event.mutex_lock voip_protocol 0,
               Event.writev p.fd
                 { voip_card := board_card_number, function := K.CALL_SEND_RAS_MSG,
                   message_type := message_type_of K K.CALL_SEND_RAS_MSG,
                   pendingMsgEvent := 0, valid := 0, command_error := 0 }
                 (compose K K.CALL_SEND_RAS_MSG (message_type_of K K.CALL_SEND_RAS_MSG)
                   { pioctlu with block := K.init_api_reg pioctlu.block len } len).iov
                 env.writev_ret,
               Event.mutex_unlock voip_protocol] } } := by
  have hr := Pipes.get?_some_range w.pipes voip_protocol p hp
  have hfd2 : ¬ (p.fd < 0) := by omega
  simp [srvioctl, srvioctl_write, header_of, hp, hfd2, hr, hlock, ← hw, World.log,
    ACU_SERVICE_MSG.zero]

/-- C3, witness: a one-way send on the connected H.323 channel of the sample
world, the 28 bytes of header and record accepted in full. -/
theorem srvioctl_send_ras_witness :
    srvioctl Consts.sample (Env.sample 28) (World.sample ACU_SERVICE_MSG.zero [] [])
        Consts.sample.CALL_SEND_RAS_MSG IOCTLU.sample 4 3 H323_PIPE_INDEX =
      { outcome := Outcome.ret 0,
        pioctlu := IOCTLU.sample,
        world :=
          { World.sample ACU_SERVICE_MSG.zero [] [] with
            trace :=
              [Event.mutex_lock 0 0,
               Event.writev 5
                 { voip_card := 3, function := 101, message_type := 2,
                   pendingMsgEvent := 0, valid := 0, command_error := 0 }
                 [{ iov_base := Base.msg, iov_len := 24 },
                  { iov_base := Base.admin_msg, iov_len := 4 }]
                 28,
               Event.mutex_unlock 0] } } :=
  srvioctl_send_ras Consts.sample (Env.sample 28) (World.sample ACU_SERVICE_MSG.zero [] [])
    IOCTLU.sample 4 3 H323_PIPE_INDEX { fd := 5, svc_msg := ACU_SERVICE_MSG.zero }
    (by decide) (by decide) (by decide) (by decide)

/-- Adding to an `int` that was wrapped wraps to the same value. -/
theorem to_int_to_int_add (x y : Int) : to_int (to_int x + y) = to_int (x + y) := by
  unfold to_int
  omega

/-- A size below `2 ^ 31` is its own `int` value. -/
theorem to_int_of_small (n : Nat) (h : n < 2 ^ 31) : to_int (n : Int) = n := by
  unfold to_int
  omega

/-- C4, counterexample: the one-way send `CALL_SEND_RAS_MSG` of the sample
caller hands `writev` two buffers, the header and the administrative record,
and expects 28 bytes, not the 24 of the header. -/
theorem srvioctl_send_ras_carries_record :
    (srvioctl Consts.sample (Env.sample 28) (World.sample ACU_SERVICE_MSG.zero [] [])
        Consts.sample.CALL_SEND_RAS_MSG IOCTLU.sample 4 3 H323_PIPE_INDEX).world.trace =
      [Event.mutex_lock 0 0,
       Event.writev 5
         { voip_card := 3, function := 101, message_type := 2,
           pendingMsgEvent := 0, valid := 0, command_error := 0 }
         [{ iov_base := Base.msg, iov_len := 24 },
          { iov_base := Base.admin_msg, iov_len := 4 }]
         28,
       Event.mutex_unlock 0] ∧
    (compose Consts.sample Consts.sample.CALL_SEND_RAS_MSG
        (message_type_of Consts.sample Consts.sample.CALL_SEND_RAS_MSG) IOCTLU.sample 4).iov ≠
      [{ iov_base := Base.msg, iov_len := Consts.sample.sizeof_msg }] ∧
    (compose Consts.sample Consts.sample.CALL_SEND_RAS_MSG
        (message_type_of Consts.sample Consts.sample.CALL_SEND_RAS_MSG) IOCTLU.sample 4).iov_size ≠
      Consts.sample.sizeof_msg := by
  decide

/-- C4 (as amended): for the fire-and-forget opcode `CALL_SEND_RAS_MSG` the
buffer list is the header, then the fixed administrative record, then the
alias array when its count is positive, then the prefix array when its count
is positive, and the expected total length is the `int` sum of these
lengths.  The list that is the header alone, with the header size as
expected total length, is that of `CALL_GET_RAS_MSG`. -/
theorem compose_ras (K : Consts) (hK : K.wf) (pioctlu : IOCTLU) (len : Int) :
    (compose K K.CALL_SEND_RAS_MSG (message_type_of K K.CALL_SEND_RAS_MSG) pioctlu len).iov =
      [{ iov_base := Base.msg, iov_len := K.sizeof_msg },
       { iov_base := Base.admin_msg, iov_len := K.sizeof_admin_msg }] ++
      (if pioctlu.out_admin.endpoint_alias_count > 0 then
        [{ iov_base := Base.endpoint_alias pioctlu.out_admin.endpoint_alias,
           iov_len :=
             to_size_t (K.sizeof_alias_address * pioctlu.out_admin.endpoint_alias_count) }]
       else []) ++
      (if pioctlu.out_admin.prefix_count > 0 then
        [{ iov_base := Base.prefixes pioctlu.out_admin.prefixes,
           iov_len := to_size_t (K.sizeof_alias_address * pioctlu.out_admin.prefix_count) }]
       else []) ∧
    (compose K K.CALL_SEND_RAS_MSG (message_type_of K K.CALL_SEND_RAS_MSG) pioctlu len).iov_size =
      to_int
        ((((compose K K.CALL_SEND_RAS_MSG (message_type_of K K.CALL_SEND_RAS_MSG)
          pioctlu len).iov.map (fun v => v.iov_len)).sum : Nat) : Int) ∧
    compose K K.CALL_GET_RAS_MSG (message_type_of K K.CALL_GET_RAS_MSG) pioctlu len =
      { iov := [{ iov_base := Base.msg, iov_len := K.sizeof_msg }],
        iov_size := K.sizeof_msg } := by
  have h1 : K.CALL_SEND_RAS_MSG ≠ K.CALL_GET_RAS_MSG := fun h => hK.opcodes h.symm
  have h2 : K.ADMIN_CHAN_RAS_MSG ≠ K.TLS_MSG_GENERIC_TLS := fun h => hK.tags h.symm
  have h3 : to_int (0 + (K.sizeof_msg : Int)) = K.sizeof_msg := by
    rw [Int.zero_add]
    exact to_int_of_small K.sizeof_msg hK.msg_small
  have h4 : to_int (K.sizeof_msg : Int) = K.sizeof_msg :=
    to_int_of_small K.sizeof_msg hK.msg_small
  refine ⟨?_, ?_, ?_⟩
  · simp only [compose, message_type_of, h1, h2, or_true, if_true, if_false]
    split_ifs <;> simp
  · simp only [compose, message_type_of, h1, h2, or_true, if_true, if_false]
    split_ifs <;> simp only [to_int_to_int_add, List.map_append, List.map_cons, List.map_nil,
      List.sum_append, List.sum_cons, List.sum_nil, List.append_nil, List.cons_append,
      List.nil_append, Nat.cast_add, Nat.cast_zero] <;> refine congrArg to_int ?_ <;> ring
  · simp [compose, message_type_of, h2, h4]

/-- C4, witness: the sample caller, whose record has no arrays. -/
theorem compose_ras_witness :
    Consts.sample.wf ∧
    ((compose Consts.sample Consts.sample.CALL_SEND_RAS_MSG
        (message_type_of Consts.sample Consts.sample.CALL_SEND_RAS_MSG) IOCTLU.sample 4).iov =
      [{ iov_base := Base.msg, iov_len := 24 }, { iov_base := Base.admin_msg, iov_len := 4 }] ∧
    (compose Consts.sample Consts.sample.CALL_SEND_RAS_MSG
        (message_type_of Consts.sample Consts.sample.CALL_SEND_RAS_MSG) IOCTLU.sample 4).iov_size =
      to_int (28 : Nat) ∧
    compose Consts.sample Consts.sample.CALL_GET_RAS_MSG
        (message_type_of Consts.sample Consts.sample.CALL_GET_RAS_MSG) IOCTLU.sample 4 =
      { iov := [{ iov_base := Base.msg, iov_len := 24 }], iov_size := 24 }) :=
  ⟨Consts.sample_wf, compose_ras Consts.sample Consts.sample_wf IOCTLU.sample 4⟩

/-- C5: when `writev` returns anything but the expected total length,
`srvioctl` returns `ERR_CFAIL`.  The trace is: the `pipe` (when the opcode
has a completion pipe), the lock, the one `writev`, the unlock, and the
closing of both ends of the pipe (when one was created).  There is no
`read` and no `sem_post`, and nothing is taken off the stream. -/
theorem srvioctl_short_write (K : Consts) (env : Env) (w : World) (function : Int)
    (pioctlu : IOCTLU) (len board_card_number voip_protocol : Int) (p : pipe_data)
    (hp : w.pipes.get? voip_protocol = some p) (hfd : 0 ≤ p.fd)
    (hpipe : function ≠ K.CALL_SEND_RAS_MSG → env.pipe_ret = 0)
    (hlock : env.lock_ret = 0)
    (hw : env.writev_ret ≠
      (compose K function (message_type_of K function)
        { pioctlu with block := K.init_api_reg pioctlu.block len } len).iov_size) :
    srvioctl K env w function pioctlu len board_card_number voip_protocol =
      { outcome := Outcome.ret K.ERR_CFAIL,
        pioctlu := { pioctlu with block := K.init_api_reg pioctlu.block len },
        world :=
          { w with
            trace := w.trace ++
              (if function ≠ K.CALL_SEND_RAS_MSG then [Event.pipe 0 env.pipe_fds] else []) ++
              [Event.mutex_lock voip_protocol 0,
               Event.writev p.fd
                 { header_of K function board_card_number with
                   pendingMsgEvent :=
                     if function ≠ K.CALL_SEND_RAS_MSG then env.pipe_fds.2 else 0 }
                 (compose K function (message_type_of K function)
                   { pioctlu with block := K.init_api_reg pioctlu.block len } len).iov
                 env.writev_ret,
               Event.mutex_unlock voip_protocol] ++
              (if function ≠ K.CALL_SEND_RAS_MSG then
                [Event.close env.pipe_fds.1, Event.close env.pipe_fds.2]
               else []) } } := by
  have hr := Pipes.get?_some_range w.pipes voip_protocol p hp
  have hfd2 : ¬ (p.fd < 0) := by omega
  by_cases hf : function = K.CALL_SEND_RAS_MSG
  · subst hf
    simp [srvioctl, srvioctl_write, header_of, hp, hfd2, hr, hlock, hw, World.log,
      ACU_SERVICE_MSG.zero]
  · have hpr := hpipe hf
    simp [srvioctl, srvioctl_write, header_of, hp, hfd2, hr, hlock, hw, World.log,
      ACU_SERVICE_MSG.zero, hf, hpr]

/-- C5, witness: a generic request of 4 bytes on the sample world of which
`writev` accepts 10 bytes instead of 28. -/
theorem srvioctl_short_write_witness :
    srvioctl Consts.sample (Env.sample 10) (World.sample ACU_SERVICE_MSG.zero [] []) 7
        IOCTLU.sample 4 3 H323_PIPE_INDEX =
      { outcome := Outcome.ret Consts.sample.ERR_CFAIL,
        pioctlu := IOCTLU.sample,
        world :=
          { World.sample ACU_SERVICE_MSG.zero [] [] with
            trace :=
              [Event.pipe 0 (8, 9),
               Event.mutex_lock 0 0,
               Event.writev 5
                 { voip_card := 3, function := 7, message_type := 1,
                   pendingMsgEvent := 9, valid := 0, command_error := 0 }
                 [{ iov_base := Base.msg, iov_len := 24 },
                  { iov_base := Base.pioctlu, iov_len := 4 }]
                 10,
               Event.mutex_unlock 0,
               Event.close 8,
               Event.close 9] } } :=
  srvioctl_short_write Consts.sample (Env.sample 10) (World.sample ACU_SERVICE_MSG.zero [] [])
    7 IOCTLU.sample 4 3 H323_PIPE_INDEX { fd := 5, svc_msg := ACU_SERVICE_MSG.zero }
    (by decide) (by decide) (by decide) (by decide) (by decide)

/-- A request with a completion pipe whose pipe, lock, write and wait all go
well reaches the reply stage, with the header the listener deposited. -/
theorem srvioctl_reaches_reply (K : Consts) (env : Env) (w : World) (function : Int)
    (pioctlu : IOCTLU) (len board_card_number voip_protocol : Int) (p : pipe_data)
    (hp : w.pipes.get? voip_protocol = some p) (hfd : 0 ≤ p.fd)
    (hf : function ≠ K.CALL_SEND_RAS_MSG) (hpipe : env.pipe_ret = 0)
    (hlock : env.lock_ret = 0)
    (hw : env.writev_ret =
      (compose K function (message_type_of K function)
        { pioctlu with block := K.init_api_reg pioctlu.block len } len).iov_size)
    (hwait : env.wait_ret = 0) :
    srvioctl K env w function pioctlu len board_card_number voip_protocol =
      srvioctl_reply K
        { w with
          trace := w.trace ++
            [Event.pipe 0 env.pipe_fds,
             Event.mutex_lock voip_protocol 0,
             Event.writev p.fd
               { header_of K function board_card_number with
                 pendingMsgEvent := env.pipe_fds.2 }
               (compose K function (message_type_of K function)
                 { pioctlu with block := K.init_api_reg pioctlu.block len } len).iov
               env.writev_ret,
             Event.mutex_unlock voip_protocol,
             Event.read env.pipe_fds.1 4,
             Event.close env.pipe_fds.1] }
        { pioctlu with block := K.init_api_reg pioctlu.block len } len voip_protocol p.fd
        p.svc_msg := by
  have hr := Pipes.get?_some_range w.pipes voip_protocol p hp
  have hfd2 : ¬ (p.fd < 0) := by omega
  simp [srvioctl, srvioctl_write, header_of, hp, hfd2, hr, hlock, ← hw, World.log,
    ACU_SERVICE_MSG.zero, hf, hpipe, hwait]

/-- A non-negative `int` is its own `size_t` value. -/
theorem to_size_t_of_nonneg (x : Int) (h0 : 0 ≤ x) (h1 : x < 2 ^ 64) :
    to_size_t x = x.toNat := by
  unfold to_size_t
  rw [Int.emod_eq_of_lt h0 h1]

/-- The generic reply of a positive length `len`: when the stream hands over
`len` more bytes, exactly these are taken off it and stored in order over
the caller's block, the semaphore is posted and the header's status is
returned. -/
theorem srvioctl_reply_generic (K : Consts) (w : World) (pioctlu : IOCTLU)
    (len voip_protocol fd : Int) (msg : ACU_SERVICE_MSG)
    (hty : msg.message_type = K.TLS_MSG_GENERIC_TLS) (h0 : 0 < len) (h1 : len < 2 ^ 31)
    (hsup : supplies w.chan len.toNat = true) :
    srvioctl_reply K w pioctlu len voip_protocol fd msg =
      { outcome := Outcome.ret msg.command_error,
        pioctlu := { pioctlu with block := overlay pioctlu.block (stream_take w.chan len.toNat) },
        world :=
          { w with
            chan := stream_drop w.chan len.toNat,
            trace := w.trace ++ stream_reads fd w.chan len.toNat ++
              [Event.sem_post voip_protocol] } } := by
  have hs : to_size_t len = len.toNat := to_size_t_of_nonneg len (le_of_lt h0) (by omega)
  have hpos : 0 < len.toNat := by omega
  simp [srvioctl_reply, hty, hs, read_safely_supplied K w fd len.toNat hpos hsup,
    srvioctl_done, World.after, World.log]

/-- The generic reply of length 0: `read_safely` is asked for no bytes and
fails, so `srvioctl` posts the semaphore and returns `ERR_CFAIL`, whatever
the status in the header. -/
theorem srvioctl_reply_generic_zero (K : Consts) (w : World) (pioctlu : IOCTLU)
    (voip_protocol fd : Int) (msg : ACU_SERVICE_MSG)
    (hK : K.wf) (hty : msg.message_type = K.TLS_MSG_GENERIC_TLS) :
    srvioctl_reply K w pioctlu 0 voip_protocol fd msg =
      { outcome := Outcome.ret K.ERR_CFAIL,
        pioctlu := pioctlu,
        world := { w with trace := w.trace ++ [Event.sem_post voip_protocol] } } := by
  have hs : to_size_t 0 = 0 := by decide
  have hne : K.ERR_CFAIL ≠ 0 := ne_of_lt hK.cfail_neg
  simp [srvioctl_reply, hty, hs, read_safely_zero, srvioctl_fail, World.after, World.log,
    overlay, hne]

/-- C6 (the code departs from the claim): a generic request with `len = 0`
on the sample world, answered by a generic reply with status 0 while four
bytes are waiting on the stream.  `srvioctl` returns `ERR_CFAIL` and not
the header's status 0; it takes nothing off the stream. -/
theorem srvioctl_generic_len_zero :
    (srvioctl Consts.sample (Env.sample 24)
        (World.sample { ACU_SERVICE_MSG.zero with message_type := 1, command_error := 0 }
          [Chunk.data [9, 9, 9, 9]] [])
        7 IOCTLU.sample 0 3 H323_PIPE_INDEX).outcome = Outcome.ret Consts.sample.ERR_CFAIL ∧
    (srvioctl Consts.sample (Env.sample 24)
        (World.sample { ACU_SERVICE_MSG.zero with message_type := 1, command_error := 0 }
          [Chunk.data [9, 9, 9, 9]] [])
        7 IOCTLU.sample 0 3 H323_PIPE_INDEX).outcome ≠ Outcome.ret 0 ∧
    (srvioctl Consts.sample (Env.sample 24)
        (World.sample { ACU_SERVICE_MSG.zero with message_type := 1, command_error := 0 }
          [Chunk.data [9, 9, 9, 9]] [])
        7 IOCTLU.sample 0 3 H323_PIPE_INDEX).world.chan = [Chunk.data [9, 9, 9, 9]] := by
  decide

/-- C7: an administrative reply header whose validity flag is unset.
`srvioctl` returns the header's status; after the wait the trace has only
the `sem_post` (no `read` of the channel, no `malloc`); the stream, the
allocator and the heap are as before; the alias and prefix fields of the
caller's record are null. -/
theorem srvioctl_admin_reply_invalid (K : Consts) (env : Env) (w : World) (function : Int)
    (pioctlu : IOCTLU) (len board_card_number voip_protocol : Int) (p : pipe_data)
    (hK : K.wf)
    (hp : w.pipes.get? voip_protocol = some p) (hfd : 0 ≤ p.fd)
    (hf : function ≠ K.CALL_SEND_RAS_MSG) (hpipe : env.pipe_ret = 0)
    (hlock : env.lock_ret = 0)
    (hw : env.writev_ret =
      (compose K function (message_type_of K function)
        { pioctlu with block := K.init_api_reg pioctlu.block len } len).iov_size)
    (hwait : env.wait_ret = 0)
    (hty : p.svc_msg.message_type = K.ADMIN_CHAN_RAS_MSG)
    (hvalid : p.svc_msg.valid = 0) :
    srvioctl K env w function pioctlu len board_card_number voip_protocol =
      { outcome := Outcome.ret p.svc_msg.command_error,
        pioctlu :=
          { pioctlu with
            block := K.init_api_reg pioctlu.block len,
            in_admin := { pioctlu.in_admin with prefixes := 0, endpoint_alias := 0 } },
        world :=
          { w with
            trace := w.trace ++
              [Event.pipe 0 env.pipe_fds,
               Event.mutex_lock voip_protocol 0,
               Event.writev p.fd
                 { header_of K function board_card_number with
                   pendingMsgEvent := env.pipe_fds.2 }
                 (compose K function (message_type_of K function)
                   { pioctlu with block := K.init_api_reg pioctlu.block len } len).iov
                 env.writev_ret,
               Event.mutex_unlock voip_protocol,
               Event.read env.pipe_fds.1 4,
               Event.close env.pipe_fds.1,
               Event.sem_post voip_protocol] } } := by
  have hne : K.ADMIN_CHAN_RAS_MSG ≠ K.TLS_MSG_GENERIC_TLS := fun h => hK.tags h.symm
  rw [srvioctl_reaches_reply K env w function pioctlu len board_card_number voip_protocol p hp
    hfd hf hpipe hlock hw hwait]
  simp [srvioctl_reply, hty, hne, hvalid, srvioctl_done, World.log]

/-- C7, witness: `CALL_GET_RAS_MSG` on the sample world, answered by an
administrative header with the validity flag unset and status 17. -/
theorem srvioctl_admin_reply_invalid_witness :
    srvioctl Consts.sample (Env.sample 24)
        (World.sample { ACU_SERVICE_MSG.zero with message_type := 2, command_error := 17 }
          [Chunk.data [1, 2, 3, 4]] [6])
        100 { IOCTLU.sample with in_admin := { voip_admin_msg.empty with prefixes := 44 } }
        0 3 H323_PIPE_INDEX =
      { outcome := Outcome.ret 17,
        pioctlu := IOCTLU.sample,
        world :=
          { World.sample { ACU_SERVICE_MSG.zero with message_type := 2, command_error := 17 }
              [Chunk.data [1, 2, 3, 4]] [6] with
            trace :=
              [Event.pipe 0 (8, 9),
               Event.mutex_lock 0 0,
               Event.writev 5
                 { voip_card := 3, function := 100, message_type := 2,
                   pendingMsgEvent := 9, valid := 0, command_error := 0 }
                 [{ iov_base := Base.msg, iov_len := 24 }]
                 24,
               Event.mutex_unlock 0,
               Event.read 8 4,
               Event.close 8,
               Event.sem_post 0] } } :=
  srvioctl_admin_reply_invalid Consts.sample (Env.sample 24)
    (World.sample { ACU_SERVICE_MSG.zero with message_type := 2, command_error := 17 }
      [Chunk.data [1, 2, 3, 4]] [6])
    100 { IOCTLU.sample with in_admin := { voip_admin_msg.empty with prefixes := 44 } }
    0 3 H323_PIPE_INDEX
    { fd := 5, svc_msg := { ACU_SERVICE_MSG.zero with message_type := 2, command_error := 17 } }
    Consts.sample_wf (by decide) (by decide) (by decide) (by decide) (by decide) (by decide)
    (by decide) (by decide) (by decide)

/-- The byte size of an array of `c` elements, `c` a non-negative `int`,
does not wrap. -/
theorem to_size_t_count (c : Int) (S : Nat) (h0 : 0 ≤ c) (h1 : c < 2 ^ 31) (hS : S < 2 ^ 32) :
    to_size_t (c * S) = c.toNat * S := by
  obtain ⟨k, rfl⟩ := Int.eq_ofNat_of_zero_le h0
  have hk : k < 2 ^ 31 := by exact_mod_cast h1
  have hkS : k * S < 2 ^ 64 := by
    calc k * S ≤ 2 ^ 31 * 2 ^ 32 := Nat.mul_le_mul (le_of_lt hk) (le_of_lt hS)
      _ < 2 ^ 64 := by norm_num
  have e : ((k : Int) * (S : Int)) = ((k * S : Nat) : Int) := by push_cast; rfl
  unfold to_size_t
  rw [e, Int.emod_eq_of_lt (Int.natCast_nonneg _) (by exact_mod_cast hkS), Int.toNat_ofNat,
    Int.toNat_ofNat]

/-- The prefixes stage when the record declares no prefix. -/
theorem srvioctl_prefixes_none (K : Consts) (w : World) (pioctlu : IOCTLU)
    (voip_protocol fd : Int) (msg : ACU_SERVICE_MSG)
    (hc : pioctlu.in_admin.prefix_count ≤ 0) :
    srvioctl_prefixes K w pioctlu voip_protocol fd msg =
      { outcome := Outcome.ret msg.command_error, pioctlu := pioctlu,
        world := { w with trace := w.trace ++ [Event.sem_post voip_protocol] } } := by
  have h : ¬ (pioctlu.in_admin.prefix_count > 0) := by omega
  simp [srvioctl_prefixes, h, srvioctl_done, World.log]

/-- The prefixes stage when the record declares `c > 0` prefixes, `malloc`
returns `q` and the stream hands over the array. -/
theorem srvioctl_prefixes_read (K : Consts) (w : World) (pioctlu : IOCTLU)
    (voip_protocol fd : Int) (msg : ACU_SERVICE_MSG) (hK : K.wf) (c q : Nat) (ms : List Nat)
    (hc : pioctlu.in_admin.prefix_count = c) (hc0 : 0 < c) (hc1 : c < 2 ^ 31)
    (hm : w.mallocs = q :: ms) (hq : q ≠ 0)
    (hsup : supplies w.chan (c * K.sizeof_alias_address) = true) :
    srvioctl_prefixes K w pioctlu voip_protocol fd msg =
      { outcome := Outcome.ret msg.command_error,
        pioctlu := { pioctlu with in_admin := { pioctlu.in_admin with prefixes := q } },
        world :=
          { w with
            chan := stream_drop w.chan (c * K.sizeof_alias_address),
            mallocs := ms,
            heap := (q, stream_take w.chan (c * K.sizeof_alias_address)) :: w.heap,
            trace := w.trace ++ [Event.malloc (c * K.sizeof_alias_address) q] ++
              stream_reads fd w.chan (c * K.sizeof_alias_address) ++
              [Event.sem_post voip_protocol] } } := by
  have h : pioctlu.in_admin.prefix_count > 0 := by rw [hc]; exact_mod_cast hc0
  have hs : to_size_t (pioctlu.in_admin.prefix_count * K.sizeof_alias_address) =
      c * K.sizeof_alias_address := by
    rw [to_size_t_count _ _ (le_of_lt h) (by rw [hc]; exact_mod_cast hc1) hK.alias_small, hc]
    simp
  have hpos : 0 < c * K.sizeof_alias_address := Nat.mul_pos hc0 hK.alias_pos
  have hr := read_safely_supplied K (malloc w (c * K.sizeof_alias_address)).2 fd
    (c * K.sizeof_alias_address) hpos (by simpa [malloc] using hsup)
  simp only [srvioctl_prefixes, h, if_true, hs]
  rw [hr]
  simp [malloc, hm, hq, srvioctl_done, World.after, World.log, World.poke]

/-- The aliases stage when the record declares no alias. -/
theorem srvioctl_aliases_none (K : Consts) (w : World) (pioctlu : IOCTLU)
    (voip_protocol fd : Int) (msg : ACU_SERVICE_MSG)
    (ha : pioctlu.in_admin.endpoint_alias_count ≤ 0) :
    srvioctl_aliases K w pioctlu voip_protocol fd msg =
      srvioctl_prefixes K w pioctlu voip_protocol fd msg := by
  have h : ¬ (pioctlu.in_admin.endpoint_alias_count > 0) := by omega
  simp [srvioctl_aliases, h]

/-- The aliases stage when the record declares `a > 0` aliases, `malloc`
returns `q` and the stream hands over the array. -/
theorem srvioctl_aliases_read (K : Consts) (w : World) (pioctlu : IOCTLU)
    (voip_protocol fd : Int) (msg : ACU_SERVICE_MSG) (hK : K.wf) (a q : Nat) (ms : List Nat)
    (ha : pioctlu.in_admin.endpoint_alias_count = a) (ha0 : 0 < a) (ha1 : a < 2 ^ 31)
    (hm : w.mallocs = q :: ms) (hq : q ≠ 0)
    (hsup : supplies w.chan (a * K.sizeof_alias_address) = true) :
    srvioctl_aliases K w pioctlu voip_protocol fd msg =
      srvioctl_prefixes K
        { w with
          chan := stream_drop w.chan (a * K.sizeof_alias_address),
          mallocs := ms,
          heap := (q, stream_take w.chan (a * K.sizeof_alias_address)) :: w.heap,
          trace := w.trace ++ [Event.malloc (a * K.sizeof_alias_address) q] ++
            stream_reads fd w.chan (a * K.sizeof_alias_address) }
        { pioctlu with in_admin := { pioctlu.in_admin with endpoint_alias := q } }
        voip_protocol fd msg := by
  have h : pioctlu.in_admin.endpoint_alias_count > 0 := by rw [ha]; exact_mod_cast ha0
  have hs : to_size_t (pioctlu.in_admin.endpoint_alias_count * K.sizeof_alias_address) =
      a * K.sizeof_alias_address := by
    rw [to_size_t_count _ _ (le_of_lt h) (by rw [ha]; exact_mod_cast ha1) hK.alias_small, ha]
    simp
  have hpos : 0 < a * K.sizeof_alias_address := Nat.mul_pos ha0 hK.alias_pos
  have hr := read_safely_supplied K (malloc w (a * K.sizeof_alias_address)).2 fd
    (a * K.sizeof_alias_address) hpos (by simpa [malloc] using hsup)
  simp only [srvioctl_aliases, h, if_true, hs]
  rw [hr]
  simp [malloc, hm, hq, World.after, World.log, World.poke]

/-- The administrative reply with the validity flag set, up to the arrays:
the fixed record is read over the caller's record, whose array fields were
set to null just before, and `valid` is set. -/
theorem srvioctl_reply_admin_record (K : Consts) (w : World) (pioctlu : IOCTLU)
    (len voip_protocol fd : Int) (msg : ACU_SERVICE_MSG) (hK : K.wf)
    (hty : msg.message_type = K.ADMIN_CHAN_RAS_MSG) (hvalid : msg.valid ≠ 0)
    (hsup : supplies w.chan K.sizeof_admin_msg = true) :
    srvioctl_reply K w pioctlu len voip_protocol fd msg =
      srvioctl_aliases K
        { w with
          chan := stream_drop w.chan K.sizeof_admin_msg,
          trace := w.trace ++ stream_reads fd w.chan K.sizeof_admin_msg }
        { pioctlu with
          in_admin :=
            K.store { pioctlu.in_admin with prefixes := 0, endpoint_alias := 0 }
              (stream_take w.chan K.sizeof_admin_msg),
          in_valid := 1 }
        voip_protocol fd msg := by
  have hne : K.ADMIN_CHAN_RAS_MSG ≠ K.TLS_MSG_GENERIC_TLS := fun h => hK.tags h.symm
  simp [srvioctl_reply, hty, hne, hvalid,
    read_safely_supplied K w fd K.sizeof_admin_msg hK.admin_pos hsup, World.after]

/-- Taking no byte leaves the stream as it is. -/
theorem stream_drop_zero (chan : List Chunk) : stream_drop chan 0 = chan := by
  cases chan <;> simp [stream_drop]

/-- What `poke` stored last is what `peek` finds. -/
theorem World.peek_cons_same (w : World) (q : Nat) (bs : List Nat)
    (h : List (Nat × List Nat)) : World.peek { w with heap := (q, bs) :: h } q = some bs := by
  simp [World.peek, List.lookup]

/-- At another address `peek` skips what `poke` stored. -/
theorem World.peek_cons_ne (w : World) (q q2 : Nat) (bs : List Nat)
    (h : List (Nat × List Nat)) (hne : q ≠ q2) :
    World.peek { w with heap := (q2, bs) :: h } q = World.peek { w with heap := h } q := by
  have : (q == q2) = false := by simpa using hne
  simp [World.peek, List.lookup, this]

/-- C9: a valid administrative reply whose record declares `a` aliases and
`c` prefixes, on a stream that hands over the record and both arrays, with
`malloc` returning distinct non-null pointers.  `srvioctl` returns the
header's status; it takes exactly `sizeof(voip_admin_msg) + (a + c) *
sizeof(alias_address)` bytes off the stream; when `a > 0` the alias field
points to the `a * sizeof(alias_address)` bytes that followed the record,
and when `c > 0` the prefix field points to the `c * sizeof(alias_address)`
bytes that followed those, in the order sent. -/
theorem srvioctl_admin_reply_arrays (K : Consts) (env : Env) (w : World) (function : Int)
    (pioctlu : IOCTLU) (len board_card_number voip_protocol : Int) (p : pipe_data)
    (a c q1 q2 : Nat) (ms : List Nat)
    (hK : K.wf)
    (hp : w.pipes.get? voip_protocol = some p) (hfd : 0 ≤ p.fd)
    (hf : function ≠ K.CALL_SEND_RAS_MSG) (hpipe : env.pipe_ret = 0)
    (hlock : env.lock_ret = 0)
    (hw : env.writev_ret =
      (compose K function (message_type_of K function)
        { pioctlu with block := K.init_api_reg pioctlu.block len } len).iov_size)
    (hwait : env.wait_ret = 0)
    (hty : p.svc_msg.message_type = K.ADMIN_CHAN_RAS_MSG)
    (hvalid : p.svc_msg.valid ≠ 0)
    (ha : (K.store { pioctlu.in_admin with prefixes := 0, endpoint_alias := 0 }
      (stream_take w.chan K.sizeof_admin_msg)).endpoint_alias_count = a)
    (hc : (K.store { pioctlu.in_admin with prefixes := 0, endpoint_alias := 0 }
      (stream_take w.chan K.sizeof_admin_msg)).prefix_count = c)
    (ha1 : a < 2 ^ 31) (hc1 : c < 2 ^ 31)
    (hsup : supplies w.chan
      (K.sizeof_admin_msg + (a + c) * K.sizeof_alias_address) = true)
    (hm : w.mallocs = q1 :: q2 :: ms) (hq1 : q1 ≠ 0) (hq2 : q2 ≠ 0) (hq : q1 ≠ q2) :
    let r := srvioctl K env w function pioctlu len board_card_number voip_protocol
    let sent := stream_take w.chan (K.sizeof_admin_msg + (a + c) * K.sizeof_alias_address)
    r.outcome = Outcome.ret p.svc_msg.command_error ∧
    sent.length = K.sizeof_admin_msg + (a + c) * K.sizeof_alias_address ∧
    r.world.chan =
      stream_drop w.chan (K.sizeof_admin_msg + (a + c) * K.sizeof_alias_address) ∧
    r.pioctlu.in_admin.endpoint_alias_count = a ∧
    r.pioctlu.in_admin.prefix_count = c ∧
    (0 < a →
      r.pioctlu.in_admin.endpoint_alias ≠ 0 ∧
      r.world.peek r.pioctlu.in_admin.endpoint_alias =
        some ((sent.drop K.sizeof_admin_msg).take (a * K.sizeof_alias_address))) ∧
    (0 < c →
      r.pioctlu.in_admin.prefixes ≠ 0 ∧
      r.world.peek r.pioctlu.in_admin.prefixes =
        some (sent.drop (K.sizeof_admin_msg + a * K.sizeof_alias_address))) := by
  intro r sent
  have hmul : (a + c) * K.sizeof_alias_address =
      a * K.sizeof_alias_address + c * K.sizeof_alias_address := Nat.add_mul _ _ _
  have hsup2 := hsup
  rw [hmul] at hsup2
  obtain ⟨s1, s2, t1, d1⟩ := stream_split w.chan K.sizeof_admin_msg
    (a * K.sizeof_alias_address + c * K.sizeof_alias_address) hsup2
  obtain ⟨s3, s4, t2, d2⟩ := stream_split (stream_drop w.chan K.sizeof_admin_msg)
    (a * K.sizeof_alias_address) (c * K.sizeof_alias_address) s2
  have l1 := stream_take_length w.chan K.sizeof_admin_msg s1
  have l3 := stream_take_length _ _ s3
  have l4 := stream_take_length _ _ s4
  have hsent : sent = stream_take w.chan K.sizeof_admin_msg ++
      (stream_take (stream_drop w.chan K.sizeof_admin_msg) (a * K.sizeof_alias_address) ++
        stream_take (stream_drop (stream_drop w.chan K.sizeof_admin_msg)
          (a * K.sizeof_alias_address)) (c * K.sizeof_alias_address)) := by
    show stream_take w.chan (K.sizeof_admin_msg + (a + c) * K.sizeof_alias_address) = _
    rw [hmul, t1, t2]
  have hsentA : (sent.drop K.sizeof_admin_msg).take (a * K.sizeof_alias_address) =
      stream_take (stream_drop w.chan K.sizeof_admin_msg) (a * K.sizeof_alias_address) := by
    rw [hsent, List.drop_left' l1, List.take_left' l3]
  have hsentC : sent.drop (K.sizeof_admin_msg + a * K.sizeof_alias_address) =
      stream_take (stream_drop (stream_drop w.chan K.sizeof_admin_msg)
        (a * K.sizeof_alias_address)) (c * K.sizeof_alias_address) := by
    rw [hsent, ← List.append_assoc]
    exact List.drop_left' (by rw [List.length_append, l1, l3])
  have hlen : sent.length = K.sizeof_admin_msg + (a + c) * K.sizeof_alias_address :=
    stream_take_length w.chan _ hsup
  have hdrop : stream_drop w.chan (K.sizeof_admin_msg + (a + c) * K.sizeof_alias_address) =
      stream_drop (stream_drop (stream_drop w.chan K.sizeof_admin_msg)
        (a * K.sizeof_alias_address)) (c * K.sizeof_alias_address) := by
    rw [hmul, d1, d2]
  have hr0 : r = srvioctl_aliases K
      { w with
        chan := stream_drop w.chan K.sizeof_admin_msg,
        trace := w.trace ++
            [Event.pipe 0 env.pipe_fds,
             Event.mutex_lock voip_protocol 0,
             Event.writev p.fd
               { header_of K function board_card_number with
                 pendingMsgEvent := env.pipe_fds.2 }
               (compose K function (message_type_of K function)
                 { pioctlu with block := K.init_api_reg pioctlu.block len } len).iov
               env.writev_ret,
             Event.mutex_unlock voip_protocol,
             Event.read env.pipe_fds.1 4,
             Event.close env.pipe_fds.1] ++ stream_reads p.fd w.chan K.sizeof_admin_msg }
      { pioctlu with
        block := K.init_api_reg pioctlu.block len,
        in_admin :=
          K.store { pioctlu.in_admin with prefixes := 0, endpoint_alias := 0 }
            (stream_take w.chan K.sizeof_admin_msg),
        in_valid := 1 }
      voip_protocol p.fd p.svc_msg := by
    show srvioctl K env w function pioctlu len board_card_number voip_protocol = _
    rw [srvioctl_reaches_reply K env w function pioctlu len board_card_number voip_protocol p
      hp hfd hf hpipe hlock hw hwait]
    refine (srvioctl_reply_admin_record K _ _ len voip_protocol p.fd p.svc_msg hK hty hvalid
      ?_).trans ?_
    · exact s1
    · rfl
  clear_value r sent
  rw [hsentA, hsentC, hdrop]
  have hb : (q1 == q2) = false := by simpa using hq
  suffices h : r.outcome = Outcome.ret p.svc_msg.command_error ∧
      r.world.chan =
        stream_drop (stream_drop (stream_drop w.chan K.sizeof_admin_msg)
          (a * K.sizeof_alias_address)) (c * K.sizeof_alias_address) ∧
      r.pioctlu.in_admin.endpoint_alias_count = a ∧
      r.pioctlu.in_admin.prefix_count = c ∧
      (0 < a →
        r.pioctlu.in_admin.endpoint_alias ≠ 0 ∧
        r.world.peek r.pioctlu.in_admin.endpoint_alias =
          some (stream_take (stream_drop w.chan K.sizeof_admin_msg)
            (a * K.sizeof_alias_address))) ∧
      (0 < c →
        r.pioctlu.in_admin.prefixes ≠ 0 ∧
        r.world.peek r.pioctlu.in_admin.prefixes =
          some (stream_take (stream_drop (stream_drop w.chan K.sizeof_admin_msg)
            (a * K.sizeof_alias_address)) (c * K.sizeof_alias_address))) from
    ⟨h.1, hlen, h.2⟩
  rcases Nat.eq_zero_or_pos a with ha0 | ha0
  · -- no alias
    subst ha0
    have hr1 := hr0.trans
      (srvioctl_aliases_none K _ _ voip_protocol p.fd p.svc_msg (le_of_eq ha))
    simp only [Nat.zero_mul, stream_drop_zero] at s4 ⊢
    rcases Nat.eq_zero_or_pos c with hc0 | hc0
    · subst hc0
      have hr2 := hr1.trans
        (srvioctl_prefixes_none K _ _ voip_protocol p.fd p.svc_msg (le_of_eq hc))
      subst hr2
      simp [stream_drop_zero, ha, hc]
    · have hr2 := hr1.trans
        (srvioctl_prefixes_read K _ _ voip_protocol p.fd p.svc_msg hK c q1 (q2 :: ms) hc hc0
          hc1 hm hq1 s4)
      subst hr2
      simp [ha, hc, hq1, World.peek, List.lookup]
  · -- `a` aliases
    have hr1 := hr0.trans
      (srvioctl_aliases_read K _ _ voip_protocol p.fd p.svc_msg hK a q1 (q2 :: ms) ha ha0 ha1
        hm hq1 s3)
    rcases Nat.eq_zero_or_pos c with hc0 | hc0
    · subst hc0
      have hr2 := hr1.trans
        (srvioctl_prefixes_none K _ _ voip_protocol p.fd p.svc_msg (le_of_eq hc))
      subst hr2
      simp [stream_drop_zero, ha, hc, hq1, World.peek, List.lookup]
    · have hr2 := hr1.trans
        (srvioctl_prefixes_read K _ _ voip_protocol p.fd p.svc_msg hK c q2 ms hc hc0
          hc1 rfl hq2 s4)
      subst hr2
      simp [ha, hc, hq1, hq2, hb, World.peek, List.lookup]

/-- C9, witness: `CALL_GET_RAS_MSG` on the sample world, answered by a
valid administrative reply whose record declares one alias and two
prefixes; the record and the arrays arrive in pieces, with an interruption
in between. -/
theorem srvioctl_admin_reply_arrays_witness :
    (srvioctl Consts.sample (Env.sample 24)
        (World.sample (ACU_SERVICE_MSG.reply 2 1 17) Chunk.sample_stream [40, 41, 42])
        100 IOCTLU.sample 0 3 H323_PIPE_INDEX).outcome = Outcome.ret 17 ∧
    (stream_take Chunk.sample_stream (4 + (1 + 2) * 2)).length = 4 + (1 + 2) * 2 ∧
    (srvioctl Consts.sample (Env.sample 24)
        (World.sample (ACU_SERVICE_MSG.reply 2 1 17) Chunk.sample_stream [40, 41, 42])
        100 IOCTLU.sample 0 3 H323_PIPE_INDEX).world.chan = [Chunk.data [55]] ∧
    (srvioctl Consts.sample (Env.sample 24)
        (World.sample (ACU_SERVICE_MSG.reply 2 1 17) Chunk.sample_stream [40, 41, 42])
        100 IOCTLU.sample 0 3 H323_PIPE_INDEX).pioctlu.in_admin.endpoint_alias_count = 1 ∧
    (srvioctl Consts.sample (Env.sample 24)
        (World.sample (ACU_SERVICE_MSG.reply 2 1 17) Chunk.sample_stream [40, 41, 42])
        100 IOCTLU.sample 0 3 H323_PIPE_INDEX).pioctlu.in_admin.prefix_count = 2 ∧
    (0 < 1 →
      (srvioctl Consts.sample (Env.sample 24)
          (World.sample (ACU_SERVICE_MSG.reply 2 1 17) Chunk.sample_stream [40, 41, 42])
          100 IOCTLU.sample 0 3 H323_PIPE_INDEX).pioctlu.in_admin.endpoint_alias ≠ 0 ∧
      (srvioctl Consts.sample (Env.sample 24)
          (World.sample (ACU_SERVICE_MSG.reply 2 1 17) Chunk.sample_stream [40, 41, 42])
          100 IOCTLU.sample 0 3 H323_PIPE_INDEX).world.peek 40 = some [11, 12]) ∧
    (0 < 2 →
      (srvioctl Consts.sample (Env.sample 24)
          (World.sample (ACU_SERVICE_MSG.reply 2 1 17) Chunk.sample_stream [40, 41, 42])
          100 IOCTLU.sample 0 3 H323_PIPE_INDEX).pioctlu.in_admin.prefixes ≠ 0 ∧
      (srvioctl Consts.sample (Env.sample 24)
          (World.sample (ACU_SERVICE_MSG.reply 2 1 17) Chunk.sample_stream [40, 41, 42])
          100 IOCTLU.sample 0 3 H323_PIPE_INDEX).world.peek 41 = some [21, 22, 23, 24]) :=
  srvioctl_admin_reply_arrays Consts.sample (Env.sample 24)
    (World.sample (ACU_SERVICE_MSG.reply 2 1 17) Chunk.sample_stream [40, 41, 42])
    100 IOCTLU.sample 0 3 H323_PIPE_INDEX
    { fd := 5, svc_msg := ACU_SERVICE_MSG.reply 2 1 17 } 1 2 40 41 [42]
    Consts.sample_wf (by decide) (by decide) (by decide) (by decide) (by decide) (by decide)
    (by decide) (by decide) (by decide) (by decide) (by decide) (by decide) (by decide)
    (by decide) (by decide) (by decide) (by decide) (by decide)

/-- A valid administrative reply whose record declares neither aliases nor
prefixes: the caller's record is the received record as it came off the
stream, array fields included, and nothing is allocated. -/
theorem srvioctl_reply_admin_no_arrays (K : Consts) (w : World) (pioctlu : IOCTLU)
    (len voip_protocol fd : Int) (msg : ACU_SERVICE_MSG) (hK : K.wf)
    (hty : msg.message_type = K.ADMIN_CHAN_RAS_MSG) (hvalid : msg.valid ≠ 0)
    (hsup : supplies w.chan K.sizeof_admin_msg = true)
    (ha : (K.store { pioctlu.in_admin with prefixes := 0, endpoint_alias := 0 }
      (stream_take w.chan K.sizeof_admin_msg)).endpoint_alias_count ≤ 0)
    (hc : (K.store { pioctlu.in_admin with prefixes := 0, endpoint_alias := 0 }
      (stream_take w.chan K.sizeof_admin_msg)).prefix_count ≤ 0) :
    srvioctl_reply K w pioctlu len voip_protocol fd msg =
      { outcome := Outcome.ret msg.command_error,
        pioctlu :=
          { pioctlu with
            in_admin :=
              K.store { pioctlu.in_admin with prefixes := 0, endpoint_alias := 0 }
                (stream_take w.chan K.sizeof_admin_msg),
            in_valid := 1 },
        world :=
          { w with
            chan := stream_drop w.chan K.sizeof_admin_msg,
            trace := w.trace ++ stream_reads fd w.chan K.sizeof_admin_msg ++
              [Event.sem_post voip_protocol] } } := by
  rw [srvioctl_reply_admin_record K w pioctlu len voip_protocol fd msg hK hty hvalid hsup]
  refine (srvioctl_aliases_none K _ _ voip_protocol fd msg ha).trans ?_
  exact srvioctl_prefixes_none K _ _ voip_protocol fd msg hc

/-- C8 (the code departs from the claim): `CALL_GET_RAS_MSG` on the sample
world, answered by a valid administrative reply whose record `[0, 7, 0, 9]`
declares no alias and no prefix but carries 7 and 9 in its pointer fields.
`srvioctl` returns the status 0 and allocates nothing, and the array fields
handed back are 7 and 9, not null: the fields were set to null before the
record was read over them. -/
theorem srvioctl_admin_reply_stale_pointers :
    srvioctl Consts.sample (Env.sample 24)
        (World.sample (ACU_SERVICE_MSG.reply 2 1 0) [Chunk.data [0, 7, 0, 9]] [40])
        100 IOCTLU.sample 0 3 H323_PIPE_INDEX =
      { outcome := Outcome.ret 0,
        pioctlu :=
          { IOCTLU.sample with
            in_admin :=
              { endpoint_alias_count := 0, endpoint_alias := 7, prefix_count := 0,
                prefixes := 9, other := [] },
            in_valid := 1 },
        world :=
          { World.sample (ACU_SERVICE_MSG.reply 2 1 0) [] [40] with
            trace :=
              [Event.pipe 0 (8, 9),
               Event.mutex_lock 0 0,
               Event.writev 5
                 { voip_card := 3, function := 100, message_type := 2,
                   pendingMsgEvent := 9, valid := 0, command_error := 0 }
                 [{ iov_base := Base.msg, iov_len := 24 }]
                 24,
               Event.mutex_unlock 0,
               Event.read 8 4,
               Event.close 8,
               Event.read 5 4,
               Event.sem_post 0] } } := by
  decide

/-- C10 (the code departs from the claim): `CALL_GET_RAS_MSG` on the sample
world, answered by a valid administrative reply whose record `[0, 7, 1, 0]`
declares no alias, carries 7 in the alias pointer field and declares one
prefix, while `malloc` fails.  `srvioctl` returns `ERR_CFAIL` after
`free(7)`: it releases a pointer that no `malloc` of this call returned. -/
theorem srvioctl_admin_reply_frees_stale_pointer :
    (srvioctl Consts.sample (Env.sample 24)
        (World.sample (ACU_SERVICE_MSG.reply 2 1 0) [Chunk.data [0, 7, 1, 0]] [])
        100 IOCTLU.sample 0 3 H323_PIPE_INDEX).outcome = Outcome.ret Consts.sample.ERR_CFAIL ∧
    (srvioctl Consts.sample (Env.sample 24)
        (World.sample (ACU_SERVICE_MSG.reply 2 1 0) [Chunk.data [0, 7, 1, 0]] [])
        100 IOCTLU.sample 0 3 H323_PIPE_INDEX).world.trace =
      [Event.pipe 0 (8, 9),
       Event.mutex_lock 0 0,
       Event.writev 5
         { voip_card := 3, function := 100, message_type := 2,
           pendingMsgEvent := 9, valid := 0, command_error := 0 }
         [{ iov_base := Base.msg, iov_len := 24 }]
         24,
       Event.mutex_unlock 0,
       Event.read 8 4,
       Event.close 8,
       Event.read 5 4,
       Event.malloc 2 0,
       Event.free 7,
       Event.sem_post 0] := by
  decide

/-! ## The claims on the status code, the registry and start-up -/

/-- The loop of `read_safely` returns 0 or `ERR_CFAIL`. -/
theorem read_safely_loop_ret (K : Consts) (fd : Int) :
    ∀ (chan : List Chunk) (size : Nat) (got : List Nat) (tr : List Event),
      (read_safely_loop K fd chan size got tr).ret = 0 ∨
      (read_safely_loop K fd chan size got tr).ret = K.ERR_CFAIL := by
  intro chan
  induction chan with
  | nil =>
    intro size got tr
    simp only [read_safely_loop]
    split_ifs <;> simp
  | cons c rest ih =>
    intro size got tr
    rw [read_safely_loop]
    simp only []
    split_ifs <;> first | exact ih _ _ _ | simp

/-- The loop of `read_safely` adds no `writev` to the trace. -/
theorem read_safely_loop_writev (K : Consts) (fd : Int) :
    ∀ (chan : List Chunk) (size : Nat) (got : List Nat) (tr : List Event),
      (read_safely_loop K fd chan size got tr).trace.countP Event.is_writev =
        tr.countP Event.is_writev := by
  intro chan
  induction chan with
  | nil =>
    intro size got tr
    simp only [read_safely_loop]
    split_ifs <;> simp [List.countP_append, Event.is_writev]
  | cons c rest ih =>
    intro size got tr
    rw [read_safely_loop]
    simp only []
    split_ifs <;> first
      | (rw [ih]; simp [List.countP_append, Event.is_writev])
      | simp [List.countP_append, Event.is_writev]

/-- The function `read_safely` returns 0 or `ERR_CFAIL`. -/
theorem read_safely_ret (K : Consts) (w : World) (fd : Int) (size : Nat) :
    (read_safely K w fd size).ret = 0 ∨ (read_safely K w fd size).ret = K.ERR_CFAIL :=
  read_safely_loop_ret K fd w.chan size [] w.trace

/-- The function `read_safely` adds no `writev` to the trace. -/
theorem read_safely_writev (K : Consts) (w : World) (fd : Int) (size : Nat) :
    (read_safely K w fd size).trace.countP Event.is_writev =
      w.trace.countP Event.is_writev :=
  read_safely_loop_writev K fd w.chan size [] w.trace

/-- The prefixes stage ends with the header's status or with `ERR_CFAIL`,
and writes nothing. -/
theorem srvioctl_prefixes_exit (K : Consts) (w : World) (pioctlu : IOCTLU)
    (voip_protocol fd : Int) (msg : ACU_SERVICE_MSG) :
    ((srvioctl_prefixes K w pioctlu voip_protocol fd msg).outcome =
        Outcome.ret msg.command_error ∨
      (srvioctl_prefixes K w pioctlu voip_protocol fd msg).outcome =
        Outcome.ret K.ERR_CFAIL) ∧
    (srvioctl_prefixes K w pioctlu voip_protocol fd msg).world.trace.countP Event.is_writev =
      w.trace.countP Event.is_writev := by
  unfold srvioctl_prefixes
  simp only []
  split_ifs <;>
    simp [srvioctl_fail, srvioctl_done, World.log, World.after, World.poke,
      List.countP_append, Event.is_writev, read_safely_writev, malloc]

/-- The aliases stage ends with the header's status or with `ERR_CFAIL`,
and writes nothing. -/
theorem srvioctl_aliases_exit (K : Consts) (w : World) (pioctlu : IOCTLU)
    (voip_protocol fd : Int) (msg : ACU_SERVICE_MSG) :
    ((srvioctl_aliases K w pioctlu voip_protocol fd msg).outcome =
        Outcome.ret msg.command_error ∨
      (srvioctl_aliases K w pioctlu voip_protocol fd msg).outcome =
        Outcome.ret K.ERR_CFAIL) ∧
    (srvioctl_aliases K w pioctlu voip_protocol fd msg).world.trace.countP Event.is_writev =
      w.trace.countP Event.is_writev := by
  unfold srvioctl_aliases
  simp only []
  split_ifs
  · simp [srvioctl_fail, World.log, List.countP_append, Event.is_writev, malloc]
  · simp [srvioctl_fail, World.log, World.after, World.poke, List.countP_append,
      Event.is_writev, read_safely_writev, malloc]
  · obtain ⟨h1, h2⟩ := srvioctl_prefixes_exit K
      (((malloc w (to_size_t (pioctlu.in_admin.endpoint_alias_count *
          K.sizeof_alias_address))).2.after
        (read_safely K (malloc w (to_size_t (pioctlu.in_admin.endpoint_alias_count *
          K.sizeof_alias_address))).2 fd
          (to_size_t (pioctlu.in_admin.endpoint_alias_count * K.sizeof_alias_address)))).poke
        (malloc w (to_size_t (pioctlu.in_admin.endpoint_alias_count *
          K.sizeof_alias_address))).1
        (read_safely K (malloc w (to_size_t (pioctlu.in_admin.endpoint_alias_count *
          K.sizeof_alias_address))).2 fd
          (to_size_t (pioctlu.in_admin.endpoint_alias_count *
            K.sizeof_alias_address))).stored)
      { pioctlu with
        in_admin :=
          { pioctlu.in_admin with
            endpoint_alias :=
              (malloc w (to_size_t (pioctlu.in_admin.endpoint_alias_count *
                K.sizeof_alias_address))).1 } }
      voip_protocol fd msg
    refine ⟨h1, ?_⟩
    rw [h2]
    simp [World.after, World.poke, read_safely_writev, malloc, List.countP_append,
      Event.is_writev]
  · exact srvioctl_prefixes_exit K w pioctlu voip_protocol fd msg

/-- The reply stage ends with the header's status or with `ERR_CFAIL`, and
writes nothing. -/
theorem srvioctl_reply_exit (K : Consts) (w : World) (pioctlu : IOCTLU)
    (len voip_protocol fd : Int) (msg : ACU_SERVICE_MSG) :
    ((srvioctl_reply K w pioctlu len voip_protocol fd msg).outcome =
        Outcome.ret msg.command_error ∨
      (srvioctl_reply K w pioctlu len voip_protocol fd msg).outcome =
        Outcome.ret K.ERR_CFAIL) ∧
    (srvioctl_reply K w pioctlu len voip_protocol fd msg).world.trace.countP Event.is_writev =
      w.trace.countP Event.is_writev := by
  unfold srvioctl_reply
  simp only []
  split_ifs
  · simp [srvioctl_fail, World.log, World.after, List.countP_append, Event.is_writev,
      read_safely_writev]
  · simp [srvioctl_done, World.log, World.after, List.countP_append, Event.is_writev,
      read_safely_writev]
  · simp [srvioctl_done, World.log, List.countP_append, Event.is_writev]
  · simp [srvioctl_fail, World.log, World.after, List.countP_append, Event.is_writev,
      read_safely_writev]
  · obtain ⟨h1, h2⟩ := srvioctl_aliases_exit K
      (w.after (read_safely K w fd K.sizeof_admin_msg))
      { pioctlu with
        in_admin :=
          K.store { pioctlu.in_admin with prefixes := 0, endpoint_alias := 0 }
            (read_safely K w fd K.sizeof_admin_msg).stored,
        in_valid := 1 }
      voip_protocol fd msg
    refine ⟨h1, ?_⟩
    rw [h2]
    simp [World.after, read_safely_writev]
  · simp [srvioctl_done, World.log, List.countP_append, Event.is_writev]

/-- A request/response call (any opcode but `CALL_SEND_RAS_MSG`) that does
not return `ERR_CFAIL` returns the status `command_error` of the header
deposited for it, and has made exactly one `writev`. -/
theorem srvioctl_returns_status (K : Consts) (env : Env) (w : World) (function : Int)
    (pioctlu : IOCTLU) (len board_card_number voip_protocol : Int) (p : pipe_data)
    (hp : w.pipes.get? voip_protocol = some p)
    (hf : function ≠ K.CALL_SEND_RAS_MSG)
    (hne : (srvioctl K env w function pioctlu len board_card_number voip_protocol).outcome ≠
      Outcome.ret K.ERR_CFAIL) :
    (srvioctl K env w function pioctlu len board_card_number voip_protocol).outcome =
      Outcome.ret p.svc_msg.command_error ∧
    (srvioctl K env w function pioctlu len board_card_number
        voip_protocol).world.trace.countP Event.is_writev =
      w.trace.countP Event.is_writev + 1 := by
  have hr := Pipes.get?_some_range w.pipes voip_protocol p hp
  by_cases hfd : p.fd < 0
  · exact absurd (by simp [srvioctl, hp, hfd, hr]) hne
  by_cases hpipe : env.pipe_ret = 0
  swap
  · exact absurd (by simp [srvioctl, hp, hfd, hr, hf, hpipe]) hne
  by_cases hlock : env.lock_ret = 0
  swap
  · exact absurd (by simp [srvioctl, srvioctl_write, hp, hfd, hr, hf, hpipe, hlock]) hne
  by_cases hw : env.writev_ret =
      (compose K function (message_type_of K function)
        { pioctlu with block := K.init_api_reg pioctlu.block len } len).iov_size
  swap
  · exact absurd
      (by simp [srvioctl, srvioctl_write, header_of, hp, hfd, hr, hf, hpipe, hlock, hw]) hne
  by_cases hwait : env.wait_ret = 0
  swap
  · exact absurd
      (by simp [srvioctl, srvioctl_write, header_of, hp, hfd, hr, hf, hpipe, hlock, ← hw,
        hwait]) hne
  have hfd2 : 0 ≤ p.fd := by omega
  rw [srvioctl_reaches_reply K env w function pioctlu len board_card_number voip_protocol p hp
    hfd2 hf hpipe hlock hw hwait] at hne ⊢
  obtain ⟨h1, h2⟩ := srvioctl_reply_exit K
    { w with
      trace := w.trace ++
        [Event.pipe 0 env.pipe_fds,
         Event.mutex_lock voip_protocol 0,
         Event.writev p.fd
           { header_of K function board_card_number with
             pendingMsgEvent := env.pipe_fds.2 }
           (compose K function (message_type_of K function)
             { pioctlu with block := K.init_api_reg pioctlu.block len } len).iov
           env.writev_ret,
         Event.mutex_unlock voip_protocol,
         Event.read env.pipe_fds.1 4,
         Event.close env.pipe_fds.1] }
    { pioctlu with block := K.init_api_reg pioctlu.block len } len voip_protocol p.fd p.svc_msg
  refine ⟨?_, ?_⟩
  · rcases h1 with h | h
    · exact h
    · exact absurd h hne
  · rw [h2]
    simp [List.countP_append, Event.is_writev]

/-- C11 (the code departs from the claim): a generic request with `len = 0`
on the sample world, answered by a generic reply with the status 17.  The
pipe, the lock, the one `writev` of all 24 bytes and the wait succeed, and no
`read` is made on the channel, so nothing of the transport fails; yet
`srvioctl` returns `ERR_CFAIL` and not the header's status 17. -/
theorem srvioctl_len_zero_loses_status :
    srvioctl Consts.sample (Env.sample 24)
        (World.sample (ACU_SERVICE_MSG.reply 1 0 17) [] []) 7 IOCTLU.sample 0 3
        H323_PIPE_INDEX =
      { outcome := Outcome.ret Consts.sample.ERR_CFAIL,
        pioctlu := IOCTLU.sample,
        world :=
          { World.sample (ACU_SERVICE_MSG.reply 1 0 17) [] [] with
            trace :=
              [Event.pipe 0 (8, 9),
               Event.mutex_lock 0 0,
               Event.writev 5
                 { voip_card := 3, function := 7, message_type := 1,
                   pendingMsgEvent := 9, valid := 0, command_error := 0 }
                 [{ iov_base := Base.msg, iov_len := 24 },
                  { iov_base := Base.pioctlu, iov_len := 0 }]
                 24,
               Event.mutex_unlock 0,
               Event.read 8 4,
               Event.close 8,
               Event.sem_post 0] } } := by
  decide

/-- The loop of `init_voip_index_array` visits 0 and 1. -/
theorem pipe_indexes_eq : pipe_indexes = [0, 1] := by decide

/-- The first call of `get_voip_protocol_index_array` in full: a channel is
entered when its handle is not `-1`. -/
theorem get_voip_protocol_index_array_initial (pipes : Pipes) (v : Int) :
    get_voip_protocol_index_array pipes Registry.initial (some v) =
      { ret := some
          (if pipes.h323.fd ≠ -1 then (if pipes.sip.fd ≠ -1 then [0, 1] else [0, -1])
           else (if pipes.sip.fd ≠ -1 then [1, -1] else [-1, -1])),
        num_of_protocols := some
          (if pipes.h323.fd ≠ -1 then (if pipes.sip.fd ≠ -1 then 2 else 1)
           else (if pipes.sip.fd ≠ -1 then 1 else 0)),
        registry :=
          { running_pipe_count :=
              if pipes.h323.fd ≠ -1 then (if pipes.sip.fd ≠ -1 then 2 else 1)
              else (if pipes.sip.fd ≠ -1 then 1 else 0),
            usable_voip_indexes :=
              if pipes.h323.fd ≠ -1 then (if pipes.sip.fd ≠ -1 then [0, 1] else [0, -1])
              else (if pipes.sip.fd ≠ -1 then [1, -1] else [-1, -1]),
            init_array := true } } := by
  have t1 : to_int 1 = 1 := by decide
  have t2 : to_int 2 = 2 := by decide
  by_cases h0 : pipes.h323.fd = -1 <;> by_cases h1 : pipes.sip.fd = -1 <;>
    simp [get_voip_protocol_index_array, Registry.initial, init_voip_index_array,
      pipe_indexes_eq, init_voip_index_array_step, Pipes.get?, H323_PIPE_INDEX,
      SIP_PIPE_INDEX, h0, h1, t1, t2]

/-- C12: the first call of `get_voip_protocol_index_array`, the handles
being `-1` or descriptors.  The count reported is the number of connected
channels, the first `count` entries of the array are their indices in
increasing order, each once, and the call returns the array (no error)
also when no channel is connected. -/
theorem get_voip_protocol_index_array_first (pipes : Pipes) (v : Int)
    (h0 : pipes.h323.fd = -1 ∨ 0 ≤ pipes.h323.fd)
    (h1 : pipes.sip.fd = -1 ∨ 0 ≤ pipes.sip.fd) :
    let g := get_voip_protocol_index_array pipes Registry.initial (some v)
    let connected : List Int :=
      (if 0 ≤ pipes.h323.fd then [H323_PIPE_INDEX] else []) ++
      (if 0 ≤ pipes.sip.fd then [SIP_PIPE_INDEX] else [])
    g.num_of_protocols = some (connected.length : Int) ∧
    g.ret.map (List.take connected.length) = some connected ∧
    (connected = [] → g.num_of_protocols = some 0 ∧ g.ret.isSome = true) := by
  intro g connected
  have hg : g = get_voip_protocol_index_array pipes Registry.initial (some v) := rfl
  rw [get_voip_protocol_index_array_initial] at hg
  clear_value g
  subst hg
  rcases h0 with h0 | h0 <;> rcases h1 with h1 | h1
  · simp [connected, H323_PIPE_INDEX, SIP_PIPE_INDEX, h0, h1]
  · have n1 : pipes.sip.fd ≠ -1 := by omega
    simp [connected, H323_PIPE_INDEX, SIP_PIPE_INDEX, h0, h1, n1]
  · have n0 : pipes.h323.fd ≠ -1 := by omega
    simp [connected, H323_PIPE_INDEX, SIP_PIPE_INDEX, h0, h1, n0]
  · have n0 : pipes.h323.fd ≠ -1 := by omega
    have n1 : pipes.sip.fd ≠ -1 := by omega
    simp [connected, H323_PIPE_INDEX, SIP_PIPE_INDEX, h0, h1, n0, n1]

/-- C12, witness: the table of the sample world, in which only the H.323
channel is connected. -/
theorem get_voip_protocol_index_array_first_witness :
    (get_voip_protocol_index_array (World.sample ACU_SERVICE_MSG.zero [] []).pipes
        Registry.initial (some 99)).num_of_protocols = some 1 ∧
    (get_voip_protocol_index_array (World.sample ACU_SERVICE_MSG.zero [] []).pipes
        Registry.initial (some 99)).ret.map (List.take 1) = some [0] ∧
    (([0] : List Int) = [] →
      (get_voip_protocol_index_array (World.sample ACU_SERVICE_MSG.zero [] []).pipes
        Registry.initial (some 99)).num_of_protocols = some 0 ∧
      (get_voip_protocol_index_array (World.sample ACU_SERVICE_MSG.zero [] []).pipes
        Registry.initial (some 99)).ret.isSome = true) :=
  get_voip_protocol_index_array_first (World.sample ACU_SERVICE_MSG.zero [] []).pipes 99
    (by decide) (by decide)

/-- C13: a call of `get_voip_protocol_index_array` after another one,
whatever state the registry was in before and whatever the channel table
has become in between (`pipes2`), reports the same count and the same array
as the earlier call and leaves the registry as it was: the initialisation
has run once and does not run again. -/
theorem get_voip_protocol_index_array_again (pipes pipes2 : Pipes) (r : Registry)
    (v v2 : Int) :
    (get_voip_protocol_index_array pipes2
        (get_voip_protocol_index_array pipes r (some v)).registry (some v2)).num_of_protocols =
      (get_voip_protocol_index_array pipes r (some v)).num_of_protocols ∧
    (get_voip_protocol_index_array pipes2
        (get_voip_protocol_index_array pipes r (some v)).registry (some v2)).ret =
      (get_voip_protocol_index_array pipes r (some v)).ret ∧
    (get_voip_protocol_index_array pipes2
        (get_voip_protocol_index_array pipes r (some v)).registry (some v2)).registry =
      (get_voip_protocol_index_array pipes r (some v)).registry ∧
    (get_voip_protocol_index_array pipes r (some v)).registry.init_array = true := by
  by_cases h : r.init_array = true <;> simp [get_voip_protocol_index_array, h]

/-- An entry of the table after a store to its handle. -/
theorem Pipes.get?_set_fd (ps : Pipes) (i fd : Int) (p : pipe_data)
    (hp : ps.get? i = some p) : (ps.set_fd i fd).get? i = some { p with fd := fd } := by
  unfold Pipes.get? at hp ⊢
  unfold Pipes.set_fd
  unfold H323_PIPE_INDEX SIP_PIPE_INDEX at *
  by_cases h0 : i = 0
  · subst h0
    simp at hp ⊢
    rw [← hp]
  · by_cases h1 : i = 1
    · subst h1
      simp at hp ⊢
      rw [← hp]
    · simp [h0, h1] at hp

/-- C16: a bootstrap of a channel that is unconnected on entry, in which
some step fails: `sem_init`, `socketpair`, `socket` (it returns a negative
number), or, with the rendezvous socket created, `connect`, the building of
the control message, or `sendmsg`.  A successful `socketpair` yields
descriptors.  Then `init_pipe_admin_thread` returns `ERR_CFAIL`, the
channel's handle is `-1`, and the descriptors open afterwards are those
that were open before. -/
theorem init_pipe_admin_thread_fails (K : Consts) (e : BootEnv) (s : Proc)
    (pipe_number : Int) (p : pipe_data)
    (hp : s.pipes.get? pipe_number = some p) (hentry : p.fd = -1)
    (ha : 0 ≤ e.pipesockets.1) (hb : 0 ≤ e.pipesockets.2)
    (hfail : e.sem_init_ret ≠ 0 ∨ e.socketpair_ret ≠ 0 ∨ e.socket_ret < 0 ∨
      (0 < e.socket_ret ∧
        (e.connect_ret ≠ 0 ∨ e.cmsg_null = true ∨ e.sendmsg_ret = -1))) :
    (init_pipe_admin_thread K e s pipe_number).1 = K.ERR_CFAIL ∧
    (init_pipe_admin_thread K e s pipe_number).2.pipes.get? pipe_number =
      some { p with fd := -1 } ∧
    (init_pipe_admin_thread K e s pipe_number).2.open_fds = s.open_fds := by
  have hset := Pipes.get?_set_fd s.pipes pipe_number (-1) p hp
  have hpp : p = { p with fd := -1 } := by
    cases p
    simp at hentry ⊢
    exact hentry
  have na : ¬ (e.pipesockets.1 < 0) := by omega
  have nb : ¬ (e.pipesockets.2 < 0) := by omega
  unfold init_pipe_admin_thread
  by_cases h1 : e.sem_init_ret = 0
  swap
  · simp [h1, Proc.log, hp]
    exact hpp
  by_cases h2 : e.socketpair_ret = 0
  swap
  · simp [h1, h2, Proc.log, init_fail_sem, hset]
  by_cases h3 : e.socket_ret < 0
  · have h4 : ¬ (0 ≤ e.socket_ret) := by omega
    have h5 : e.socket_ret ≠ 0 := by omega
    simp [h1, h2, h3, h4, h5, Proc.log, Proc.close, init_fail_sem, init_fail_pipe,
      init_fail_bootsock, sys_connect, hset, na, nb]
  have h4 : 0 ≤ e.socket_ret := by omega
  rcases hfail with h | h | h | ⟨h6, h⟩
  · exact absurd h1 h
  · exact absurd h2 h
  · exact absurd h h3
  have h5 : e.socket_ret ≠ 0 := by omega
  by_cases h7 : e.connect_ret = 0
  swap
  · simp [h1, h2, h3, h4, h5, h7, Proc.log, Proc.close, init_fail_sem, init_fail_pipe,
      init_fail_bootsock, sys_connect, hset, na, nb]
  by_cases h8 : e.cmsg_null = true
  · simp [h1, h2, h3, h4, h5, h7, h8, Proc.log, Proc.close, init_fail_sem, init_fail_pipe,
      init_fail_bootsock, sys_connect, hset, na, nb]
  have h9 : e.sendmsg_ret = -1 := by
    rcases h with h | h | h
    · exact absurd h7 h
    · exact absurd h h8
    · exact h
  simp [h1, h2, h3, h4, h5, h7, h8, h9, Proc.log, Proc.close, init_fail_sem, init_fail_pipe,
    init_fail_bootsock, sys_connect, hset, na, nb]

/-- C16, witness: the bootstrap of the H.323 channel at start-up when no
daemon listens: socket pair `(5, 6)`, rendezvous socket 7, `connect`
refused. -/
theorem init_pipe_admin_thread_fails_witness :
    (init_pipe_admin_thread Consts.sample (BootEnv.refused 5 6 7) Proc.initial 0).1 =
      Consts.sample.ERR_CFAIL ∧
    (init_pipe_admin_thread Consts.sample (BootEnv.refused 5 6 7) Proc.initial 0).2.pipes.get? 0 =
      some { fd := -1, svc_msg := ACU_SERVICE_MSG.zero } ∧
    (init_pipe_admin_thread Consts.sample (BootEnv.refused 5 6 7) Proc.initial 0).2.open_fds =
      [0, 1, 2] :=
  init_pipe_admin_thread_fails Consts.sample (BootEnv.refused 5 6 7) Proc.initial 0
    { fd := -1, svc_msg := ACU_SERVICE_MSG.zero } (by decide) (by decide) (by decide)
    (by decide) (by decide)

/-- A second store to a handle replaces the first. -/
theorem Pipes.set_fd_set_fd (ps : Pipes) (i a b : Int) :
    (ps.set_fd i a).set_fd i b = ps.set_fd i b := by
  unfold Pipes.set_fd
  split_ifs <;> rfl

/-- The result of a bootstrap: it returns 0 exactly with answers that
succeed, and then the handle is the kept end of the socket pair; otherwise
it returns `ERR_CFAIL` and the handle is `-1`, or untouched when `sem_init`
failed.  No listener is started. -/
theorem init_pipe_admin_thread_form (K : Consts) (e : BootEnv) (t : Proc) (i : Int) :
    ∃ fds calls, init_pipe_admin_thread K e t i =
      (if e.succeeds = true then 0 else K.ERR_CFAIL,
        { pipes :=
            if e.succeeds = true then t.pipes.set_fd i e.pipesockets.1
            else if e.sem_init_ret ≠ 0 then t.pipes else t.pipes.set_fd i (-1),
          open_fds := fds, listeners := t.listeners, calls := calls }) := by
  unfold init_pipe_admin_thread
  by_cases h1 : e.sem_init_ret = 0
  swap
  · exact ⟨_, _, by simp [h1, BootEnv.succeeds, Proc.log]; exact ⟨rfl, rfl⟩⟩
  by_cases h2 : e.socketpair_ret = 0
  swap
  · exact ⟨_, _, by simp [h1, h2, BootEnv.succeeds, Proc.log, init_fail_sem]; exact ⟨rfl, rfl⟩⟩
  by_cases h3 : e.socket_ret = 0
  · exact ⟨_, _, by
      simp [h1, h2, h3, BootEnv.succeeds, Proc.log, Proc.close, init_fail_sem, init_fail_pipe]
      exact ⟨rfl, rfl⟩⟩
  by_cases h0 : 0 ≤ e.socket_ret <;>
  by_cases h4 : sys_connect e.socket_ret e.connect_ret = 0 <;>
  by_cases h5 : e.cmsg_null = true <;>
  by_cases h6 : e.sendmsg_ret = -1 <;>
  exact ⟨_, _, by
    simp [h0, h1, h2, h3, h4, h5, h6, BootEnv.succeeds, Proc.log, Proc.close, init_fail_sem,
      init_fail_pipe, init_fail_bootsock, Pipes.set_fd_set_fd]
    exact ⟨rfl, rfl⟩⟩

/-- The return value of a bootstrap. -/
theorem init_pipe_admin_thread_fst (K : Consts) (e : BootEnv) (t : Proc) (i : Int) :
    (init_pipe_admin_thread K e t i).1 = if e.succeeds = true then 0 else K.ERR_CFAIL := by
  obtain ⟨fds, calls, h⟩ := init_pipe_admin_thread_form K e t i
  rw [h]

/-- A bootstrap returns 0 exactly with answers that succeed. -/
theorem init_pipe_admin_thread_ret (K : Consts) (hK : K.wf) (e : BootEnv) (t : Proc)
    (i : Int) : (init_pipe_admin_thread K e t i).1 = 0 ↔ e.succeeds = true := by
  have hne : K.ERR_CFAIL ≠ 0 := ne_of_lt hK.cfail_neg
  rw [init_pipe_admin_thread_fst]
  by_cases hs : e.succeeds = true <;> simp [hs, hne]

/-- The channel table after a bootstrap. -/
theorem init_pipe_admin_thread_pipes (K : Consts) (e : BootEnv) (t : Proc) (i : Int) :
    (init_pipe_admin_thread K e t i).2.pipes =
      if e.succeeds = true then t.pipes.set_fd i e.pipesockets.1
      else if e.sem_init_ret ≠ 0 then t.pipes else t.pipes.set_fd i (-1) := by
  obtain ⟨fds, calls, h⟩ := init_pipe_admin_thread_form K e t i
  rw [h]

/-- A bootstrap starts no listener. -/
theorem init_pipe_admin_thread_listeners (K : Consts) (e : BootEnv) (t : Proc) (i : Int) :
    (init_pipe_admin_thread K e t i).2.listeners = t.listeners := by
  obtain ⟨fds, calls, h⟩ := init_pipe_admin_thread_form K e t i
  rw [h]

/-- The result of `create_pipe_admin_thread` when the start-up semaphore is
initialised: the return value, the channel table and the listeners, by the
bootstrap (`succeeds`) and the listener start (`pthread_create`, `sem_wait`)
of each channel. -/
theorem create_pipe_admin_thread_form (K : Consts) (hK : K.wf) (e : StartEnv) (s : Proc)
    (hsem : e.sem_init_ret = 0) :
    (create_pipe_admin_thread K e s).1 =
      (if e.h323.boot.succeeds = true ∧
            ¬ (e.h323.pthread_create_ret = 0 ∧ e.h323.sem_wait_ret = 0) then K.ERR_CFAIL
        else if e.sip.boot.succeeds = true ∧
            ¬ (e.sip.pthread_create_ret = 0 ∧ e.sip.sem_wait_ret = 0) then K.ERR_CFAIL
        else 0) ∧
    (create_pipe_admin_thread K e s).2.pipes =
      (if e.h323.boot.succeeds = true ∧
          ¬ (e.h323.pthread_create_ret = 0 ∧ e.h323.sem_wait_ret = 0) then
        s.pipes.set_fd 0 e.h323.boot.pipesockets.1
      else
        (if e.sip.boot.succeeds = true then
          fun ps : Pipes => ps.set_fd 1 e.sip.boot.pipesockets.1
         else if e.sip.boot.sem_init_ret ≠ 0 then fun ps : Pipes => ps
         else fun ps : Pipes => ps.set_fd 1 (-1))
        (if e.h323.boot.succeeds = true then s.pipes.set_fd 0 e.h323.boot.pipesockets.1
         else if e.h323.boot.sem_init_ret ≠ 0 then s.pipes
         else s.pipes.set_fd 0 (-1))) ∧
    (create_pipe_admin_thread K e s).2.listeners =
      (if (¬ (e.h323.boot.succeeds = true ∧
            ¬ (e.h323.pthread_create_ret = 0 ∧ e.h323.sem_wait_ret = 0))) ∧
          e.sip.boot.succeeds = true ∧ e.sip.pthread_create_ret = 0 then [1] else []) ++
      (if e.h323.boot.succeeds = true ∧ e.h323.pthread_create_ret = 0 then [0] else []) ++
      s.listeners := by
  have hne : K.ERR_CFAIL ≠ 0 := ne_of_lt hK.cfail_neg
  unfold create_pipe_admin_thread
  rw [pipe_indexes_eq]
  simp only [hsem, create_pipe_admin_thread_loop, StartEnv.chan,
    H323_PIPE_INDEX, SIP_PIPE_INDEX, ne_eq, not_true_eq_false, if_false, if_true,
    init_pipe_admin_thread_fst]
  by_cases b0 : e.h323.boot.succeeds = true <;>
  by_cases p0 : e.h323.pthread_create_ret = 0 <;>
  by_cases w0 : e.h323.sem_wait_ret = 0 <;>
  by_cases b1 : e.sip.boot.succeeds = true <;>
  by_cases p1 : e.sip.pthread_create_ret = 0 <;>
  by_cases w1 : e.sip.sem_wait_ret = 0 <;>
  simp [b0, p0, w0, b1, p1, w1, hne, Proc.log, init_pipe_admin_thread_pipes,
    init_pipe_admin_thread_listeners] <;>
  split_ifs <;> rfl

/-- C14: start-up from the state in which both channels are unconnected,
with the start-up semaphore initialised, when the bootstrap of channel `A`
fails and that of the other channel `B` succeeds (and leaves a descriptor as
handle).  Afterwards `B` is connected, `A` is not, and the first call of
`get_voip_protocol_index_array` reports one channel, `B`. -/
theorem create_pipe_admin_thread_one_fails (K : Consts) (hK : K.wf) (e : StartEnv)
    (s : Proc) (A B v : Int)
    (hAB : (A = H323_PIPE_INDEX ∧ B = SIP_PIPE_INDEX) ∨
      (A = SIP_PIPE_INDEX ∧ B = H323_PIPE_INDEX))
    (hsem : e.sem_init_ret = 0)
    (hs0 : s.pipes.h323.fd = -1) (hs1 : s.pipes.sip.fd = -1)
    (hA : (init_pipe_admin_thread K (e.chan A).boot s A).1 ≠ 0)
    (hB : (init_pipe_admin_thread K (e.chan B).boot s B).1 = 0)
    (hfd : 0 ≤ (e.chan B).boot.pipesockets.1) :
    ((create_pipe_admin_thread K e s).2.pipes.get? B).map (fun p => p.fd) =
      some (e.chan B).boot.pipesockets.1 ∧
    ((create_pipe_admin_thread K e s).2.pipes.get? A).map (fun p => p.fd) = some (-1) ∧
    (get_voip_protocol_index_array (create_pipe_admin_thread K e s).2.pipes
      Registry.initial (some v)).num_of_protocols = some 1 ∧
    (get_voip_protocol_index_array (create_pipe_admin_thread K e s).2.pipes
      Registry.initial (some v)).ret.map (List.take 1) = some [B] := by
  obtain ⟨-, hpipes, -⟩ := create_pipe_admin_thread_form K hK e s hsem
  rw [get_voip_protocol_index_array_initial, hpipes]
  rw [init_pipe_admin_thread_ret K hK] at hB
  rw [Ne, init_pipe_admin_thread_ret K hK] at hA
  rcases hAB with ⟨rfl, rfl⟩ | ⟨rfl, rfl⟩
  · simp only [StartEnv.chan, H323_PIPE_INDEX, SIP_PIPE_INDEX] at hA hB hfd ⊢
    simp only [show ((1 : Int) = 0) = False from by simp, if_false, if_true] at hA hB hfd ⊢
    have n1 : e.sip.boot.pipesockets.1 ≠ -1 := by omega
    by_cases s0 : e.h323.boot.sem_init_ret = 0 <;>
      simp [hA, hB, s0, Pipes.set_fd, Pipes.get?, H323_PIPE_INDEX, SIP_PIPE_INDEX, hs0, n1]
  · simp only [StartEnv.chan, H323_PIPE_INDEX, SIP_PIPE_INDEX] at hA hB hfd ⊢
    simp only [show ((1 : Int) = 0) = False from by simp, if_false, if_true] at hA hB hfd ⊢
    have n0 : e.h323.boot.pipesockets.1 ≠ -1 := by omega
    by_cases s1 : e.sip.boot.sem_init_ret = 0 <;>
    by_cases l0 : (e.h323.pthread_create_ret = 0 ∧ e.h323.sem_wait_ret = 0) <;>
      simp [hA, hB, s1, l0, Pipes.set_fd, Pipes.get?, H323_PIPE_INDEX, SIP_PIPE_INDEX, hs1, n0]

/-- C14, witness: at start-up no daemon listens for the H.323 channel and
the SIP channel gets the socket pair `(8, 9)`. -/
theorem create_pipe_admin_thread_one_fails_witness :
    ((create_pipe_admin_thread Consts.sample
        (StartEnv.sample (BootEnv.refused 5 6 7) (BootEnv.ok 8 9 10) 0)
        Proc.initial).2.pipes.get? 1).map (fun p => p.fd) = some 8 ∧
    ((create_pipe_admin_thread Consts.sample
        (StartEnv.sample (BootEnv.refused 5 6 7) (BootEnv.ok 8 9 10) 0)
        Proc.initial).2.pipes.get? 0).map (fun p => p.fd) = some (-1) ∧
    (get_voip_protocol_index_array (create_pipe_admin_thread Consts.sample
        (StartEnv.sample (BootEnv.refused 5 6 7) (BootEnv.ok 8 9 10) 0) Proc.initial).2.pipes
      Registry.initial (some 99)).num_of_protocols = some 1 ∧
    (get_voip_protocol_index_array (create_pipe_admin_thread Consts.sample
        (StartEnv.sample (BootEnv.refused 5 6 7) (BootEnv.ok 8 9 10) 0) Proc.initial).2.pipes
      Registry.initial (some 99)).ret.map (List.take 1) = some [1] :=
  create_pipe_admin_thread_one_fails Consts.sample Consts.sample_wf
    (StartEnv.sample (BootEnv.refused 5 6 7) (BootEnv.ok 8 9 10) 0) Proc.initial 0 1 99
    (by decide) (by decide) (by decide) (by decide) (by decide) (by decide) (by decide)

/-- C15, counterexample: at start-up both channels would bootstrap, but
`pthread_create` fails (11) for the H.323 channel.  Then
`create_pipe_admin_thread` returns `ERR_CFAIL`, the SIP channel, whose own
steps all succeed, is not connected, and the H.323 channel is connected
(handle 5) although no listener runs. -/
theorem create_pipe_admin_thread_thread_fails :
    (BootEnv.ok 8 9 10).succeeds = true ∧
    (create_pipe_admin_thread Consts.sample
        (StartEnv.sample (BootEnv.ok 5 6 7) (BootEnv.ok 8 9 10) 11) Proc.initial).1 =
      Consts.sample.ERR_CFAIL ∧
    (create_pipe_admin_thread Consts.sample
        (StartEnv.sample (BootEnv.ok 5 6 7) (BootEnv.ok 8 9 10) 11)
        Proc.initial).2.pipes.sip.fd = -1 ∧
    (create_pipe_admin_thread Consts.sample
        (StartEnv.sample (BootEnv.ok 5 6 7) (BootEnv.ok 8 9 10) 11)
        Proc.initial).2.pipes.h323.fd = 5 ∧
    (create_pipe_admin_thread Consts.sample
        (StartEnv.sample (BootEnv.ok 5 6 7) (BootEnv.ok 8 9 10) 11)
        Proc.initial).2.listeners = [] := by
  decide

/-- C15 (as amended): with the start-up semaphore initialised, a failure to
bring up a channel's listener (`pthread_create` or the `sem_wait` of the
handshake failing after its bootstrap succeeded) makes
`create_pipe_admin_thread` return `ERR_CFAIL`.  When it is the listener of
the H.323 channel, the SIP channel is not bootstrapped: its entry is as
before.  When it is the listener of the SIP channel, the H.323 channel
keeps what its own start gave it: if it was brought up, its handle is the
kept end of its socket pair and its listener runs. -/
theorem create_pipe_admin_thread_listener_fails (K : Consts) (hK : K.wf) (e : StartEnv)
    (s : Proc) (hsem : e.sem_init_ret = 0)
    (hfail :
      ((init_pipe_admin_thread K e.h323.boot s 0).1 = 0 ∧
        ¬ (e.h323.pthread_create_ret = 0 ∧ e.h323.sem_wait_ret = 0)) ∨
      ((init_pipe_admin_thread K e.sip.boot s 1).1 = 0 ∧
        ¬ (e.sip.pthread_create_ret = 0 ∧ e.sip.sem_wait_ret = 0))) :
    (create_pipe_admin_thread K e s).1 = K.ERR_CFAIL ∧
    (((init_pipe_admin_thread K e.h323.boot s 0).1 = 0 ∧
        ¬ (e.h323.pthread_create_ret = 0 ∧ e.h323.sem_wait_ret = 0)) →
      (create_pipe_admin_thread K e s).2.pipes.sip = s.pipes.sip ∧
      1 ∉ (create_pipe_admin_thread K e s).2.listeners.take
        ((create_pipe_admin_thread K e s).2.listeners.length - s.listeners.length)) ∧
    (((init_pipe_admin_thread K e.h323.boot s 0).1 = 0 ∧
        e.h323.pthread_create_ret = 0 ∧ e.h323.sem_wait_ret = 0) →
      (create_pipe_admin_thread K e s).2.pipes.h323.fd = e.h323.boot.pipesockets.1 ∧
      0 ∈ (create_pipe_admin_thread K e s).2.listeners) := by
  obtain ⟨hret, hpipes, hlis⟩ := create_pipe_admin_thread_form K hK e s hsem
  rw [hret, hpipes, hlis]
  simp only [init_pipe_admin_thread_ret K hK] at hfail ⊢
  by_cases b0 : e.h323.boot.succeeds = true <;>
  by_cases l0 : (e.h323.pthread_create_ret = 0 ∧ e.h323.sem_wait_ret = 0) <;>
  by_cases b1 : e.sip.boot.succeeds = true <;>
  by_cases l1 : (e.sip.pthread_create_ret = 0 ∧ e.sip.sem_wait_ret = 0) <;>
  by_cases p0 : e.h323.pthread_create_ret = 0 <;>
  simp_all [Pipes.set_fd, H323_PIPE_INDEX, SIP_PIPE_INDEX]

/-- C15, witness: both channels would bootstrap, and `pthread_create` fails
for the H.323 channel. -/
theorem create_pipe_admin_thread_listener_fails_witness :
    (create_pipe_admin_thread Consts.sample
        (StartEnv.sample (BootEnv.ok 5 6 7) (BootEnv.ok 8 9 10) 11) Proc.initial).1 =
      Consts.sample.ERR_CFAIL ∧
    (((init_pipe_admin_thread Consts.sample (BootEnv.ok 5 6 7) Proc.initial 0).1 = 0 ∧
        ¬ ((11 : Int) = 0 ∧ (0 : Int) = 0)) →
      (create_pipe_admin_thread Consts.sample
        (StartEnv.sample (BootEnv.ok 5 6 7) (BootEnv.ok 8 9 10) 11) Proc.initial).2.pipes.sip =
        Pipes.initial.sip ∧
      1 ∉ (create_pipe_admin_thread Consts.sample
        (StartEnv.sample (BootEnv.ok 5 6 7) (BootEnv.ok 8 9 10) 11)
          Proc.initial).2.listeners.take
        ((create_pipe_admin_thread Consts.sample
          (StartEnv.sample (BootEnv.ok 5 6 7) (BootEnv.ok 8 9 10) 11)
            Proc.initial).2.listeners.length - 0)) ∧
    (((init_pipe_admin_thread Consts.sample (BootEnv.ok 5 6 7) Proc.initial 0).1 = 0 ∧
        (11 : Int) = 0 ∧ (0 : Int) = 0) →
      (create_pipe_admin_thread Consts.sample
        (StartEnv.sample (BootEnv.ok 5 6 7) (BootEnv.ok 8 9 10) 11)
          Proc.initial).2.pipes.h323.fd = 5 ∧
      0 ∈ (create_pipe_admin_thread Consts.sample
        (StartEnv.sample (BootEnv.ok 5 6 7) (BootEnv.ok 8 9 10) 11)
          Proc.initial).2.listeners) :=
  create_pipe_admin_thread_listener_fails Consts.sample Consts.sample_wf
    (StartEnv.sample (BootEnv.ok 5 6 7) (BootEnv.ok 8 9 10) 11) Proc.initial (by decide)
    (by decide)

/-- C17: start-up from the state in which both channels are unconnected,
with the start-up semaphore initialised and with a listener coming up for
every channel whose bootstrap succeeds (which leaves a descriptor as
handle).  Whatever bootstraps fail, `create_pipe_admin_thread` returns 0,
and the first call of `get_voip_protocol_index_array` reports exactly the
channels whose bootstrap succeeded. -/
theorem create_pipe_admin_thread_returns_zero (K : Consts) (hK : K.wf) (e : StartEnv)
    (s : Proc) (v : Int) (hsem : e.sem_init_ret = 0)
    (hs0 : s.pipes.h323.fd = -1) (hs1 : s.pipes.sip.fd = -1)
    (h0 : (init_pipe_admin_thread K e.h323.boot s 0).1 = 0 →
      e.h323.pthread_create_ret = 0 ∧ e.h323.sem_wait_ret = 0 ∧
        0 ≤ e.h323.boot.pipesockets.1)
    (h1 : (init_pipe_admin_thread K e.sip.boot s 1).1 = 0 →
      e.sip.pthread_create_ret = 0 ∧ e.sip.sem_wait_ret = 0 ∧
        0 ≤ e.sip.boot.pipesockets.1) :
    (create_pipe_admin_thread K e s).1 = 0 ∧
    (get_voip_protocol_index_array (create_pipe_admin_thread K e s).2.pipes
      Registry.initial (some v)).num_of_protocols =
      some (((if (init_pipe_admin_thread K e.h323.boot s 0).1 = 0 then [0] else []) ++
        (if (init_pipe_admin_thread K e.sip.boot s 1).1 = 0 then [1] else [] :
          List Int)).length : Int) ∧
    (get_voip_protocol_index_array (create_pipe_admin_thread K e s).2.pipes
      Registry.initial (some v)).ret.map
        (List.take ((if (init_pipe_admin_thread K e.h323.boot s 0).1 = 0 then [0] else []) ++
          (if (init_pipe_admin_thread K e.sip.boot s 1).1 = 0 then [1] else [] :
            List Int)).length) =
      some ((if (init_pipe_admin_thread K e.h323.boot s 0).1 = 0 then [0] else []) ++
        (if (init_pipe_admin_thread K e.sip.boot s 1).1 = 0 then [1] else [])) := by
  obtain ⟨hret, hpipes, -⟩ := create_pipe_admin_thread_form K hK e s hsem
  rw [get_voip_protocol_index_array_initial, hret, hpipes]
  simp only [init_pipe_admin_thread_ret K hK] at h0 h1 ⊢
  by_cases b0 : e.h323.boot.succeeds = true <;>
  by_cases b1 : e.sip.boot.succeeds = true <;>
  by_cases s0 : e.h323.boot.sem_init_ret = 0 <;>
  by_cases s1 : e.sip.boot.sem_init_ret = 0
  all_goals
    simp only [b0, b1, true_implies, false_implies] at h0 h1
  all_goals
    first
      | (obtain ⟨p0, w0, f0⟩ := h0
         obtain ⟨p1, w1, f1⟩ := h1
         have n0 : e.h323.boot.pipesockets.1 ≠ -1 := by omega
         have n1 : e.sip.boot.pipesockets.1 ≠ -1 := by omega
         simp [b0, b1, s0, s1, p0, w0, p1, w1, n0, n1, hs0, hs1, Pipes.set_fd,
           H323_PIPE_INDEX, SIP_PIPE_INDEX])
      | (obtain ⟨p0, w0, f0⟩ := h0
         have n0 : e.h323.boot.pipesockets.1 ≠ -1 := by omega
         simp [b0, b1, s0, s1, p0, w0, n0, hs0, hs1, Pipes.set_fd,
           H323_PIPE_INDEX, SIP_PIPE_INDEX])
      | (obtain ⟨p1, w1, f1⟩ := h1
         have n1 : e.sip.boot.pipesockets.1 ≠ -1 := by omega
         simp [b0, b1, s0, s1, p1, w1, n1, hs0, hs1, Pipes.set_fd,
           H323_PIPE_INDEX, SIP_PIPE_INDEX])
      | simp [b0, b1, s0, s1, hs0, hs1, Pipes.set_fd, H323_PIPE_INDEX, SIP_PIPE_INDEX]

/-- C17, witness: at start-up no daemon listens for either channel. -/
theorem create_pipe_admin_thread_returns_zero_witness :
    (create_pipe_admin_thread Consts.sample
        (StartEnv.sample (BootEnv.refused 5 6 7) (BootEnv.refused 5 6 7) 0) Proc.initial).1 = 0 ∧
    (get_voip_protocol_index_array (create_pipe_admin_thread Consts.sample
        (StartEnv.sample (BootEnv.refused 5 6 7) (BootEnv.refused 5 6 7) 0)
          Proc.initial).2.pipes
      Registry.initial (some 99)).num_of_protocols = some 0 ∧
    (get_voip_protocol_index_array (create_pipe_admin_thread Consts.sample
        (StartEnv.sample (BootEnv.refused 5 6 7) (BootEnv.refused 5 6 7) 0)
          Proc.initial).2.pipes
      Registry.initial (some 99)).ret.map (List.take 0) = some [] :=
  create_pipe_admin_thread_returns_zero Consts.sample Consts.sample_wf
    (StartEnv.sample (BootEnv.refused 5 6 7) (BootEnv.refused 5 6 7) 0) Proc.initial 99
    (by decide) (by decide) (by decide) (by decide) (by decide)

/-! ## The claims on the listener and on smd_ev_abort -/

/-- A pass of the listener whose header read fails: the handle is closed
and set to `-1`, the thread is gone, and no other descriptor is closed. -/
theorem pipe_admin_thread_step_read_fails (K : Consts)
    (store_msg : ACU_SERVICE_MSG → List Nat → ACU_SERVICE_MSG) (sem_wait_ret : Int)
    (s : Listener) (hphase : s.phase = Phase.listening)
    (hfail : (read_safely_loop K s.pipe.fd s.chan K.sizeof_msg [] s.trace).ret ≠ 0) :
    (pipe_admin_thread_step K store_msg sem_wait_ret s).phase = Phase.terminated ∧
    (pipe_admin_thread_step K store_msg sem_wait_ret s).pipe.fd = -1 ∧
    (pipe_admin_thread_step K store_msg sem_wait_ret s).open_fds =
      s.open_fds.erase s.pipe.fd ∧
    (pipe_admin_thread_step K store_msg sem_wait_ret s).trace =
      (read_safely_loop K s.pipe.fd s.chan K.sizeof_msg [] s.trace).trace ++
        [Event.close s.pipe.fd] := by
  unfold pipe_admin_thread_step
  rw [hphase]
  simp [hfail]

/-- Once the listener is gone, nothing it could do happens any more: it
stays gone, and the handle and the open descriptors stay as they are. -/
theorem pipe_admin_thread_run_terminated (K : Consts)
    (store_msg : ACU_SERVICE_MSG → List Nat → ACU_SERVICE_MSG) (ticks : List Tick) :
    ∀ (s : Listener), s.phase = Phase.terminated →
      (pipe_admin_thread_run K store_msg ticks s).phase = Phase.terminated ∧
      (pipe_admin_thread_run K store_msg ticks s).pipe = s.pipe ∧
      (pipe_admin_thread_run K store_msg ticks s).open_fds = s.open_fds ∧
      (pipe_admin_thread_run K store_msg ticks s).trace = s.trace := by
  induction ticks with
  | nil =>
    intro s h
    simp [pipe_admin_thread_run, h]
  | cons t ticks ih =>
    intro s h
    have hstep : pipe_admin_thread_step K store_msg t.sem_wait_ret
        { s with read_complete := s.read_complete + t.posts } =
        { s with read_complete := s.read_complete + t.posts } := by
      unfold pipe_admin_thread_step
      simp [h]
    rw [pipe_admin_thread_run, hstep]
    exact ih _ h

/-- C18 (as amended): when the header read of the listener fails (end of
stream, or an error other than an interruption), the listener closes the
stream handle, sets it to `-1` and terminates, and it closes no other
descriptor: the write end `wr` of the completion pipe of a caller that is
blocked at that moment stays open through every later pass, so that caller
is not released. -/
theorem pipe_admin_thread_read_fails (K : Consts)
    (store_msg : ACU_SERVICE_MSG → List Nat → ACU_SERVICE_MSG) (s : Listener) (wr : Int)
    (t : Tick) (ticks : List Tick)
    (hphase : s.phase = Phase.listening)
    (hfail : (read_safely_loop K s.pipe.fd s.chan K.sizeof_msg [] s.trace).ret ≠ 0)
    (hwr : wr ∈ s.open_fds) (hne : wr ≠ s.pipe.fd) :
    (pipe_admin_thread_run K store_msg (t :: ticks) s).phase = Phase.terminated ∧
    (pipe_admin_thread_run K store_msg (t :: ticks) s).pipe.fd = -1 ∧
    (pipe_admin_thread_run K store_msg (t :: ticks) s).open_fds =
      s.open_fds.erase s.pipe.fd ∧
    (pipe_admin_thread_run K store_msg (t :: ticks) s).released wr = false := by
  obtain ⟨h1, h2, h3, -⟩ := pipe_admin_thread_step_read_fails K store_msg t.sem_wait_ret
    { s with read_complete := s.read_complete + t.posts } hphase hfail
  obtain ⟨r1, r2, r3, -⟩ := pipe_admin_thread_run_terminated K store_msg ticks _ h1
  rw [pipe_admin_thread_run]
  refine ⟨r1, ?_, ?_, ?_⟩
  · rw [r2, h2]
  · rw [r3, h3]
  · have hmem : wr ∈ s.open_fds.erase s.pipe.fd := (List.mem_erase_of_ne hne).mpr hwr
    simp [Listener.released, r3, h3, hmem]

/-- C18, witness: the sample listener at end of stream, with a caller
blocked on the completion pipe `(8, 9)`. -/
theorem pipe_admin_thread_read_fails_witness :
    (pipe_admin_thread_run Consts.sample ACU_SERVICE_MSG.sample_store
        [{ posts := 0, sem_wait_ret := 0 }, { posts := 1, sem_wait_ret := 0 }]
        (Listener.sample [Chunk.eof])).phase = Phase.terminated ∧
    (pipe_admin_thread_run Consts.sample ACU_SERVICE_MSG.sample_store
        [{ posts := 0, sem_wait_ret := 0 }, { posts := 1, sem_wait_ret := 0 }]
        (Listener.sample [Chunk.eof])).pipe.fd = -1 ∧
    (pipe_admin_thread_run Consts.sample ACU_SERVICE_MSG.sample_store
        [{ posts := 0, sem_wait_ret := 0 }, { posts := 1, sem_wait_ret := 0 }]
        (Listener.sample [Chunk.eof])).open_fds = [8, 9] ∧
    (pipe_admin_thread_run Consts.sample ACU_SERVICE_MSG.sample_store
        [{ posts := 0, sem_wait_ret := 0 }, { posts := 1, sem_wait_ret := 0 }]
        (Listener.sample [Chunk.eof])).released 9 = false :=
  pipe_admin_thread_read_fails Consts.sample ACU_SERVICE_MSG.sample_store
    (Listener.sample [Chunk.eof]) 9 { posts := 0, sem_wait_ret := 0 }
    [{ posts := 1, sem_wait_ret := 0 }] (by decide) (by decide) (by decide) (by decide)

/-- The sample listener at end of stream, with a caller blocked on the
completion pipe `(8, 9)`: after any passes the write end 9 is still open. -/
theorem pipe_admin_thread_sample_stuck (ticks : List Tick) :
    (pipe_admin_thread_run Consts.sample ACU_SERVICE_MSG.sample_store ticks
      (Listener.sample [Chunk.eof])).released 9 = false := by
  cases ticks with
  | nil => decide
  | cons t ticks =>
    obtain ⟨h1, -, h3, -⟩ := pipe_admin_thread_step_read_fails Consts.sample
      ACU_SERVICE_MSG.sample_store t.sem_wait_ret
      { Listener.sample [Chunk.eof] with
        read_complete := (Listener.sample [Chunk.eof]).read_complete + t.posts }
      rfl (show (read_safely_loop Consts.sample 5 [Chunk.eof] 24 [] []).ret ≠ 0 by decide)
    obtain ⟨-, -, r3, -⟩ := pipe_admin_thread_run_terminated Consts.sample
      ACU_SERVICE_MSG.sample_store ticks _ h1
    rw [pipe_admin_thread_run]
    simp only [Listener.released, r3, h3]
    decide

/-- C18, counterexample: the sample listener meets the end of the stream
while a caller is blocked on the completion pipe `(8, 9)`.  There is no
sequence of passes after which the write end 9 is closed: the blocked
caller is never released. -/
theorem pipe_admin_thread_never_releases :
    ¬ ∃ ticks : List Tick,
      (pipe_admin_thread_run Consts.sample ACU_SERVICE_MSG.sample_store ticks
        (Listener.sample [Chunk.eof])).released 9 = true := by
  rintro ⟨ticks, h⟩
  rw [pipe_admin_thread_sample_stuck ticks] at h
  exact Bool.false_ne_true h

/-- C20: with `ERR_SM_DEVERR` negative and the two device handle constants
distinct, `smd_ev_abort` returns a negative value when the control device
cannot be opened, when `ioctl` fails, or when the driver leaves a negative
error in the message block; it returns 0 when the driver leaves 0 there
(nothing aborted); and it returns the positive count the driver leaves
there otherwise. -/
theorem smd_ev_abort_result (C : SmConsts) (e : SmEnv) (s : SmState)
    (evKind evScope channelIx : Int)
    (hneg : C.ERR_SM_DEVERR < 0) (hdev : C.kSMUNIXControlDev ≠ C.kSMNullDevHandle) :
    ((¬ (s.smopened ≠ 0 ∨ 0 ≤ e.open_ret) ∨ e.ioctl_rc < 0 ∨ e.ioctl_error < 0) →
      (smd_ev_abort C e s evKind evScope channelIx).result < 0) ∧
    ((s.smopened ≠ 0 ∨ 0 ≤ e.open_ret) → 0 ≤ e.ioctl_rc → e.ioctl_error = 0 →
      (smd_ev_abort C e s evKind evScope channelIx).result = 0) ∧
    ((s.smopened ≠ 0 ∨ 0 ≤ e.open_ret) → 0 ≤ e.ioctl_rc → 0 < e.ioctl_error →
      (smd_ev_abort C e s evKind evScope channelIx).result = e.ioctl_error) := by
  by_cases ho : s.smopened = 0 <;>
  by_cases hopen : e.open_ret < 0 <;>
  by_cases hrc : e.ioctl_rc < 0 <;>
  by_cases herr : e.ioctl_error = 0 <;>
  simp [smd_ev_abort, smd_open_ctl_dev, ho, hopen, hrc, herr, hdev, hneg]

/-- C20, witness: the control device opens, `ioctl` succeeds and the driver
reports two aborted event waits. -/
theorem smd_ev_abort_result_witness :
    ((¬ ((0 : Int) ≠ 0 ∨ (0 : Int) ≤ 3) ∨ (0 : Int) < 0 ∨ (2 : Int) < 0) →
      (smd_ev_abort SmConsts.sample { open_ret := 3, ioctl_rc := 0, ioctl_error := 2 }
        { smopened := 0, smdControlDevHandle := -1 } 4 1 6).result < 0) ∧
    (((0 : Int) ≠ 0 ∨ (0 : Int) ≤ 3) → (0 : Int) ≤ 0 → (2 : Int) = 0 →
      (smd_ev_abort SmConsts.sample { open_ret := 3, ioctl_rc := 0, ioctl_error := 2 }
        { smopened := 0, smdControlDevHandle := -1 } 4 1 6).result = 0) ∧
    (((0 : Int) ≠ 0 ∨ (0 : Int) ≤ 3) → (0 : Int) ≤ 0 → (0 : Int) < 2 →
      (smd_ev_abort SmConsts.sample { open_ret := 3, ioctl_rc := 0, ioctl_error := 2 }
        { smopened := 0, smdControlDevHandle := -1 } 4 1 6).result = 2) :=
  smd_ev_abort_result SmConsts.sample { open_ret := 3, ioctl_rc := 0, ioctl_error := 2 }
    { smopened := 0, smdControlDevHandle := -1 } 4 1 6 (by decide) (by decide)

/-! ## Lemmas on the trace of the reply stage -/

/-- The loop of `read_safely` adds only calls of `read` to the trace: the
count of any other kind of event stays what it was. -/
theorem read_safely_loop_count (K : Consts) (fd : Int) (f : Event → Bool)
    (hread : ∀ d n, f (Event.read d n) = false) :
    ∀ (chan : List Chunk) (size : Nat) (got : List Nat) (tr : List Event),
      (read_safely_loop K fd chan size got tr).trace.countP f = tr.countP f := by
  intro chan
  induction chan with
  | nil =>
    intro size got tr
    simp only [read_safely_loop]
    split_ifs <;> simp [List.countP_append, hread]
  | cons c rest ih =>
    intro size got tr
    rw [read_safely_loop]
    simp only []
    split_ifs <;> first
      | (rw [ih]; simp [List.countP_append, hread])
      | simp [List.countP_append, hread]

/-- The function `read_safely` adds only calls of `read` to the trace. -/
theorem read_safely_count (K : Consts) (w : World) (fd : Int) (size : Nat)
    (f : Event → Bool) (hread : ∀ d n, f (Event.read d n) = false) :
    (read_safely K w fd size).trace.countP f = w.trace.countP f :=
  read_safely_loop_count K fd f hread w.chan size [] w.trace

/-- The trace the loop of `read_safely` is started with stays in front, and
nothing else of the result depends on it. -/
theorem read_safely_loop_frame (K : Consts) (fd : Int) :
    ∀ (chan : List Chunk) (size : Nat) (got : List Nat) (tr : List Event),
      read_safely_loop K fd chan size got tr =
        { read_safely_loop K fd chan size got [] with
          trace := tr ++ (read_safely_loop K fd chan size got []).trace } := by
  intro chan
  induction chan with
  | nil =>
    intro size got tr
    simp only [read_safely_loop]
    split_ifs <;> simp
  | cons c rest ih =>
    intro size got tr
    rw [read_safely_loop, read_safely_loop]
    simp only []
    split_ifs <;> first
      | (rw [ih _ _ (tr ++ [Event.read fd size]), ih _ _ ([] ++ [Event.read fd size])]; simp)
      | simp

/-- The trace `read_safely` is started in stays in front, and nothing else of
the result depends on it. -/
theorem read_safely_frame (K : Consts) (w : World) (fd : Int) (size : Nat) :
    read_safely K w fd size =
      { read_safely K w.fresh fd size with
        trace := w.trace ++ (read_safely K w.fresh fd size).trace } :=
  read_safely_loop_frame K fd w.chan size [] w.trace

/-- The prefixes stage adds only calls of `read`, `malloc` and `free` to the
trace, and one `sem_post` on the channel. -/
theorem srvioctl_prefixes_count (K : Consts) (w : World) (pioctlu : IOCTLU)
    (voip_protocol fd : Int) (msg : ACU_SERVICE_MSG) (f : Event → Bool)
    (hread : ∀ d n, f (Event.read d n) = false)
    (hmalloc : ∀ n q, f (Event.malloc n q) = false)
    (hfree : ∀ q, f (Event.free q) = false) :
    (srvioctl_prefixes K w pioctlu voip_protocol fd msg).world.trace.countP f =
      w.trace.countP f + (if f (Event.sem_post voip_protocol) = true then 1 else 0) := by
  unfold srvioctl_prefixes
  simp only []
  split_ifs <;>
    simp_all [srvioctl_fail, srvioctl_done, World.log, World.after, World.poke,
      List.countP_append, read_safely_count, malloc]

/-- The trace the prefixes stage is started in stays in front, and nothing
else of the result depends on it. -/
theorem srvioctl_prefixes_frame (K : Consts) (w : World) (pioctlu : IOCTLU)
    (voip_protocol fd : Int) (msg : ACU_SERVICE_MSG) :
    srvioctl_prefixes K w pioctlu voip_protocol fd msg =
      (srvioctl_prefixes K w.fresh pioctlu voip_protocol fd msg).after_trace w.trace := by
  have h1 := fun e => read_safely_loop_frame K fd w.chan
    (to_size_t (pioctlu.in_admin.prefix_count * K.sizeof_alias_address)) [] (w.trace ++ [e])
  have h2 := fun e => read_safely_loop_frame K fd w.chan
    (to_size_t (pioctlu.in_admin.prefix_count * K.sizeof_alias_address)) [] ([] ++ [e])
  simp only [srvioctl_prefixes, read_safely, malloc, World.fresh]
  rw [h1, h2]
  split_ifs <;>
    simp [Result.after_trace, srvioctl_fail, srvioctl_done, World.log, World.after,
      World.poke]

/-- The aliases stage adds only calls of `read`, `malloc` and `free` to the
trace, and one `sem_post` on the channel. -/
theorem srvioctl_aliases_count (K : Consts) (w : World) (pioctlu : IOCTLU)
    (voip_protocol fd : Int) (msg : ACU_SERVICE_MSG) (f : Event → Bool)
    (hread : ∀ d n, f (Event.read d n) = false)
    (hmalloc : ∀ n q, f (Event.malloc n q) = false)
    (hfree : ∀ q, f (Event.free q) = false) :
    (srvioctl_aliases K w pioctlu voip_protocol fd msg).world.trace.countP f =
      w.trace.countP f + (if f (Event.sem_post voip_protocol) = true then 1 else 0) := by
  unfold srvioctl_aliases
  simp only []
  split_ifs <;>
    simp_all [srvioctl_fail, World.log, World.after, World.poke,
      List.countP_append, read_safely_count, malloc, srvioctl_prefixes_count]

/-- The trace the aliases stage is started in stays in front, and nothing
else of the result depends on it. -/
theorem srvioctl_aliases_frame (K : Consts) (w : World) (pioctlu : IOCTLU)
    (voip_protocol fd : Int) (msg : ACU_SERVICE_MSG) :
    srvioctl_aliases K w pioctlu voip_protocol fd msg =
      (srvioctl_aliases K w.fresh pioctlu voip_protocol fd msg).after_trace w.trace := by
  have h1 := fun e => read_safely_loop_frame K fd w.chan
    (to_size_t (pioctlu.in_admin.endpoint_alias_count * K.sizeof_alias_address)) []
    (w.trace ++ [e])
  have h2 := fun e => read_safely_loop_frame K fd w.chan
    (to_size_t (pioctlu.in_admin.endpoint_alias_count * K.sizeof_alias_address)) []
    ([] ++ [e])
  simp only [srvioctl_aliases, read_safely, malloc, World.fresh]
  rw [h1, h2]
  split_ifs
  · simp [Result.after_trace, srvioctl_fail, World.log]
  · simp [Result.after_trace, srvioctl_fail, World.log, World.after, World.poke]
  · refine (srvioctl_prefixes_frame K _ _ voip_protocol fd msg).trans ?_
    refine Eq.trans ?_
      (congrArg (Result.after_trace w.trace)
        (srvioctl_prefixes_frame K _ _ voip_protocol fd msg).symm)
    simp [Result.after_trace, World.after, World.poke, World.fresh]
  · exact srvioctl_prefixes_frame K w pioctlu voip_protocol fd msg

/-- The reply stage adds only calls of `read`, `malloc` and `free` to the
trace, and one `sem_post` on the channel. -/
theorem srvioctl_reply_count (K : Consts) (w : World) (pioctlu : IOCTLU)
    (len voip_protocol fd : Int) (msg : ACU_SERVICE_MSG) (f : Event → Bool)
    (hread : ∀ d n, f (Event.read d n) = false)
    (hmalloc : ∀ n q, f (Event.malloc n q) = false)
    (hfree : ∀ q, f (Event.free q) = false) :
    (srvioctl_reply K w pioctlu len voip_protocol fd msg).world.trace.countP f =
      w.trace.countP f + (if f (Event.sem_post voip_protocol) = true then 1 else 0) := by
  unfold srvioctl_reply
  simp only []
  split_ifs <;>
    simp_all [srvioctl_fail, srvioctl_done, World.log, World.after,
      List.countP_append, read_safely_count, srvioctl_aliases_count]

/-- The trace the reply stage is started in stays in front, and nothing else
of the result depends on it. -/
theorem srvioctl_reply_frame (K : Consts) (w : World) (pioctlu : IOCTLU)
    (len voip_protocol fd : Int) (msg : ACU_SERVICE_MSG) :
    srvioctl_reply K w pioctlu len voip_protocol fd msg =
      (srvioctl_reply K w.fresh pioctlu len voip_protocol fd msg).after_trace w.trace := by
  have h1 := fun n => read_safely_loop_frame K fd w.chan n [] w.trace
  simp only [srvioctl_reply, read_safely, World.fresh]
  rw [h1, h1]
  split_ifs
  · simp [Result.after_trace, srvioctl_fail, World.log, World.after]
  · simp [Result.after_trace, srvioctl_done, World.log, World.after]
  · simp [Result.after_trace, srvioctl_done, World.log]
  · simp [Result.after_trace, srvioctl_fail, World.log, World.after]
  · refine (srvioctl_aliases_frame K _ _ voip_protocol fd msg).trans ?_
    refine Eq.trans ?_
      (congrArg (Result.after_trace w.trace)
        (srvioctl_aliases_frame K _ _ voip_protocol fd msg).symm)
    simp [Result.after_trace, World.after, World.fresh]
  · simp [Result.after_trace, srvioctl_done, World.log]

/-- Once the write lock is taken, the trace of `srvioctl` is: the `pipe`
(when the opcode has a completion pipe), the lock, the one `writev` of the
composed header and buffer list, the unlock, and then only calls of `read`,
`close`, `malloc`, `free` and `sem_post`. -/
theorem srvioctl_locked_trace (K : Consts) (env : Env) (w : World) (function : Int)
    (pioctlu : IOCTLU) (len board_card_number voip_protocol : Int) (p : pipe_data)
    (hp : w.pipes.get? voip_protocol = some p) (hfd : 0 ≤ p.fd)
    (hpipe : function ≠ K.CALL_SEND_RAS_MSG → env.pipe_ret = 0)
    (hlock : env.lock_ret = 0) :
    ∃ post : List Event,
      (srvioctl K env w function pioctlu len board_card_number voip_protocol).world.trace =
        w.trace ++
          (if function ≠ K.CALL_SEND_RAS_MSG then [Event.pipe 0 env.pipe_fds] else []) ++
          [Event.mutex_lock voip_protocol 0,
           Event.writev p.fd
             { header_of K function board_card_number with
               pendingMsgEvent :=
                 if function ≠ K.CALL_SEND_RAS_MSG then env.pipe_fds.2 else 0 }
             (compose K function (message_type_of K function)
               { pioctlu with block := K.init_api_reg pioctlu.block len } len).iov
             env.writev_ret,
           Event.mutex_unlock voip_protocol] ++ post ∧
      ∀ f : Event → Bool,
        (∀ d n, f (Event.read d n) = false) → (∀ n q, f (Event.malloc n q) = false) →
        (∀ q, f (Event.free q) = false) → (∀ d, f (Event.close d) = false) →
        (∀ i, f (Event.sem_post i) = false) → post.countP f = 0 := by
  have hr := Pipes.get?_some_range w.pipes voip_protocol p hp
  have hfd2 : ¬ (p.fd < 0) := by omega
  by_cases hw : env.writev_ret =
      (compose K function (message_type_of K function)
        { pioctlu with block := K.init_api_reg pioctlu.block len } len).iov_size
  swap
  · by_cases hf : function = K.CALL_SEND_RAS_MSG
    · subst hf
      refine ⟨[], ?_, ?_⟩
      · simp [srvioctl, srvioctl_write, header_of, hp, hfd2, hr, hlock, hw, World.log,
          ACU_SERVICE_MSG.zero]
      · intros
        rfl
    · have hpr := hpipe hf
      refine ⟨[Event.close env.pipe_fds.1, Event.close env.pipe_fds.2], ?_, ?_⟩
      · simp [srvioctl, srvioctl_write, header_of, hp, hfd2, hr, hlock, hw, World.log,
          ACU_SERVICE_MSG.zero, hf, hpr]
      · intro f _ _ _ hclose _
        simp [hclose]
  by_cases hf : function = K.CALL_SEND_RAS_MSG
  · subst hf
    refine ⟨[], ?_, ?_⟩
    · simp [srvioctl, srvioctl_write, header_of, hp, hfd2, hr, hlock, ← hw, World.log,
        ACU_SERVICE_MSG.zero]
    · intros
      rfl
  have hpr := hpipe hf
  by_cases hwait : env.wait_ret = 0
  swap
  · refine ⟨[Event.read env.pipe_fds.1 4, Event.close env.pipe_fds.1,
      Event.close env.pipe_fds.2], ?_, ?_⟩
    · simp [srvioctl, srvioctl_write, header_of, hp, hfd2, hr, hlock, ← hw, World.log,
        ACU_SERVICE_MSG.zero, hf, hpr, hwait]
    · intro f hread _ _ hclose _
      simp [hclose, hread]
  rw [srvioctl_reaches_reply K env w function pioctlu len board_card_number voip_protocol p hp
    hfd hf hpr hlock hw hwait, srvioctl_reply_frame]
  refine ⟨[Event.read env.pipe_fds.1 4, Event.close env.pipe_fds.1] ++
    (srvioctl_reply K
      (World.fresh
        { w with
          trace := w.trace ++
            [Event.pipe 0 env.pipe_fds,
             Event.mutex_lock voip_protocol 0,
             Event.writev p.fd
               { header_of K function board_card_number with
                 pendingMsgEvent := env.pipe_fds.2 }
               (compose K function (message_type_of K function)
                 { pioctlu with block := K.init_api_reg pioctlu.block len } len).iov
               env.writev_ret,
             Event.mutex_unlock voip_protocol,
             Event.read env.pipe_fds.1 4,
             Event.close env.pipe_fds.1] })
      { pioctlu with block := K.init_api_reg pioctlu.block len } len voip_protocol p.fd
      p.svc_msg).world.trace, ?_, ?_⟩
  · simp [Result.after_trace, hf]
  · intro f hread hmalloc hfree hclose hpost
    rw [List.countP_append, srvioctl_reply_count K _ _ len voip_protocol p.fd p.svc_msg f hread
      hmalloc hfree]
    simp [hclose, hread, hpost, World.fresh]

/-! ## The claims on what is written, the wait, the semaphore and the lock -/

/-- C21, counterexample: a generic request of the sample caller with
`len = -1` hands `writev` the header and a second entry of `2 ^ 64 - 1`
bytes, while the expected total length is 23, not the sum of the entry
lengths; and the one-way send of a record whose alias count is `-1`, which is
not zero, hands over the header and the record without an alias array. -/
theorem srvioctl_hands_over_negative :
    (compose Consts.sample 7 (message_type_of Consts.sample 7) IOCTLU.sample (-1)).iov =
      [{ iov_base := Base.msg, iov_len := 24 },
       { iov_base := Base.pioctlu, iov_len := 18446744073709551615 }] ∧
    (compose Consts.sample 7 (message_type_of Consts.sample 7) IOCTLU.sample (-1)).iov_size =
      23 ∧
    (srvioctl Consts.sample (Env.sample 23) (World.sample ACU_SERVICE_MSG.zero [] []) 7
        IOCTLU.sample (-1) 3 H323_PIPE_INDEX).world.trace.take 4 =
      [Event.pipe 0 (8, 9),
       Event.mutex_lock 0 0,
       Event.writev 5
         { voip_card := 3, function := 7, message_type := 1,
           pendingMsgEvent := 9, valid := 0, command_error := 0 }
         [{ iov_base := Base.msg, iov_len := 24 },
          { iov_base := Base.pioctlu, iov_len := 18446744073709551615 }]
         23,
       Event.mutex_unlock 0] ∧
    (compose Consts.sample Consts.sample.CALL_SEND_RAS_MSG
        (message_type_of Consts.sample Consts.sample.CALL_SEND_RAS_MSG)
        { IOCTLU.sample with out_admin := { voip_admin_msg.empty with endpoint_alias_count := -1 } }
        4).iov =
      [{ iov_base := Base.msg, iov_len := 24 }, { iov_base := Base.admin_msg, iov_len := 4 }] := by
  decide

/-- C21 (as amended): once the write lock is taken, `srvioctl` hands the
transport, in one `writev`, a header whose target id is `board_card_number`,
whose operation code is `function` and whose kind is the administrative tag
exactly when `function` is `CALL_GET_RAS_MSG` or `CALL_SEND_RAS_MSG`, and the
generic tag otherwise.  The buffer list is the header, then: nothing more for
`CALL_GET_RAS_MSG`; for `CALL_SEND_RAS_MSG` the fixed administrative record,
the alias array exactly when its count is positive and the prefix array
exactly when its count is positive, each of element size times count bytes;
for every other opcode the caller's block with the length `(size_t) len`,
which is `len` bytes when `len` is not negative.  The list has at most 4
entries, and the expected total length is the sum of the entry lengths
converted to `int`. -/
theorem srvioctl_hands_over (K : Consts) (hK : K.wf) (env : Env) (w : World)
    (function : Int) (pioctlu : IOCTLU) (len board_card_number voip_protocol : Int)
    (p : pipe_data)
    (hp : w.pipes.get? voip_protocol = some p) (hfd : 0 ≤ p.fd)
    (hpipe : function ≠ K.CALL_SEND_RAS_MSG → env.pipe_ret = 0)
    (hlock : env.lock_ret = 0) :
    Event.writev p.fd
        { header_of K function board_card_number with
          pendingMsgEvent := if function ≠ K.CALL_SEND_RAS_MSG then env.pipe_fds.2 else 0 }
        (compose K function (message_type_of K function)
          { pioctlu with block := K.init_api_reg pioctlu.block len } len).iov
        env.writev_ret ∈
      (srvioctl K env w function pioctlu len board_card_number voip_protocol).world.trace ∧
    (header_of K function board_card_number).voip_card = board_card_number ∧
    (header_of K function board_card_number).function = function ∧
    (header_of K function board_card_number).message_type =
      (if function = K.CALL_GET_RAS_MSG ∨ function = K.CALL_SEND_RAS_MSG then
        K.ADMIN_CHAN_RAS_MSG
       else K.TLS_MSG_GENERIC_TLS) ∧
    (compose K function (message_type_of K function)
        { pioctlu with block := K.init_api_reg pioctlu.block len } len).iov =
      { iov_base := Base.msg, iov_len := K.sizeof_msg } ::
        (if function = K.CALL_GET_RAS_MSG then []
         else if function = K.CALL_SEND_RAS_MSG then
          [{ iov_base := Base.admin_msg, iov_len := K.sizeof_admin_msg }] ++
          (if pioctlu.out_admin.endpoint_alias_count > 0 then
            [{ iov_base := Base.endpoint_alias pioctlu.out_admin.endpoint_alias,
               iov_len :=
                 to_size_t (K.sizeof_alias_address * pioctlu.out_admin.endpoint_alias_count) }]
           else []) ++
          (if pioctlu.out_admin.prefix_count > 0 then
            [{ iov_base := Base.prefixes pioctlu.out_admin.prefixes,
               iov_len :=
                 to_size_t (K.sizeof_alias_address * pioctlu.out_admin.prefix_count) }]
           else [])
         else [{ iov_base := Base.pioctlu, iov_len := to_size_t len }]) ∧
    (0 ≤ len → len < 2 ^ 64 → to_size_t len = len.toNat) ∧
    (compose K function (message_type_of K function)
        { pioctlu with block := K.init_api_reg pioctlu.block len } len).iov.length ≤ 4 ∧
    (compose K function (message_type_of K function)
        { pioctlu with block := K.init_api_reg pioctlu.block len } len).iov_size =
      to_int
        ((((compose K function (message_type_of K function)
          { pioctlu with block := K.init_api_reg pioctlu.block len } len).iov.map
            (fun v => v.iov_len)).sum : Nat) : Int) := by
  have h1 : K.CALL_SEND_RAS_MSG ≠ K.CALL_GET_RAS_MSG := fun h => hK.opcodes h.symm
  have h2 : K.ADMIN_CHAN_RAS_MSG ≠ K.TLS_MSG_GENERIC_TLS := fun h => hK.tags h.symm
  have h3 : to_int (0 + (K.sizeof_msg : Int)) = K.sizeof_msg := by
    rw [Int.zero_add]
    exact to_int_of_small K.sizeof_msg hK.msg_small
  refine ⟨?_, rfl, rfl, rfl, ?_, to_size_t_of_nonneg len, ?_, ?_⟩
  · obtain ⟨post, h, _⟩ := srvioctl_locked_trace K env w function pioctlu len
      board_card_number voip_protocol p hp hfd hpipe hlock
    rw [h]
    simp
  · by_cases hg : function = K.CALL_GET_RAS_MSG
    · subst hg
      simp [compose, message_type_of, h2]
    · by_cases hs : function = K.CALL_SEND_RAS_MSG
      · subst hs
        simp only [compose, message_type_of, h1, h2, or_true, if_true, if_false]
        split_ifs <;> simp
      · simp [compose, message_type_of, hg, hs]
  · by_cases hg : function = K.CALL_GET_RAS_MSG
    · subst hg
      simp [compose, message_type_of, h2]
    · by_cases hs : function = K.CALL_SEND_RAS_MSG
      · subst hs
        simp only [compose, message_type_of, h1, h2, or_true, if_true, if_false]
        split_ifs <;> simp
      · simp [compose, message_type_of, hg, hs]
  · by_cases hg : function = K.CALL_GET_RAS_MSG
    · subst hg
      simp [compose, message_type_of, h2]
    · by_cases hs : function = K.CALL_SEND_RAS_MSG
      · subst hs
        simp only [compose, message_type_of, h1, h2, or_true, if_true, if_false]
        split_ifs <;> simp only [to_int_to_int_add, List.map_append, List.map_cons,
          List.map_nil, List.sum_append, List.sum_cons, List.sum_nil, List.append_nil,
          List.cons_append, List.nil_append, Nat.cast_add, Nat.cast_zero] <;>
          refine congrArg to_int ?_ <;> ring
      · have e : ((to_size_t len : Nat) : Int) = len % 2 ^ 64 := by
          unfold to_size_t
          exact Int.toNat_of_nonneg (Int.emod_nonneg _ (by norm_num))
        simp only [compose, message_type_of, hg, hs, or_self, if_true, if_false,
          to_int_to_int_add, List.map_append, List.map_cons, List.map_nil, List.sum_append,
          List.sum_cons, List.sum_nil, List.append_nil, List.cons_append, List.nil_append,
          Nat.cast_add, Nat.cast_zero, e]
        unfold to_int
        omega

/-- C21, witness: the one-way send of the sample caller on the sample
world. -/
theorem srvioctl_hands_over_witness :
    Event.writev 5
        { voip_card := 3, function := 101, message_type := 2,
          pendingMsgEvent := 0, valid := 0, command_error := 0 }
        [{ iov_base := Base.msg, iov_len := 24 }, { iov_base := Base.admin_msg, iov_len := 4 }]
        28 ∈
      (srvioctl Consts.sample (Env.sample 28) (World.sample ACU_SERVICE_MSG.zero [] [])
        101 IOCTLU.sample 4 3 H323_PIPE_INDEX).world.trace :=
  (srvioctl_hands_over Consts.sample Consts.sample_wf (Env.sample 28)
    (World.sample ACU_SERVICE_MSG.zero [] []) 101 IOCTLU.sample 4 3 H323_PIPE_INDEX
    { fd := 5, svc_msg := ACU_SERVICE_MSG.zero } (by decide) (by decide) (by decide)
    (by decide)).1

/-- C22: after the `writev` of a request with a completion pipe returned the
expected length, `srvioctl` unlocks, makes one `read` of 4 bytes on the local
end of the pipe and closes that end.  When the read returned 0 it goes on to
the reply stage with the header deposited on the channel; for every other
result it closes the other end and returns `ERR_CFAIL`, with nothing taken
off the channel's stream, no allocation and no `sem_post`. -/
theorem srvioctl_wait (K : Consts) (env : Env) (w : World) (function : Int)
    (pioctlu : IOCTLU) (len board_card_number voip_protocol : Int) (p : pipe_data)
    (hp : w.pipes.get? voip_protocol = some p) (hfd : 0 ≤ p.fd)
    (hf : function ≠ K.CALL_SEND_RAS_MSG) (hpipe : env.pipe_ret = 0)
    (hlock : env.lock_ret = 0)
    (hw : env.writev_ret =
      (compose K function (message_type_of K function)
        { pioctlu with block := K.init_api_reg pioctlu.block len } len).iov_size) :
    srvioctl K env w function pioctlu len board_card_number voip_protocol =
      if env.wait_ret = 0 then
        srvioctl_reply K
          { w with
            trace := w.trace ++
              [Event.pipe 0 env.pipe_fds,
               Event.mutex_lock voip_protocol 0,
               Event.writev p.fd
                 { header_of K function board_card_number with
                   pendingMsgEvent := env.pipe_fds.2 }
                 (compose K function (message_type_of K function)
                   { pioctlu with block := K.init_api_reg pioctlu.block len } len).iov
                 env.writev_ret,
               Event.mutex_unlock voip_protocol,
               Event.read env.pipe_fds.1 4,
               Event.close env.pipe_fds.1] }
          { pioctlu with block := K.init_api_reg pioctlu.block len } len voip_protocol p.fd
          p.svc_msg
      else
        { outcome := Outcome.ret K.ERR_CFAIL,
          pioctlu := { pioctlu with block := K.init_api_reg pioctlu.block len },
          world :=
            { w with
              trace := w.trace ++
                [Event.pipe 0 env.pipe_fds,
                 Event.mutex_lock voip_protocol 0,
                 Event.writev p.fd
                   { header_of K function board_card_number with
                     pendingMsgEvent := env.pipe_fds.2 }
                   (compose K function (message_type_of K function)
                     { pioctlu with block := K.init_api_reg pioctlu.block len } len).iov
                   env.writev_ret,
                 Event.mutex_unlock voip_protocol,
                 Event.read env.pipe_fds.1 4,
                 Event.close env.pipe_fds.1,
                 Event.close env.pipe_fds.2] } } := by
  have hr := Pipes.get?_some_range w.pipes voip_protocol p hp
  have hfd2 : ¬ (p.fd < 0) := by omega
  by_cases hwait : env.wait_ret = 0
  · simp [srvioctl, srvioctl_write, header_of, hp, hfd2, hr, hlock, ← hw, World.log,
      ACU_SERVICE_MSG.zero, hf, hpipe, hwait]
  · simp [srvioctl, srvioctl_write, header_of, hp, hfd2, hr, hlock, ← hw, World.log,
      ACU_SERVICE_MSG.zero, hf, hpipe, hwait]

/-- C22, witness: a generic request of 4 bytes on the sample world whose wait
is interrupted (the `read` on the pipe returns -1), although the reply and
its 4 bytes are there. -/
theorem srvioctl_wait_witness :
    srvioctl Consts.sample { Env.sample 28 with wait_ret := -1 }
        (World.sample (ACU_SERVICE_MSG.reply 1 0 0) [Chunk.data [6, 7, 8, 9]] []) 7
        IOCTLU.sample 4 3 H323_PIPE_INDEX =
      { outcome := Outcome.ret Consts.sample.ERR_CFAIL,
        pioctlu := IOCTLU.sample,
        world :=
          { World.sample (ACU_SERVICE_MSG.reply 1 0 0) [Chunk.data [6, 7, 8, 9]] [] with
            trace :=
              [Event.pipe 0 (8, 9),
               Event.mutex_lock 0 0,
               Event.writev 5
                 { voip_card := 3, function := 7, message_type := 1,
                   pendingMsgEvent := 9, valid := 0, command_error := 0 }
                 [{ iov_base := Base.msg, iov_len := 24 },
                  { iov_base := Base.pioctlu, iov_len := 4 }]
                 28,
               Event.mutex_unlock 0,
               Event.read 8 4,
               Event.close 8,
               Event.close 9] } } :=
  srvioctl_wait Consts.sample { Env.sample 28 with wait_ret := -1 }
    (World.sample (ACU_SERVICE_MSG.reply 1 0 0) [Chunk.data [6, 7, 8, 9]] [])
    7 IOCTLU.sample 4 3 H323_PIPE_INDEX { fd := 5, svc_msg := ACU_SERVICE_MSG.reply 1 0 0 }
    (by decide) (by decide) (by decide) (by decide) (by decide) (by decide)

/-- C23: when the completion signal was received (the channel is connected,
the request has a completion pipe, and the pipe, the lock, the write and the
wait all went well, the wait read returning 0), the trace of `srvioctl` has
exactly one `sem_post` more than before, and it is that of the channel's
semaphore, whatever the reply stage then reads and whether it fails or not.
On every other path it has no `sem_post` more than before. -/
theorem srvioctl_sem_post (K : Consts) (env : Env) (w : World) (function : Int)
    (pioctlu : IOCTLU) (len board_card_number voip_protocol : Int) :
    ((∃ p : pipe_data, w.pipes.get? voip_protocol = some p ∧ 0 ≤ p.fd ∧
        function ≠ K.CALL_SEND_RAS_MSG ∧ env.pipe_ret = 0 ∧ env.lock_ret = 0 ∧
        env.writev_ret =
          (compose K function (message_type_of K function)
            { pioctlu with block := K.init_api_reg pioctlu.block len } len).iov_size ∧
        env.wait_ret = 0) →
      (srvioctl K env w function pioctlu len board_card_number
          voip_protocol).world.trace.countP Event.is_sem_post =
        w.trace.countP Event.is_sem_post + 1 ∧
      (srvioctl K env w function pioctlu len board_card_number
          voip_protocol).world.trace.count (Event.sem_post voip_protocol) =
        w.trace.count (Event.sem_post voip_protocol) + 1) ∧
    ((¬ ∃ p : pipe_data, w.pipes.get? voip_protocol = some p ∧ 0 ≤ p.fd ∧
        function ≠ K.CALL_SEND_RAS_MSG ∧ env.pipe_ret = 0 ∧ env.lock_ret = 0 ∧
        env.writev_ret =
          (compose K function (message_type_of K function)
            { pioctlu with block := K.init_api_reg pioctlu.block len } len).iov_size ∧
        env.wait_ret = 0) →
      (srvioctl K env w function pioctlu len board_card_number
          voip_protocol).world.trace.countP Event.is_sem_post =
        w.trace.countP Event.is_sem_post) := by
  constructor
  · rintro ⟨p, hp, hfd, hf, hpipe, hlock, hw, hwait⟩
    rw [srvioctl_reaches_reply K env w function pioctlu len board_card_number voip_protocol p hp
      hfd hf hpipe hlock hw hwait]
    constructor
    · rw [srvioctl_reply_count K _ _ len voip_protocol p.fd p.svc_msg Event.is_sem_post
        (fun _ _ => rfl) (fun _ _ => rfl) (fun _ => rfl)]
      simp [List.countP_append, Event.is_sem_post]
    · unfold List.count
      rw [srvioctl_reply_count K _ _ len voip_protocol p.fd p.svc_msg
        (fun e => e == Event.sem_post voip_protocol)
        (fun _ _ => by simp) (fun _ _ => by simp) (fun _ => by simp)]
      simp [List.countP_append]
  · intro hnot
    by_cases hr : voip_protocol < 0 ∨ voip_protocol > MAXNUMPIPES
    · simp [srvioctl, hr]
    cases hp : w.pipes.get? voip_protocol with
    | none => simp [srvioctl, hr, hp]
    | some p =>
      by_cases hfd : p.fd < 0
      · simp [srvioctl, hr, hp, hfd]
      by_cases hlock : env.lock_ret = 0
      swap
      · by_cases hf : function = K.CALL_SEND_RAS_MSG
        · simp [srvioctl, srvioctl_write, hr, hp, hfd, hf, hlock, World.log,
            List.countP_append, Event.is_sem_post]
        · by_cases hpipe : env.pipe_ret = 0
          · simp [srvioctl, srvioctl_write, hr, hp, hfd, hf, hlock, hpipe, World.log,
              List.countP_append, Event.is_sem_post]
          · simp [srvioctl, srvioctl_write, hr, hp, hfd, hf, hpipe, World.log,
              List.countP_append, Event.is_sem_post]
      by_cases hw : env.writev_ret =
          (compose K function (message_type_of K function)
            { pioctlu with block := K.init_api_reg pioctlu.block len } len).iov_size
      swap
      · by_cases hf : function = K.CALL_SEND_RAS_MSG
        · subst hf
          simp [srvioctl, srvioctl_write, header_of, hr, hp, hfd, hlock, hw, World.log,
            List.countP_append, Event.is_sem_post]
        · by_cases hpipe : env.pipe_ret = 0
          · simp [srvioctl, srvioctl_write, header_of, hr, hp, hfd, hf, hlock, hpipe, hw,
              World.log, List.countP_append, Event.is_sem_post]
          · simp [srvioctl, srvioctl_write, hr, hp, hfd, hf, hpipe, World.log,
              List.countP_append, Event.is_sem_post]
      by_cases hf : function = K.CALL_SEND_RAS_MSG
      · subst hf
        simp [srvioctl, srvioctl_write, header_of, hr, hp, hfd, hlock, ← hw, World.log,
          List.countP_append, Event.is_sem_post]
      by_cases hpipe : env.pipe_ret = 0
      swap
      · simp [srvioctl, srvioctl_write, hr, hp, hfd, hf, hpipe, World.log,
          List.countP_append, Event.is_sem_post]
      have hwait : env.wait_ret ≠ 0 := fun h =>
        hnot ⟨p, hp, by omega, hf, hpipe, hlock, hw, h⟩
      simp [srvioctl, srvioctl_write, header_of, hr, hp, hfd, hf, hlock, hpipe, ← hw, hwait,
        World.log, List.countP_append, Event.is_sem_post]

/-- C23, witness: a generic request of 4 bytes on the sample world, answered
by a generic reply and its 4 bytes. -/
theorem srvioctl_sem_post_witness :
    (srvioctl Consts.sample (Env.sample 28)
        (World.sample (ACU_SERVICE_MSG.reply 1 0 17) [Chunk.data [6, 7, 8, 9]] [])
        7 IOCTLU.sample 4 3 H323_PIPE_INDEX).world.trace.countP Event.is_sem_post = 0 + 1 ∧
    (srvioctl Consts.sample (Env.sample 28)
        (World.sample (ACU_SERVICE_MSG.reply 1 0 17) [Chunk.data [6, 7, 8, 9]] [])
        7 IOCTLU.sample 4 3 H323_PIPE_INDEX).world.trace.count (Event.sem_post 0) = 0 + 1 :=
  (srvioctl_sem_post Consts.sample (Env.sample 28)
    (World.sample (ACU_SERVICE_MSG.reply 1 0 17) [Chunk.data [6, 7, 8, 9]] [])
    7 IOCTLU.sample 4 3 H323_PIPE_INDEX).1
    ⟨{ fd := 5, svc_msg := ACU_SERVICE_MSG.reply 1 0 17 }, by decide, by decide, by decide,
      by decide, by decide, by decide, by decide⟩

/-- C24: once the write lock is taken (the channel is connected, the pipe, if
any, was created, and `pthread_mutex_lock` returned 0), the trace of
`srvioctl` is: at most a `pipe`, then the lock, the one `writev` of the whole
buffer list, the unlock of the same lock, and then events among which there
is no further lock, `writev` or unlock.  On every path on which the lock is
not taken there is no `writev` and no unlock. -/
theorem srvioctl_write_lock (K : Consts) (env : Env) (w : World) (function : Int)
    (pioctlu : IOCTLU) (len board_card_number voip_protocol : Int) :
    (∀ p : pipe_data, w.pipes.get? voip_protocol = some p → 0 ≤ p.fd →
      (function ≠ K.CALL_SEND_RAS_MSG → env.pipe_ret = 0) → env.lock_ret = 0 →
      ∃ post : List Event,
        (srvioctl K env w function pioctlu len board_card_number voip_protocol).world.trace =
          w.trace ++
            (if function ≠ K.CALL_SEND_RAS_MSG then [Event.pipe 0 env.pipe_fds] else []) ++
            [Event.mutex_lock voip_protocol 0,
             Event.writev p.fd
               { header_of K function board_card_number with
                 pendingMsgEvent :=
                   if function ≠ K.CALL_SEND_RAS_MSG then env.pipe_fds.2 else 0 }
               (compose K function (message_type_of K function)
                 { pioctlu with block := K.init_api_reg pioctlu.block len } len).iov
               env.writev_ret,
             Event.mutex_unlock voip_protocol] ++ post ∧
        post.countP Event.is_lock = 0 ∧ post.countP Event.is_writev = 0 ∧
        post.countP Event.is_unlock = 0) ∧
    ((∀ p : pipe_data, w.pipes.get? voip_protocol = some p → 0 ≤ p.fd →
        (function ≠ K.CALL_SEND_RAS_MSG → env.pipe_ret = 0) → env.lock_ret ≠ 0) →
      (srvioctl K env w function pioctlu len board_card_number
          voip_protocol).world.trace.countP Event.is_writev =
        w.trace.countP Event.is_writev ∧
      (srvioctl K env w function pioctlu len board_card_number
          voip_protocol).world.trace.countP Event.is_unlock =
        w.trace.countP Event.is_unlock) := by
  constructor
  · intro p hp hfd hpipe hlock
    obtain ⟨post, h, hc⟩ := srvioctl_locked_trace K env w function pioctlu len
      board_card_number voip_protocol p hp hfd hpipe hlock
    exact ⟨post, h,
      hc Event.is_lock (fun _ _ => rfl) (fun _ _ => rfl) (fun _ => rfl) (fun _ => rfl)
        (fun _ => rfl),
      hc Event.is_writev (fun _ _ => rfl) (fun _ _ => rfl) (fun _ => rfl) (fun _ => rfl)
        (fun _ => rfl),
      hc Event.is_unlock (fun _ _ => rfl) (fun _ _ => rfl) (fun _ => rfl) (fun _ => rfl)
        (fun _ => rfl)⟩
  · intro hnot
    by_cases hr : voip_protocol < 0 ∨ voip_protocol > MAXNUMPIPES
    · simp [srvioctl, hr]
    cases hp : w.pipes.get? voip_protocol with
    | none => simp [srvioctl, hr, hp]
    | some p =>
      by_cases hfd : p.fd < 0
      · simp [srvioctl, hr, hp, hfd]
      by_cases hf : function = K.CALL_SEND_RAS_MSG
      · have hlock : env.lock_ret ≠ 0 := hnot p hp (by omega) (fun h => absurd hf h)
        simp [srvioctl, srvioctl_write, hr, hp, hfd, hf, hlock, World.log,
          List.countP_append, Event.is_writev, Event.is_unlock]
      · by_cases hpipe : env.pipe_ret = 0
        · have hlock : env.lock_ret ≠ 0 := hnot p hp (by omega) (fun _ => hpipe)
          simp [srvioctl, srvioctl_write, hr, hp, hfd, hf, hlock, hpipe, World.log,
            List.countP_append, Event.is_writev, Event.is_unlock]
        · simp [srvioctl, srvioctl_write, hr, hp, hfd, hf, hpipe, World.log,
            List.countP_append, Event.is_writev, Event.is_unlock]

/-- C24, witness: a generic request of 4 bytes on the sample world, answered
by a generic reply and its 4 bytes. -/
theorem srvioctl_write_lock_witness :
    ∃ post : List Event,
      (srvioctl Consts.sample (Env.sample 28)
          (World.sample (ACU_SERVICE_MSG.reply 1 0 17) [Chunk.data [6, 7, 8, 9]] [])
          7 IOCTLU.sample 4 3 H323_PIPE_INDEX).world.trace =
        [Event.pipe 0 (8, 9),
         Event.mutex_lock 0 0,
         Event.writev 5
           { voip_card := 3, function := 7, message_type := 1,
             pendingMsgEvent := 9, valid := 0, command_error := 0 }
           [{ iov_base := Base.msg, iov_len := 24 },
            { iov_base := Base.pioctlu, iov_len := 4 }]
           28,
         Event.mutex_unlock 0] ++ post ∧
      post.countP Event.is_lock = 0 ∧ post.countP Event.is_writev = 0 ∧
      post.countP Event.is_unlock = 0 :=
  (srvioctl_write_lock Consts.sample (Env.sample 28)
    (World.sample (ACU_SERVICE_MSG.reply 1 0 17) [Chunk.data [6, 7, 8, 9]] [])
    7 IOCTLU.sample 4 3 H323_PIPE_INDEX).1
    { fd := 5, svc_msg := ACU_SERVICE_MSG.reply 1 0 17 } (by decide) (by decide)
    (by decide) (by decide)

/-! ## The claims on the reply stage and on the one-way send -/

/-- C29 (the code departs from the claim): `CALL_GET_RAS_MSG` on the sample
world, answered by a valid administrative reply whose record `[1, 0, 0, 0]`
declares one alias and has null pointer fields; `malloc` returns 40 and the
stream ends before the alias arrives.  `srvioctl` calls `free(40)` and
returns `ERR_CFAIL`, and the alias field of the caller's record still holds
40, the pointer just released. -/
theorem srvioctl_admin_reply_dangling_pointer :
    srvioctl Consts.sample (Env.sample 24)
        (World.sample (ACU_SERVICE_MSG.reply 2 1 0) [Chunk.data [1, 0, 0, 0], Chunk.eof] [40])
        100 IOCTLU.sample 0 3 H323_PIPE_INDEX =
      { outcome := Outcome.ret Consts.sample.ERR_CFAIL,
        pioctlu :=
          { IOCTLU.sample with
            in_admin :=
              { endpoint_alias_count := 1, endpoint_alias := 40, prefix_count := 0,
                prefixes := 0, other := [] },
            in_valid := 1 },
        world :=
          { pipes := (World.sample (ACU_SERVICE_MSG.reply 2 1 0) [] []).pipes,
            chan := [], mallocs := [], heap := [(40, [])],
            trace :=
              [Event.pipe 0 (8, 9),
               Event.mutex_lock 0 0,
               Event.writev 5
                 { voip_card := 3, function := 100, message_type := 2,
                   pendingMsgEvent := 9, valid := 0, command_error := 0 }
                 [{ iov_base := Base.msg, iov_len := 24 }]
                 24,
               Event.mutex_unlock 0,
               Event.read 8 4,
               Event.close 8,
               Event.read 5 4,
               Event.malloc 2 40,
               Event.read 5 2,
               Event.free 40,
               Event.sem_post 0] } } := by
  decide

/-- C30 (the code departs from the claim): the one-way send
`CALL_SEND_RAS_MSG` of the sample caller when `pthread_mutex_lock` fails.  No
pipe was created, and `srvioctl` closes the two descriptors that the
uninitialised `block_pipe` happens to hold, here 77 and 78, before it returns
`ERR_CFAIL`. -/
theorem srvioctl_send_ras_lock_fails :
    srvioctl Consts.sample Env.lock_fails (World.sample ACU_SERVICE_MSG.zero [] [])
        Consts.sample.CALL_SEND_RAS_MSG IOCTLU.sample 4 3 H323_PIPE_INDEX =
      { outcome := Outcome.ret Consts.sample.ERR_CFAIL,
        pioctlu := IOCTLU.sample,
        world :=
          { World.sample ACU_SERVICE_MSG.zero [] [] with
            trace := [Event.mutex_lock 0 22, Event.close 77, Event.close 78] } } := by
  decide

/-- What the reply stage returns, leaves in the caller's block and leaves of
the world apart from the trace does not depend on the trace it starts
with. -/
theorem srvioctl_reply_trace_indep (K : Consts) (w : World) (pioctlu : IOCTLU)
    (len voip_protocol fd : Int) (msg : ACU_SERVICE_MSG) (t1 t2 : List Event) :
    (srvioctl_reply K { w with trace := t1 } pioctlu len voip_protocol fd msg).outcome =
      (srvioctl_reply K { w with trace := t2 } pioctlu len voip_protocol fd msg).outcome ∧
    (srvioctl_reply K { w with trace := t1 } pioctlu len voip_protocol fd msg).pioctlu =
      (srvioctl_reply K { w with trace := t2 } pioctlu len voip_protocol fd msg).pioctlu ∧
    (srvioctl_reply K { w with trace := t1 } pioctlu len voip_protocol fd msg).world.fresh =
      (srvioctl_reply K { w with trace := t2 } pioctlu len voip_protocol fd msg).world.fresh := by
  rw [srvioctl_reply_frame K { w with trace := t1 },
    srvioctl_reply_frame K { w with trace := t2 }]
  simp [World.fresh, Result.after_trace]

/-- C28, counterexample: a generic request of the sample caller answered by
an administrative-tagged header whose validity flag is clear, while the four
bytes of a record are waiting on the stream.  `srvioctl` reads no record: it
takes nothing off the stream, posts the semaphore and returns the header's
status 17. -/
theorem srvioctl_admin_tag_reads_nothing :
    srvioctl Consts.sample (Env.sample 28)
        (World.sample (ACU_SERVICE_MSG.reply 2 0 17) [Chunk.data [0, 0, 0, 0]] [])
        7 IOCTLU.sample 4 3 H323_PIPE_INDEX =
      { outcome := Outcome.ret 17,
        pioctlu := IOCTLU.sample,
        world :=
          { World.sample (ACU_SERVICE_MSG.reply 2 0 17) [Chunk.data [0, 0, 0, 0]] [] with
            trace :=
              [Event.pipe 0 (8, 9),
               Event.mutex_lock 0 0,
               Event.writev 5
                 { voip_card := 3, function := 7, message_type := 1,
                   pendingMsgEvent := 9, valid := 0, command_error := 0 }
                 [{ iov_base := Base.msg, iov_len := 24 },
                  { iov_base := Base.pioctlu, iov_len := 4 }]
                 28,
               Event.mutex_unlock 0,
               Event.read 8 4,
               Event.close 8,
               Event.sem_post 0] } } := by
  decide

/-- C28 (as amended): the reply payload `srvioctl` reads is selected by the
kind tag of the header deposited on the channel alone.  Two requests with a
completion pipe, of whatever opcodes and target ids, that both reach the
reply stage in the same world return the same value and leave the same
caller's block, stream, allocator and heap.  A generic-tagged reply makes it
read exactly `len` bytes (for `0 < len` that the stream supplies) over the
caller's block; an administrative-tagged reply whose validity flag is set
makes it read an administrative record (that the stream supplies) over the
record the caller's block points to, and go on with the arrays; a reply with
any other tag makes it read nothing, post the semaphore and return the
header's status. -/
theorem srvioctl_reply_by_tag (K : Consts) (hK : K.wf) (env env2 : Env) (w : World)
    (function function2 : Int) (pioctlu : IOCTLU)
    (len board_card_number board_card_number2 voip_protocol : Int) (p : pipe_data)
    (hp : w.pipes.get? voip_protocol = some p) (hfd : 0 ≤ p.fd)
    (hf : function ≠ K.CALL_SEND_RAS_MSG) (hpipe : env.pipe_ret = 0)
    (hlock : env.lock_ret = 0)
    (hw : env.writev_ret =
      (compose K function (message_type_of K function)
        { pioctlu with block := K.init_api_reg pioctlu.block len } len).iov_size)
    (hwait : env.wait_ret = 0)
    (hf2 : function2 ≠ K.CALL_SEND_RAS_MSG) (hpipe2 : env2.pipe_ret = 0)
    (hlock2 : env2.lock_ret = 0)
    (hw2 : env2.writev_ret =
      (compose K function2 (message_type_of K function2)
        { pioctlu with block := K.init_api_reg pioctlu.block len } len).iov_size)
    (hwait2 : env2.wait_ret = 0) :
    ((srvioctl K env w function pioctlu len board_card_number voip_protocol).outcome =
        (srvioctl K env2 w function2 pioctlu len board_card_number2 voip_protocol).outcome ∧
      (srvioctl K env w function pioctlu len board_card_number voip_protocol).pioctlu =
        (srvioctl K env2 w function2 pioctlu len board_card_number2 voip_protocol).pioctlu ∧
      (srvioctl K env w function pioctlu len board_card_number voip_protocol).world.fresh =
        (srvioctl K env2 w function2 pioctlu len board_card_number2
          voip_protocol).world.fresh) ∧
    (p.svc_msg.message_type = K.TLS_MSG_GENERIC_TLS → 0 < len → len < 2 ^ 31 →
      supplies w.chan len.toNat = true →
      (srvioctl K env w function pioctlu len board_card_number voip_protocol).outcome =
        Outcome.ret p.svc_msg.command_error ∧
      (srvioctl K env w function pioctlu len board_card_number voip_protocol).pioctlu =
        { pioctlu with
          block := overlay (K.init_api_reg pioctlu.block len) (stream_take w.chan len.toNat) } ∧
      (srvioctl K env w function pioctlu len board_card_number voip_protocol).world.chan =
        stream_drop w.chan len.toNat) ∧
    (p.svc_msg.message_type = K.ADMIN_CHAN_RAS_MSG → p.svc_msg.valid ≠ 0 →
      supplies w.chan K.sizeof_admin_msg = true →
      srvioctl K env w function pioctlu len board_card_number voip_protocol =
        srvioctl_aliases K
          { w with
            chan := stream_drop w.chan K.sizeof_admin_msg,
            trace := w.trace ++
              [Event.pipe 0 env.pipe_fds,
               Event.mutex_lock voip_protocol 0,
               Event.writev p.fd
                 { header_of K function board_card_number with
                   pendingMsgEvent := env.pipe_fds.2 }
                 (compose K function (message_type_of K function)
                   { pioctlu with block := K.init_api_reg pioctlu.block len } len).iov
                 env.writev_ret,
               Event.mutex_unlock voip_protocol,
               Event.read env.pipe_fds.1 4,
               Event.close env.pipe_fds.1] ++
              stream_reads p.fd w.chan K.sizeof_admin_msg }
          { pioctlu with
            block := K.init_api_reg pioctlu.block len,
            in_admin :=
              K.store { pioctlu.in_admin with prefixes := 0, endpoint_alias := 0 }
                (stream_take w.chan K.sizeof_admin_msg),
            in_valid := 1 }
          voip_protocol p.fd p.svc_msg) ∧
    (p.svc_msg.message_type ≠ K.TLS_MSG_GENERIC_TLS →
      p.svc_msg.message_type ≠ K.ADMIN_CHAN_RAS_MSG →
      srvioctl K env w function pioctlu len board_card_number voip_protocol =
        { outcome := Outcome.ret p.svc_msg.command_error,
          pioctlu := { pioctlu with block := K.init_api_reg pioctlu.block len },
          world :=
            { w with
              trace := w.trace ++
                [Event.pipe 0 env.pipe_fds,
                 Event.mutex_lock voip_protocol 0,
                 Event.writev p.fd
                   { header_of K function board_card_number with
                     pendingMsgEvent := env.pipe_fds.2 }
                   (compose K function (message_type_of K function)
                     { pioctlu with block := K.init_api_reg pioctlu.block len } len).iov
                   env.writev_ret,
                 Event.mutex_unlock voip_protocol,
                 Event.read env.pipe_fds.1 4,
                 Event.close env.pipe_fds.1,
                 Event.sem_post voip_protocol] } }) := by
  have h1 := srvioctl_reaches_reply K env w function pioctlu len board_card_number
    voip_protocol p hp hfd hf hpipe hlock hw hwait
  have h2 := srvioctl_reaches_reply K env2 w function2 pioctlu len board_card_number2
    voip_protocol p hp hfd hf2 hpipe2 hlock2 hw2 hwait2
  rw [h1, h2]
  refine ⟨srvioctl_reply_trace_indep K w _ len voip_protocol p.fd p.svc_msg _ _, ?_, ?_, ?_⟩
  · intro hty h0 hlt hsup
    have key := fun t : List Event =>
      srvioctl_reply_generic K { w with trace := t }
        { pioctlu with block := K.init_api_reg pioctlu.block len } len voip_protocol p.fd
        p.svc_msg hty h0 hlt hsup
    rw [key]
    exact ⟨rfl, rfl, rfl⟩
  · intro hty hvalid hsup
    have key := fun t : List Event =>
      srvioctl_reply_admin_record K { w with trace := t }
        { pioctlu with block := K.init_api_reg pioctlu.block len } len voip_protocol p.fd
        p.svc_msg hK hty hvalid hsup
    rw [key]
  · intro hty1 hty2
    simp [srvioctl_reply, hty1, hty2, srvioctl_done, World.log]

/-- C28, witness: a generic request of 4 bytes and a `CALL_GET_RAS_MSG`, on
the sample world in which a generic-tagged reply with the status 17 and its 4
bytes are there. -/
theorem srvioctl_reply_by_tag_witness :
    (srvioctl Consts.sample (Env.sample 28)
        (World.sample (ACU_SERVICE_MSG.reply 1 0 17) [Chunk.data [6, 7, 8, 9]] [])
        7 IOCTLU.sample 4 3 H323_PIPE_INDEX).outcome =
      (srvioctl Consts.sample (Env.sample 24)
        (World.sample (ACU_SERVICE_MSG.reply 1 0 17) [Chunk.data [6, 7, 8, 9]] [])
        100 IOCTLU.sample 4 9 H323_PIPE_INDEX).outcome ∧
    (srvioctl Consts.sample (Env.sample 28)
        (World.sample (ACU_SERVICE_MSG.reply 1 0 17) [Chunk.data [6, 7, 8, 9]] [])
        7 IOCTLU.sample 4 3 H323_PIPE_INDEX).pioctlu =
      (srvioctl Consts.sample (Env.sample 24)
        (World.sample (ACU_SERVICE_MSG.reply 1 0 17) [Chunk.data [6, 7, 8, 9]] [])
        100 IOCTLU.sample 4 9 H323_PIPE_INDEX).pioctlu ∧
    (srvioctl Consts.sample (Env.sample 28)
        (World.sample (ACU_SERVICE_MSG.reply 1 0 17) [Chunk.data [6, 7, 8, 9]] [])
        7 IOCTLU.sample 4 3 H323_PIPE_INDEX).world.fresh =
      (srvioctl Consts.sample (Env.sample 24)
        (World.sample (ACU_SERVICE_MSG.reply 1 0 17) [Chunk.data [6, 7, 8, 9]] [])
        100 IOCTLU.sample 4 9 H323_PIPE_INDEX).world.fresh :=
  (srvioctl_reply_by_tag Consts.sample Consts.sample_wf (Env.sample 28) (Env.sample 24)
    (World.sample (ACU_SERVICE_MSG.reply 1 0 17) [Chunk.data [6, 7, 8, 9]] [])
    7 100 IOCTLU.sample 4 3 9 H323_PIPE_INDEX
    { fd := 5, svc_msg := ACU_SERVICE_MSG.reply 1 0 17 }
    (by decide) (by decide) (by decide) (by decide) (by decide) (by decide) (by decide)
    (by decide) (by decide) (by decide) (by decide) (by decide)).1

/-! ## The claims on read_safely and on the listener -/

/-- When the loop of `read_safely` returns 0 for a positive `size`, the
stream has handed over `size` bytes. -/
theorem read_safely_loop_ret_zero (K : Consts) (fd : Int) (hne : K.ERR_CFAIL ≠ 0) :
    ∀ (chan : List Chunk) (size : Nat) (got : List Nat) (tr : List Event),
      0 < size → (read_safely_loop K fd chan size got tr).ret = 0 →
      supplies chan size = true := by
  intro chan
  induction chan with
  | nil =>
    intro size got tr hs h
    simp [read_safely_loop, hs, hne] at h
  | cons c rest ih =>
    intro size got tr hs h
    obtain ⟨n, rfl⟩ := Nat.exists_eq_succ_of_ne_zero (Nat.pos_iff_ne_zero.mp hs)
    rw [read_safely_loop] at h
    cases c with
    | eintr =>
      simp only [supplies]
      simp [sys_read] at h
      exact ih _ _ _ hs h
    | error => simp [sys_read, hne] at h
    | eof => simp [sys_read, hne] at h
    | data bs =>
      have e0 : ¬ ((bs.length : Int) < 0) := by omega
      have e1 : ¬ ((n : Int) + 1 < 0) := by omega
      simp only [supplies, Bool.and_eq_true, Bool.or_eq_true, decide_eq_true_eq]
      by_cases h1 : n + 1 ≤ bs.length
      · refine ⟨?_, Or.inl h1⟩
        intro hb
        rw [hb] at h1
        simp at h1
      · have h2 : bs.length ≤ n + 1 := by omega
        have h8 : ¬ ((bs.length : Int) = (n : Int) + 1) := by omega
        by_cases hb : bs = []
        · subst hb
          simp [sys_read, hne] at h
        · have hlen : 0 < bs.length := List.length_pos.mpr hb
          have e2 : ¬ ((bs.length : Int) = 0) := by omega
          simp [sys_read, h2, e0, e2, h8, hb] at h
          refine ⟨by simpa using hb, Or.inr ?_⟩
          exact ih _ _ _ (by omega) h

/-- For a positive `size`, `read_safely` returns 0 exactly when the stream
hands over `size` more bytes, and then it has stored exactly these, in order,
taken exactly these off the stream, and asked in each `read` for what was
still missing.  For `size = 0` it returns `ERR_CFAIL`. -/
theorem read_safely_ret_zero_iff (K : Consts) (hK : K.wf) (w : World) (fd : Int)
    (size : Nat) :
    ((read_safely K w fd size).ret = 0 ↔ (0 < size ∧ supplies w.chan size = true)) ∧
    ((read_safely K w fd size).ret = 0 →
      (read_safely K w fd size).stored = stream_take w.chan size ∧
      (read_safely K w fd size).chan = stream_drop w.chan size ∧
      (read_safely K w fd size).trace = w.trace ++ stream_reads fd w.chan size) := by
  have hne : K.ERR_CFAIL ≠ 0 := ne_of_lt hK.cfail_neg
  have key : (read_safely K w fd size).ret = 0 → (0 < size ∧ supplies w.chan size = true) := by
    intro h
    by_cases hs : 0 < size
    · exact ⟨hs, read_safely_loop_ret_zero K fd hne w.chan size [] w.trace hs h⟩
    · have h0 : size = 0 := by omega
      subst h0
      rw [read_safely_zero] at h
      exact absurd h hne
  refine ⟨⟨key, ?_⟩, ?_⟩
  · rintro ⟨hs, hsup⟩
    rw [read_safely_supplied K w fd size hs hsup]
  · intro h
    obtain ⟨hs, hsup⟩ := key h
    rw [read_safely_supplied K w fd size hs hsup]
    exact ⟨rfl, rfl, rfl⟩

/-- C25 (the code departs from the claim): `read_safely` asked for 0 bytes
on a stream on which two bytes are waiting.  Nothing is to be stored and
nothing to be consumed, yet it returns `ERR_CFAIL` and not 0; it makes no
`read`. -/
theorem read_safely_size_zero :
    read_safely Consts.sample (World.sample ACU_SERVICE_MSG.zero [Chunk.data [6, 7]] []) 5 0 =
      { ret := Consts.sample.ERR_CFAIL, stored := [], chan := [Chunk.data [6, 7]],
        trace := [] } := by
  decide

/-- C26: when the header read of the listener fails (end of stream, or an
error other than an interruption), the listener closes the stream handle,
sets it to `-1` and terminates; it closes no other descriptor, so it wakes no
caller, and through every later pass nothing changes.  Every call of
`srvioctl` on a channel whose table entry is the one the listener left fails
with `ERR_CFAIL` and leaves the world as it was: no pipe, no lock, no
`writev`. -/
theorem pipe_admin_thread_gives_up (K : Consts)
    (store_msg : ACU_SERVICE_MSG → List Nat → ACU_SERVICE_MSG) (s : Listener)
    (t : Tick) (ticks : List Tick) (env : Env) (w : World) (function : Int)
    (pioctlu : IOCTLU) (len board_card_number voip_protocol : Int)
    (hphase : s.phase = Phase.listening)
    (hfail : (read_safely_loop K s.pipe.fd s.chan K.sizeof_msg [] s.trace).ret ≠ 0)
    (hw : w.pipes.get? voip_protocol =
      some (pipe_admin_thread_run K store_msg (t :: ticks) s).pipe) :
    (pipe_admin_thread_run K store_msg (t :: ticks) s).phase = Phase.terminated ∧
    (pipe_admin_thread_run K store_msg (t :: ticks) s).pipe.fd = -1 ∧
    (pipe_admin_thread_run K store_msg (t :: ticks) s).open_fds =
      s.open_fds.erase s.pipe.fd ∧
    (pipe_admin_thread_run K store_msg (t :: ticks) s).trace =
      (read_safely_loop K s.pipe.fd s.chan K.sizeof_msg [] s.trace).trace ++
        [Event.close s.pipe.fd] ∧
    srvioctl K env w function pioctlu len board_card_number voip_protocol =
      { outcome := Outcome.ret K.ERR_CFAIL, pioctlu := pioctlu, world := w } := by
  obtain ⟨h1, h2, h3, h4⟩ := pipe_admin_thread_step_read_fails K store_msg t.sem_wait_ret
    { s with read_complete := s.read_complete + t.posts } hphase hfail
  obtain ⟨r1, r2, r3, r4⟩ := pipe_admin_thread_run_terminated K store_msg ticks _ h1
  rw [pipe_admin_thread_run] at hw ⊢
  have hfd : (pipe_admin_thread_run K store_msg ticks
      (pipe_admin_thread_step K store_msg t.sem_wait_ret
        { s with read_complete := s.read_complete + t.posts })).pipe.fd = -1 := by
    rw [r2, h2]
  refine ⟨r1, hfd, ?_, ?_, ?_⟩
  · rw [r3, h3]
  · rw [r4, h4]
  · have hr := Pipes.get?_some_range w.pipes voip_protocol _ hw
    simp [srvioctl, hw, hfd, hr]

/-- C26, witness: the sample listener at end of stream, and a
`CALL_GET_RAS_MSG` on the channel it left. -/
theorem pipe_admin_thread_gives_up_witness :
    (pipe_admin_thread_run Consts.sample ACU_SERVICE_MSG.sample_store
        [{ posts := 0, sem_wait_ret := 0 }, { posts := 1, sem_wait_ret := 0 }]
        (Listener.sample [Chunk.eof])).phase = Phase.terminated ∧
    (pipe_admin_thread_run Consts.sample ACU_SERVICE_MSG.sample_store
        [{ posts := 0, sem_wait_ret := 0 }, { posts := 1, sem_wait_ret := 0 }]
        (Listener.sample [Chunk.eof])).pipe.fd = -1 ∧
    (pipe_admin_thread_run Consts.sample ACU_SERVICE_MSG.sample_store
        [{ posts := 0, sem_wait_ret := 0 }, { posts := 1, sem_wait_ret := 0 }]
        (Listener.sample [Chunk.eof])).open_fds = [8, 9] ∧
    (pipe_admin_thread_run Consts.sample ACU_SERVICE_MSG.sample_store
        [{ posts := 0, sem_wait_ret := 0 }, { posts := 1, sem_wait_ret := 0 }]
        (Listener.sample [Chunk.eof])).trace = [Event.read 5 24, Event.close 5] ∧
    srvioctl Consts.sample (Env.sample 24) World.sample_closed 100 IOCTLU.sample 0 3
        H323_PIPE_INDEX =
      { outcome := Outcome.ret Consts.sample.ERR_CFAIL, pioctlu := IOCTLU.sample,
        world := World.sample_closed } :=
  pipe_admin_thread_gives_up Consts.sample ACU_SERVICE_MSG.sample_store
    (Listener.sample [Chunk.eof]) { posts := 0, sem_wait_ret := 0 }
    [{ posts := 1, sem_wait_ret := 0 }] (Env.sample 24) World.sample_closed 100 IOCTLU.sample
    0 3 H323_PIPE_INDEX (by decide) (by decide) (by decide)

/-- Running the listener through two lists of passes, one after the other. -/
theorem pipe_admin_thread_run_append (K : Consts)
    (store_msg : ACU_SERVICE_MSG → List Nat → ACU_SERVICE_MSG) (l1 l2 : List Tick) :
    ∀ s : Listener,
      pipe_admin_thread_run K store_msg (l1 ++ l2) s =
        pipe_admin_thread_run K store_msg l2 (pipe_admin_thread_run K store_msg l1 s) := by
  induction l1 with
  | nil =>
    intro s
    rfl
  | cons t l1 ih =>
    intro s
    simp only [List.cons_append, pipe_admin_thread_run]
    exact ih _

/-- A listener in `sem_wait` on a semaphore whose count is 0 stays where it
is, and does nothing, as long as nobody posts and `sem_wait` does not
fail. -/
theorem pipe_admin_thread_run_blocked (K : Consts)
    (store_msg : ACU_SERVICE_MSG → List Nat → ACU_SERVICE_MSG) (ticks : List Tick) :
    ∀ s : Listener, s.phase = Phase.waiting → s.read_complete = 0 →
      (∀ u ∈ ticks, u.posts = 0 ∧ u.sem_wait_ret = 0) →
      pipe_admin_thread_run K store_msg ticks s = s := by
  induction ticks with
  | nil =>
    intro s _ _ _
    rfl
  | cons t ticks ih =>
    intro s hphase hzero hq
    obtain ⟨hp, hw⟩ := hq t (List.mem_cons_self t ticks)
    have hstep : pipe_admin_thread_step K store_msg t.sem_wait_ret
        { s with read_complete := s.read_complete + t.posts } = s := by
      unfold pipe_admin_thread_step
      simp only [hphase, hzero, hp, hw]
      cases s
      simp_all
    rw [pipe_admin_thread_run, hstep]
    exact ih s hphase hzero (fun u hu => hq u (List.mem_cons_of_mem t hu))

/-- C27, counterexample: the listener `Listener.sample_three` receives a
header that names the descriptor 9, closes it (the wake-up succeeds) and goes
into `sem_wait`.  First run: nobody ever posts the semaphore and `sem_wait`
fails with -1; in its next pass the listener reads the second header and
closes 8.  Second run: the caller woken first posts only after that failure,
which leaves the count at 1 while the second header is read and 8 is closed;
the `sem_wait` for that second caller returns at once on this count, and the
listener reads the third header and closes 7, although the second caller
never posted and no `sem_wait` failed in that iteration. -/
theorem pipe_admin_thread_reads_after_failed_wait :
    (pipe_admin_thread_run Consts.sample ACU_SERVICE_MSG.sample_store
        [{ posts := 0, sem_wait_ret := 0 }] Listener.sample_three).phase = Phase.waiting ∧
    (pipe_admin_thread_run Consts.sample ACU_SERVICE_MSG.sample_store
        [{ posts := 0, sem_wait_ret := 0 }] Listener.sample_three).trace =
      [Event.read 5 24, Event.close 9] ∧
    (pipe_admin_thread_run Consts.sample ACU_SERVICE_MSG.sample_store
        [{ posts := 0, sem_wait_ret := 0 }] Listener.sample_three).open_fds = [5, 7, 8] ∧
    (pipe_admin_thread_run Consts.sample ACU_SERVICE_MSG.sample_store
        [{ posts := 0, sem_wait_ret := 0 }, { posts := 0, sem_wait_ret := -1 },
         { posts := 0, sem_wait_ret := 0 }] Listener.sample_three).trace =
      [Event.read 5 24, Event.close 9, Event.read 5 24, Event.close 8] ∧
    (pipe_admin_thread_run Consts.sample ACU_SERVICE_MSG.sample_store
        [{ posts := 0, sem_wait_ret := 0 }, { posts := 0, sem_wait_ret := -1 },
         { posts := 0, sem_wait_ret := 0 }] Listener.sample_three).read_complete = 0 ∧
    (pipe_admin_thread_run Consts.sample ACU_SERVICE_MSG.sample_store
        [{ posts := 0, sem_wait_ret := 0 }, { posts := 0, sem_wait_ret := -1 },
         { posts := 1, sem_wait_ret := 0 }] Listener.sample_three).read_complete = 1 ∧
    (pipe_admin_thread_run Consts.sample ACU_SERVICE_MSG.sample_store
        [{ posts := 0, sem_wait_ret := 0 }, { posts := 0, sem_wait_ret := -1 },
         { posts := 1, sem_wait_ret := 0 }] Listener.sample_three).trace =
      [Event.read 5 24, Event.close 9, Event.read 5 24, Event.close 8] ∧
    (pipe_admin_thread_run Consts.sample ACU_SERVICE_MSG.sample_store
        [{ posts := 0, sem_wait_ret := 0 }, { posts := 0, sem_wait_ret := -1 },
         { posts := 1, sem_wait_ret := 0 }, { posts := 0, sem_wait_ret := 0 },
         { posts := 0, sem_wait_ret := 0 }] Listener.sample_three).trace =
      [Event.read 5 24, Event.close 9, Event.read 5 24, Event.close 8, Event.read 5 24,
       Event.close 7] := by
  decide

/-- C27 (as amended): in any iteration of the listener, whatever the count of
the semaphore when it starts: the header arrives in the pass `t`.  When the
descriptor named in it is open, so that the wake-up close succeeds, the
listener is in `sem_wait` after that pass.  It stays there, and reads nothing,
through the passes `ticks` when the count is 0, nobody posts and `sem_wait`
does not fail.  From there one more pass `u` leaves it there when `sem_wait`
does not fail and the count is still 0; takes it back to reading, with the
count one less, when `sem_wait` does not fail and the count is positive,
whoever posted and whenever; and takes it back to reading with the count
untouched when `sem_wait` fails.  When the close fails, the listener is back
at reading after the pass `t`, without waiting. -/
theorem pipe_admin_thread_waits (K : Consts)
    (store_msg : ACU_SERVICE_MSG → List Nat → ACU_SERVICE_MSG) (s : Listener)
    (t : Tick) (ticks : List Tick)
    (hphase : s.phase = Phase.listening)
    (hread : (read_safely_loop K s.pipe.fd s.chan K.sizeof_msg [] s.trace).ret = 0) :
    ((store_msg s.pipe.svc_msg
          (read_safely_loop K s.pipe.fd s.chan K.sizeof_msg [] s.trace).stored).pendingMsgEvent ∈
        s.open_fds →
      pipe_admin_thread_run K store_msg [t] s =
        { pipe :=
            { fd := s.pipe.fd,
              svc_msg := store_msg s.pipe.svc_msg
                (read_safely_loop K s.pipe.fd s.chan K.sizeof_msg [] s.trace).stored },
          chan := (read_safely_loop K s.pipe.fd s.chan K.sizeof_msg [] s.trace).chan,
          open_fds := s.open_fds.erase
            (store_msg s.pipe.svc_msg
              (read_safely_loop K s.pipe.fd s.chan K.sizeof_msg [] s.trace).stored).pendingMsgEvent,
          read_complete := s.read_complete + t.posts,
          phase := Phase.waiting,
          trace := (read_safely_loop K s.pipe.fd s.chan K.sizeof_msg [] s.trace).trace ++
            [Event.close
              (store_msg s.pipe.svc_msg
                (read_safely_loop K s.pipe.fd s.chan K.sizeof_msg [] s.trace).stored).pendingMsgEvent] } ∧
      (s.read_complete + t.posts = 0 → (∀ u ∈ ticks, u.posts = 0 ∧ u.sem_wait_ret = 0) →
        pipe_admin_thread_run K store_msg (t :: ticks) s =
          pipe_admin_thread_run K store_msg [t] s) ∧
      (pipe_admin_thread_run K store_msg (t :: ticks) s =
          pipe_admin_thread_run K store_msg [t] s →
        ∀ u : Tick,
          (u.sem_wait_ret = 0 → s.read_complete + t.posts + u.posts = 0 →
            pipe_admin_thread_run K store_msg (t :: ticks ++ [u]) s =
              pipe_admin_thread_run K store_msg [t] s) ∧
          (u.sem_wait_ret = 0 → 0 < s.read_complete + t.posts + u.posts →
            pipe_admin_thread_run K store_msg (t :: ticks ++ [u]) s =
              { pipe_admin_thread_run K store_msg [t] s with
                read_complete := s.read_complete + t.posts + u.posts - 1,
                phase := Phase.listening }) ∧
          (u.sem_wait_ret ≠ 0 →
            pipe_admin_thread_run K store_msg (t :: ticks ++ [u]) s =
              { pipe_admin_thread_run K store_msg [t] s with
                read_complete := s.read_complete + t.posts + u.posts,
                phase := Phase.listening }))) ∧
    ((store_msg s.pipe.svc_msg
          (read_safely_loop K s.pipe.fd s.chan K.sizeof_msg [] s.trace).stored).pendingMsgEvent ∉
        s.open_fds →
      pipe_admin_thread_run K store_msg [t] s =
        { pipe :=
            { fd := s.pipe.fd,
              svc_msg := store_msg s.pipe.svc_msg
                (read_safely_loop K s.pipe.fd s.chan K.sizeof_msg [] s.trace).stored },
          chan := (read_safely_loop K s.pipe.fd s.chan K.sizeof_msg [] s.trace).chan,
          open_fds := s.open_fds,
          read_complete := s.read_complete + t.posts,
          phase := Phase.listening,
          trace := (read_safely_loop K s.pipe.fd s.chan K.sizeof_msg [] s.trace).trace ++
            [Event.close
              (store_msg s.pipe.svc_msg
                (read_safely_loop K s.pipe.fd s.chan K.sizeof_msg [] s.trace).stored).pendingMsgEvent] }) := by
  constructor
  · intro hopen
    have hstep : pipe_admin_thread_run K store_msg [t] s =
        { pipe :=
            { fd := s.pipe.fd,
              svc_msg := store_msg s.pipe.svc_msg
                (read_safely_loop K s.pipe.fd s.chan K.sizeof_msg [] s.trace).stored },
          chan := (read_safely_loop K s.pipe.fd s.chan K.sizeof_msg [] s.trace).chan,
          open_fds := s.open_fds.erase
            (store_msg s.pipe.svc_msg
              (read_safely_loop K s.pipe.fd s.chan K.sizeof_msg [] s.trace).stored).pendingMsgEvent,
          read_complete := s.read_complete + t.posts,
          phase := Phase.waiting,
          trace := (read_safely_loop K s.pipe.fd s.chan K.sizeof_msg [] s.trace).trace ++
            [Event.close
              (store_msg s.pipe.svc_msg
                (read_safely_loop K s.pipe.fd s.chan K.sizeof_msg [] s.trace).stored).pendingMsgEvent] } := by
      rw [pipe_admin_thread_run, pipe_admin_thread_run]
      unfold pipe_admin_thread_step
      simp [hphase, hread, hopen]
    refine ⟨hstep, ?_, ?_⟩
    · intro hzero hq
      have hcons : t :: ticks = [t] ++ ticks := rfl
      rw [hcons, pipe_admin_thread_run_append]
      refine pipe_admin_thread_run_blocked K store_msg ticks _ ?_ ?_ hq
      · rw [hstep]
      · rw [hstep]
        exact hzero
    · intro hrun u
      have happ : t :: ticks ++ [u] = (t :: ticks) ++ [u] := rfl
      rw [happ, pipe_admin_thread_run_append, hrun, hstep]
      simp only [pipe_admin_thread_run, pipe_admin_thread_step]
      refine ⟨?_, ?_, ?_⟩
      · intro hw hc
        have h1 : s.read_complete + t.posts = 0 := by omega
        have h2 : u.posts = 0 := by omega
        simp [hw, hc, h1, h2]
      · intro hw hc
        have hne : ¬ (s.read_complete + t.posts + u.posts = 0) := by omega
        simp [hw, hne]
      · intro hw
        simp [hw]
  · intro hclosed
    rw [pipe_admin_thread_run, pipe_admin_thread_run]
    unfold pipe_admin_thread_step
    simp [hphase, hread, hclosed]

/-- C27, witness: the listener `Listener.sample_three`, with one post that
arrives before the first header is read. -/
theorem pipe_admin_thread_waits_witness :
    pipe_admin_thread_run Consts.sample ACU_SERVICE_MSG.sample_store
        [{ posts := 1, sem_wait_ret := 0 }] Listener.sample_three =
      { pipe := { fd := 5, svc_msg := { ACU_SERVICE_MSG.zero with pendingMsgEvent := 9 } },
        chan := [Chunk.sample_header 8 0, Chunk.sample_header 7 0],
        open_fds := [5, 7, 8],
        read_complete := 1,
        phase := Phase.waiting,
        trace := [Event.read 5 24, Event.close 9] } :=
  ((pipe_admin_thread_waits Consts.sample ACU_SERVICE_MSG.sample_store
    Listener.sample_three { posts := 1, sem_wait_ret := 0 } []
    (by decide) (by decide)).1 (by decide)).1

end Clunix
